import Mathlib

/-!
# LightweightVK: handles, holders, mapped buffers and the command recorder

A shallow embedding of `lvk/LVK.h` (Handle, Holder), of
`src/igl/vulkan/VulkanBuffer.cpp` and of `src/igl/vulkan/CommandBuffer.cpp`,
and a model of the generational `Pool` after its specification, followed by
the properties established about them.

Conventions of the embedding:
* `uint32_t`, `size_t`, `VkDeviceSize` values are natural numbers; where the
  source truncates or wraps, the model reduces modulo `2^32` or `2^64`.
* raw pointers and native Vulkan handles are natural numbers, `0` being
  `nullptr` / `VK_NULL_HANDLE`.
* calls into code outside these files (`lvk::destroy`, the native `vk*` /
  `vma*` entry points, `ctx_->deferredTask`) are recorded, in call order, in
  explicit logs that are passed through the operations.
* assertions are those of a debug build (`IGL_ASSERT`, `IGL_ASSERT_MSG`,
  `IGL_VERIFY` call `lvk::Assert`): a failed assertion is a fault, identified
  by the source line of the assertion, and execution goes on after it.
* C arrays of fixed size are functions of the position; only the positions
  below the size of the array are read.
* a null dereference or an out-of-range shift sets the flag `ub` of the
  recorder, and nothing is executed after it.
* `float` values are those that are integers; the conversion of a `uint32_t`
  to `float` and the subtraction of floats round to binary32.
-/

namespace lvk

/-! ## lvk/LVK.h : Handle -/

/-- The class template `Handle<ObjectType>`: a 32-bit index and a 32-bit
generation, both initialised to zero by the default constructor. -/
structure Handle (ObjectType : Type) where
  index_ : Nat := 0
  gen_ : Nat := 0

instance Handle.instDecidableEq {ObjectType : Type} : DecidableEq (Handle ObjectType) :=
  fun a b =>
    match a, b with
    | ⟨i, g⟩, ⟨j, k⟩ =>
      if h : i = j ∧ g = k then isTrue (by rw [h.1, h.2])
      else isFalse (fun he => h ⟨congrArg Handle.index_ he, congrArg Handle.gen_ he⟩)

namespace Handle

variable {ObjectType : Type}

/-- The member `bool empty() const`. -/
def empty (h : Handle ObjectType) : Bool := h.gen_ == 0

/-- The member `bool valid() const`. -/
def valid (h : Handle ObjectType) : Bool := h.gen_ != 0

/-- The member `uint32_t index() const`. -/
def index (h : Handle ObjectType) : Nat := h.index_

/-- The member `uint32_t gen() const`. -/
def gen (h : Handle ObjectType) : Nat := h.gen_

/-- The member `bool operator==(const Handle&) const`. -/
def operatorEq (a other : Handle ObjectType) : Bool :=
  a.index_ == other.index_ && a.gen_ == other.gen_

/-- The member `bool operator!=(const Handle&) const`. -/
def operatorNe (a other : Handle ObjectType) : Bool :=
  a.index_ != other.index_ || a.gen_ != other.gen_

end Handle

/-- Tag type of `ComputePipelineHandle`. -/
inductive ComputePipeline : Type

/-- Tag type of `RenderPipelineHandle`. -/
inductive RenderPipeline : Type

/-- Tag type of `ShaderModuleHandle`. -/
inductive ShaderModule : Type

/-- Tag type of the `TextureHandle` used by `CommandBuffer.cpp`. -/
inductive Texture : Type

/-- Tag type of the `BufferHandle` used by `CommandBuffer.cpp`. -/
inductive Buffer : Type

abbrev ComputePipelineHandle := Handle ComputePipeline
abbrev RenderPipelineHandle := Handle RenderPipeline
abbrev ShaderModuleHandle := Handle ShaderModule
abbrev TextureHandle := Handle Texture
abbrev BufferHandle := Handle Buffer

/-! ## lvk/LVK.h : Holder -/

/-- The null pointer, also `VK_NULL_HANDLE`. -/
def nullptr : Nat := 0

/-- One call `lvk::destroy(device, handle)`; the function is only declared in
`LVK.h`, so a call is recorded with its two arguments. -/
structure DestroyRequest (ObjectType : Type) where
  device : Nat
  handle : Handle ObjectType

instance DestroyRequest.instDecidableEq {ObjectType : Type} :
    DecidableEq (DestroyRequest ObjectType) :=
  fun a b =>
    match a, b with
    | ⟨d, h⟩, ⟨e, k⟩ =>
      if hh : d = e ∧ h = k then isTrue (by rw [hh.1, hh.2])
      else isFalse (fun he =>
        hh ⟨congrArg DestroyRequest.device he, congrArg DestroyRequest.handle he⟩)

/-- The class template `Holder<HandleType>` with `HandleType = Handle<ObjectType>`:
the owning device pointer and the handle. -/
structure Holder (ObjectType : Type) where
  device_ : Nat := nullptr
  handle_ : Handle ObjectType := {}

namespace Holder

variable {ObjectType : Type}

/-- The constructor `Holder(lvk::IDevice* device, HandleType handle)`. -/
def ctor (device : Nat) (handle : Handle ObjectType) : Holder ObjectType :=
  { device_ := device, handle_ := handle }

/-- The destructor `~Holder()`: one call of `lvk::destroy(device_, handle_)`. -/
def dtor (self : Holder ObjectType) (log : List (DestroyRequest ObjectType)) :
    List (DestroyRequest ObjectType) :=
  log ++ [{ device := self.device_, handle := self.handle_ }]

/-- The move constructor `Holder(Holder&& other)`; returns the new object, the
moved-from object and the (untouched) log of destroy calls. -/
def moveCtor (other : Holder ObjectType) (log : List (DestroyRequest ObjectType)) :
    Holder ObjectType × Holder ObjectType × List (DestroyRequest ObjectType) :=
  ({ device_ := other.device_, handle_ := other.handle_ },
   { other with device_ := nullptr, handle_ := {} },
   log)

/-- The move assignment `Holder& operator=(Holder&& other)`: two `std::swap`s;
returns `*this`, `other` and the (untouched) log of destroy calls. -/
def moveAssign (self other : Holder ObjectType) (log : List (DestroyRequest ObjectType)) :
    Holder ObjectType × Holder ObjectType × List (DestroyRequest ObjectType) :=
  ({ device_ := other.device_, handle_ := other.handle_ },
   { device_ := self.device_, handle_ := self.handle_ },
   log)

/-- The conversion `operator HandleType() const`. -/
def toHandle (self : Holder ObjectType) : Handle ObjectType := self.handle_

/-- The member `bool valid() const`. -/
def valid (self : Holder ObjectType) : Bool := self.handle_.valid

/-- The member `bool empty() const`. -/
def empty (self : Holder ObjectType) : Bool := self.handle_.empty

/-- The member `void reset()`. -/
def reset (self : Holder ObjectType) (log : List (DestroyRequest ObjectType)) :
    Holder ObjectType × List (DestroyRequest ObjectType) :=
  ({ self with device_ := nullptr, handle_ := {} },
   log ++ [{ device := self.device_, handle := self.handle_ }])

/-- The assignment `Holder& operator=(std::nullptr_t)`, which calls `reset()`. -/
def assignNullptr (self : Holder ObjectType) (log : List (DestroyRequest ObjectType)) :
    Holder ObjectType × List (DestroyRequest ObjectType) :=
  self.reset log

/-- The member `HandleType release()`; returns the handle and the holder afterwards. -/
def release (self : Holder ObjectType) : Handle ObjectType × Holder ObjectType :=
  (self.handle_, { self with device_ := nullptr, handle_ := {} })

end Holder

/-- The two calls that clear a Holder in place. -/
inductive HolderCall : Type
  | reset
  | assignNullptr
deriving DecidableEq, Repr

/-- Perform one clearing call on a Holder and the log of destroy calls. -/
def Holder.call {ObjectType : Type} (c : HolderCall)
    (st : Holder ObjectType × List (DestroyRequest ObjectType)) :
    Holder ObjectType × List (DestroyRequest ObjectType) :=
  match c with
  | .reset => st.1.reset st.2
  | .assignNullptr => st.1.assignNullptr st.2

/-- The whole life of one Holder: construction from `(device, handle)`, the
given clearing calls in order, then the destructor. The result is the list of
all `lvk::destroy` calls it made, in call order. -/
def Holder.lifetime {ObjectType : Type} (device : Nat) (handle : Handle ObjectType)
    (calls : List HolderCall) : List (DestroyRequest ObjectType) :=
  let st := calls.foldl (fun st c => Holder.call c st) (Holder.ctor device handle, [])
  st.1.dtor st.2

/-! ## src/igl/vulkan/VulkanBuffer.cpp -/

namespace vulkan

/-- One byte of host memory. -/
abbrev Byte := Fin 256

/-- The macro `IGL_ASSERT(cond)` of a debug build, in the files whose functions
return their faults: a failed assertion is reported as a fault, identified by
the source line of the assertion, and execution continues. -/
def IGL_ASSERT (line : Nat) (cond : Bool) : List Nat :=
  if cond then [] else [line]

/-- The effect of `memcpy(dst + dstOffset, src + srcOffset, n)` on the
destination block; `dst` and `src` are the memory seen from the two base
pointers, which do not overlap. Positions are natural numbers: the model is
that of the code as long as no pointer wraps, that is for
`dstOffset + n` and `srcOffset + n` below `2^64`. -/
def memcpy (dst : Nat → Byte) (dstOffset : Nat) (src : Nat → Byte) (srcOffset : Nat)
    (n : Nat) : Nat → Byte :=
  fun i => if dstOffset ≤ i ∧ i < dstOffset + n then src (srcOffset + (i - dstOffset)) else dst i

/-- The effect of `memset(dst + dstOffset, value, n)` on the destination
block, as long as `dstOffset + n` is below `2^64`. -/
def memset (dst : Nat → Byte) (dstOffset : Nat) (value : Byte) (n : Nat) : Nat → Byte :=
  fun i => if dstOffset ≤ i ∧ i < dstOffset + n then value else dst i

/-- The native calls made by `VulkanBuffer.cpp` when a buffer goes away. -/
inductive NativeCall : Type
  | vmaUnmapMemory (allocator allocation : Nat)
  | vkUnmapMemory (device memory : Nat)
  | vmaDestroyBuffer (allocator buffer allocation : Nat)
  | vkDestroyBuffer (device buffer : Nat)
  | vkFreeMemory (device memory : Nat)
deriving DecidableEq, Repr

/-- The native teardown functions: those that destroy a buffer or free its memory. -/
def NativeCall.isTeardown : NativeCall → Bool
  | .vmaDestroyBuffer _ _ _ => true
  | .vkDestroyBuffer _ _ => true
  | .vkFreeMemory _ _ => true
  | .vmaUnmapMemory _ _ => false
  | .vkUnmapMemory _ _ => false

/-- A `std::packaged_task<void()>` built from a lambda: the native calls its
body makes when it is run, with the values captured at construction. -/
structure DeferredTask where
  body : List NativeCall
deriving DecidableEq, Repr

/-- What a `VulkanBuffer` destructor acts on through `ctx_`: the VMA allocator
returned by `getVmaAllocator()`, the native calls made so far, and the tasks
handed to `deferredTask` so far. -/
structure DeviceWorld where
  vmaAllocator : Nat
  nativeCalls : List NativeCall := []
  deferredTasks : List DeferredTask := []
deriving DecidableEq, Repr

/-- Running a deferred task makes the native calls of its body. -/
def DeferredTask.run (t : DeferredTask) (w : DeviceWorld) : DeviceWorld :=
  { w with nativeCalls := w.nativeCalls ++ t.body }

/-- The struct `VmaAllocationCreateInfo`, as far as the constructor fills it. -/
structure VmaAllocationCreateInfo where
  flags : Nat := 0
  usage : Nat := 0
  requiredFlags : Nat := 0
  preferredFlags : Nat := 0
deriving DecidableEq, Repr

/-- The data members of `VulkanBuffer`, in the order of the move constructor. -/
structure VulkanBuffer where
  ctx_ : Nat := nullptr
  device_ : Nat := nullptr
  vkBuffer_ : Nat := nullptr
  vkMemory_ : Nat := nullptr
  vmaAllocInfo_ : VmaAllocationCreateInfo := {}
  vmaAllocation_ : Nat := nullptr
  vkDeviceAddress_ : Nat := 0
  bufferSize_ : Nat := 0
  usageFlags_ : Nat := 0
  memFlags_ : Nat := 0
  mappedPtr_ : Nat := nullptr
deriving DecidableEq, Repr

namespace VulkanBuffer

/-- The destructor `VulkanBuffer::~VulkanBuffer()`; the build-time constant
`IGL_VULKAN_USE_VMA` is a parameter. -/
def dtor (IGL_VULKAN_USE_VMA : Bool) (self : VulkanBuffer) (w : DeviceWorld) : DeviceWorld :=
  if self.ctx_ = nullptr then
    w
  else if IGL_VULKAN_USE_VMA then
    let w1 :=
      if self.mappedPtr_ ≠ nullptr then
        { w with nativeCalls := w.nativeCalls ++ [.vmaUnmapMemory w.vmaAllocator self.vmaAllocation_] }
      else w
    { w1 with deferredTasks := w1.deferredTasks ++
        [{ body := [.vmaDestroyBuffer w1.vmaAllocator self.vkBuffer_ self.vmaAllocation_] }] }
  else
    let w1 :=
      if self.mappedPtr_ ≠ nullptr then
        { w with nativeCalls := w.nativeCalls ++ [.vkUnmapMemory self.device_ self.vkMemory_] }
      else w
    { w1 with deferredTasks := w1.deferredTasks ++
        [{ body := [.vkDestroyBuffer self.device_ self.vkBuffer_,
                    .vkFreeMemory self.device_ self.vkMemory_] }] }

/-- The move constructor `VulkanBuffer(VulkanBuffer&& other)`; returns the new
object and the moved-from object. -/
def moveCtor (other : VulkanBuffer) : VulkanBuffer × VulkanBuffer :=
  ({ ctx_ := other.ctx_,
     device_ := other.device_,
     vkBuffer_ := other.vkBuffer_,
     vkMemory_ := other.vkMemory_,
     vmaAllocInfo_ := other.vmaAllocInfo_,
     vmaAllocation_ := other.vmaAllocation_,
     vkDeviceAddress_ := other.vkDeviceAddress_,
     bufferSize_ := other.bufferSize_,
     usageFlags_ := other.usageFlags_,
     memFlags_ := other.memFlags_,
     mappedPtr_ := other.mappedPtr_ },
   { other with ctx_ := nullptr })

/-- The move assignment `VulkanBuffer::operator=(VulkanBuffer&& other)`: every
member is swapped; returns `*this` and `other`. -/
def moveAssign (self other : VulkanBuffer) : VulkanBuffer × VulkanBuffer :=
  ({ ctx_ := other.ctx_,
     device_ := other.device_,
     vkBuffer_ := other.vkBuffer_,
     vkMemory_ := other.vkMemory_,
     vmaAllocInfo_ := other.vmaAllocInfo_,
     vmaAllocation_ := other.vmaAllocation_,
     vkDeviceAddress_ := other.vkDeviceAddress_,
     bufferSize_ := other.bufferSize_,
     usageFlags_ := other.usageFlags_,
     memFlags_ := other.memFlags_,
     mappedPtr_ := other.mappedPtr_ },
   { ctx_ := self.ctx_,
     device_ := self.device_,
     vkBuffer_ := self.vkBuffer_,
     vkMemory_ := self.vkMemory_,
     vmaAllocInfo_ := self.vmaAllocInfo_,
     vmaAllocation_ := self.vmaAllocation_,
     vkDeviceAddress_ := self.vkDeviceAddress_,
     bufferSize_ := self.bufferSize_,
     usageFlags_ := self.usageFlags_,
     memFlags_ := self.memFlags_,
     mappedPtr_ := self.mappedPtr_ })

/-- The member `getBufferSubData(size_t offset, size_t size, void* data)`.
`mapped` is the host memory seen from `mappedPtr_`, `data` the memory seen
from the destination pointer; the result is the destination memory afterwards
and the faults raised. The sum in the assertion is a `size_t` sum. -/
def getBufferSubData (self : VulkanBuffer) (mapped : Nat → Byte) (offset size : Nat)
    (data : Nat → Byte) : (Nat → Byte) × List Nat :=
  let f1 := IGL_ASSERT 161 (self.mappedPtr_ != nullptr)
  if self.mappedPtr_ = nullptr then
    (data, f1)
  else
    let f2 := IGL_ASSERT 167 (decide ((offset + size) % 2 ^ 64 ≤ self.bufferSize_))
    (memcpy data 0 mapped offset size, f1 ++ f2)

/-- The member `bufferSubData(size_t offset, size_t size, const void* data)`.
`mapped` is the host memory seen from `mappedPtr_`; `data` is `none` for a null
pointer and otherwise the memory seen from the source pointer; the result is
the mapped memory afterwards and the faults raised. -/
def bufferSubData (self : VulkanBuffer) (mapped : Nat → Byte) (offset size : Nat)
    (data : Option (Nat → Byte)) : (Nat → Byte) × List Nat :=
  let f1 := IGL_ASSERT 176 (self.mappedPtr_ != nullptr)
  if self.mappedPtr_ = nullptr then
    (mapped, f1)
  else
    let f2 := IGL_ASSERT 182 (decide ((offset + size) % 2 ^ 64 ≤ self.bufferSize_))
    match data with
    | some src => (memcpy mapped offset src 0 size, f1 ++ f2)
    | none => (memset mapped offset 0 size, f1 ++ f2)

end VulkanBuffer

/-- A host-visible buffer of 256 bytes, mapped at address 4096, with native
buffer 21 and allocation 23. -/
def sampleMappedBuffer : VulkanBuffer :=
  { ctx_ := 1, vkBuffer_ := 21, vmaAllocation_ := 23, bufferSize_ := 256, mappedPtr_ := 4096 }

/-- A data block whose byte `i` is `i mod 256`. -/
def sampleData : Nat → Byte := fun i => Fin.ofNat i

/-- A context whose VMA allocator is 9, with nothing called or deferred yet. -/
def sampleWorld : DeviceWorld := { vmaAllocator := 9 }

end vulkan

/-! ## lvk/LVK.h : enumerations and descriptors used by the command recorder

`CommandBuffer.cpp` names some members differently from the `LVK.h` at hand
(`color`, `depth`, `stencil`, `depthStencil`, `depthFormat`, handles in place of
shared pointers); the structures below carry the names that
`CommandBuffer.cpp` uses. -/

/-- The constant `IGL_COLOR_ATTACHMENTS_MAX` (`LVK_MAX_COLOR_ATTACHMENTS`). -/
def IGL_COLOR_ATTACHMENTS_MAX : Nat := 4

/-- The enum `IndexFormat`. -/
inductive IndexFormat : Type
  | IndexFormat_UI16
  | IndexFormat_UI32
deriving DecidableEq, Repr

/-- The enum `PrimitiveType`. -/
inductive PrimitiveType : Type
  | Primitive_Point
  | Primitive_Line
  | Primitive_LineStrip
  | Primitive_Triangle
  | Primitive_TriangleStrip
deriving DecidableEq, Repr

/-- The enum `CompareOp`. -/
inductive CompareOp : Type
  | CompareOp_Never
  | CompareOp_Less
  | CompareOp_Equal
  | CompareOp_LessEqual
  | CompareOp_Greater
  | CompareOp_NotEqual
  | CompareOp_GreaterEqual
  | CompareOp_AlwaysPass
deriving DecidableEq, Repr

/-- The enum `StencilOp`. -/
inductive StencilOp : Type
  | StencilOp_Keep
  | StencilOp_Zero
  | StencilOp_Replace
  | StencilOp_IncrementClamp
  | StencilOp_DecrementClamp
  | StencilOp_Invert
  | StencilOp_IncrementWrap
  | StencilOp_DecrementWrap
deriving DecidableEq, Repr

/-- The enum `LoadOp`. -/
inductive LoadOp : Type
  | LoadOp_Invalid
  | LoadOp_DontCare
  | LoadOp_Load
  | LoadOp_Clear
  | LoadOp_None
deriving DecidableEq, Repr

/-- The enum `StoreOp`. -/
inductive StoreOp : Type
  | StoreOp_DontCare
  | StoreOp_Store
  | StoreOp_MsaaResolve
  | StoreOp_None
deriving DecidableEq, Repr

/-- The value `Invalid = 0` of the format enumeration. -/
def Format_Invalid : Nat := 0

/-- A `float` whose value is an integer. The recorder passes floats on,
negates them, subtracts them and converts `uint32_t` values to them; the
conversion and the subtraction round to binary32 (`roundToFloat`). -/
abbrev FloatValue := Int

/-- The number of halvings that bring `n` below `2^24`: the least `e` with
`n < 2^(24 + e)`, for at most `fuel` halvings. -/
def floatExponent : Nat → Nat → Nat
  | 0, _ => 0
  | fuel + 1, n => if n < 2 ^ 24 then 0 else floatExponent fuel (n / 2) + 1

/-- Rounding of a magnitude to the nearest binary32 value (a significand of
24 bits), ties to even, the default rounding of IEEE 754; for magnitudes in
the finite range of binary32. -/
def roundToFloat (n : Nat) : Nat :=
  if 2 * (n % 2 ^ floatExponent 128 n) < 2 ^ floatExponent 128 n ∨
      (2 * (n % 2 ^ floatExponent 128 n) = 2 ^ floatExponent 128 n ∧
        (n / 2 ^ floatExponent 128 n) % 2 = 0) then
    (n / 2 ^ floatExponent 128 n) * 2 ^ floatExponent 128 n
  else (n / 2 ^ floatExponent 128 n + 1) * 2 ^ floatExponent 128 n

/-- The conversion `(float)x` of a `uint32_t`. -/
def uint32ToFloat (x : Nat) : FloatValue := ((roundToFloat x : Nat) : Int)

/-- The `float` subtraction `a - b`: the exact difference, rounded. -/
def floatSub (a b : FloatValue) : FloatValue :=
  if a - b < 0 then -((roundToFloat (a - b).natAbs : Nat) : Int)
  else ((roundToFloat (a - b).natAbs : Nat) : Int)

/-- The struct `Color`. -/
structure Color where
  r : FloatValue := 0
  g : FloatValue := 0
  b : FloatValue := 0
  a : FloatValue := 0
deriving DecidableEq, Repr

/-- The struct `ScissorRect`. -/
structure ScissorRect where
  x : Nat := 0
  y : Nat := 0
  width : Nat := 0
  height : Nat := 0
deriving DecidableEq, Repr

/-- The struct `Dimensions`. -/
structure Dimensions where
  width : Nat := 0
  height : Nat := 0
  depth : Nat := 0
deriving DecidableEq, Repr

/-- The struct `Viewport`. -/
structure Viewport where
  x : FloatValue := 0
  y : FloatValue := 0
  width : FloatValue := 1
  height : FloatValue := 1
  minDepth : FloatValue := 0
  maxDepth : FloatValue := 1
deriving DecidableEq, Repr

/-- The struct `StencilStateDesc`. -/
structure StencilStateDesc where
  stencilFailureOp : StencilOp := .StencilOp_Keep
  depthFailureOp : StencilOp := .StencilOp_Keep
  depthStencilPassOp : StencilOp := .StencilOp_Keep
  stencilCompareOp : CompareOp := .CompareOp_AlwaysPass
  readMask : Nat := 2 ^ 32 - 1
  writeMask : Nat := 2 ^ 32 - 1
deriving DecidableEq, Repr

/-- The struct `DepthStencilState`. -/
structure DepthStencilState where
  compareOp : CompareOp := .CompareOp_AlwaysPass
  isDepthWriteEnabled : Bool := false
  backFaceStencil : StencilStateDesc := {}
  frontFaceStencil : StencilStateDesc := {}
deriving DecidableEq, Repr

/-- The struct `AttachmentDesc` of a render pass. -/
structure AttachmentDesc where
  loadOp : LoadOp := .LoadOp_Invalid
  storeOp : StoreOp := .StoreOp_Store
  layer : Nat := 0
  level : Nat := 0
  clearColor : Color := {}
  clearDepth : FloatValue := 1
  clearStencil : Nat := 0
deriving DecidableEq, Repr

/-- The loop `n = 0; while (n < max && used[n]) n++; return n;` shared by the
`getNum...` members, started at `n` with `fuel` iterations left. -/
def countLeading (used : Nat → Bool) (max : Nat) : Nat → Nat → Nat
  | 0, n => n
  | fuel + 1, n => if n < max ∧ used n = true then countLeading used max fuel (n + 1) else n

/-- The struct `RenderPass`; arrays are indexed by position, `0 ≤ i < 4`. -/
structure RenderPass where
  color : Nat → AttachmentDesc := fun _ => {}
  depth : AttachmentDesc := { loadOp := .LoadOp_DontCare, storeOp := .StoreOp_DontCare }
  stencil : AttachmentDesc := { loadOp := .LoadOp_Invalid, storeOp := .StoreOp_DontCare }

/-- The member `RenderPass::getNumColorAttachments()`. -/
def RenderPass.getNumColorAttachments (self : RenderPass) : Nat :=
  countLeading (fun n => decide ((self.color n).loadOp ≠ .LoadOp_Invalid))
    IGL_COLOR_ATTACHMENTS_MAX IGL_COLOR_ATTACHMENTS_MAX 0

/-- The struct `Framebuffer::AttachmentDesc`, holding texture handles. -/
structure FramebufferAttachmentDesc where
  texture : TextureHandle := {}
  resolveTexture : TextureHandle := {}
deriving DecidableEq

/-- The struct `Framebuffer`; `color` is indexed by position, `0 ≤ i < 4`. -/
structure Framebuffer where
  color : Nat → FramebufferAttachmentDesc := fun _ => {}
  depthStencil : FramebufferAttachmentDesc := {}

/-- Modelled from the spec: the conversion of a handle to `bool`, used by
`CommandBuffer.cpp` in conditions and absent from the `LVK.h` at hand; a
handle counts as set exactly when its generation is not 0. -/
def Handle.toBool {ObjectType : Type} (h : Handle ObjectType) : Bool := h.valid

/-- The member `Framebuffer::getNumColorAttachments()`. -/
def Framebuffer.getNumColorAttachments (self : Framebuffer) : Nat :=
  countLeading (fun n => (self.color n).texture.toBool)
    IGL_COLOR_ATTACHMENTS_MAX IGL_COLOR_ATTACHMENTS_MAX 0

/-- The constant `Dependencies::IGL_MAX_SUBMIT_DEPENDENCIES`. -/
def IGL_MAX_SUBMIT_DEPENDENCIES : Nat := 4

/-- The struct `Dependencies`; `textures` is indexed by position, `0 ≤ i < 4`. -/
structure Dependencies where
  textures : Nat → TextureHandle := fun _ => {}

/-! ## Vulkan types and constants named by CommandBuffer.cpp -/

namespace vulkan

def VK_FORMAT_UNDEFINED : Nat := 0
def VK_SAMPLE_COUNT_1_BIT : Nat := 1
def VK_IMAGE_ASPECT_COLOR_BIT : Nat := 1
def VK_REMAINING_MIP_LEVELS : Nat := 2 ^ 32 - 1
def VK_REMAINING_ARRAY_LAYERS : Nat := 2 ^ 32 - 1
def VK_PIPELINE_STAGE_TOP_OF_PIPE_BIT : Nat := 0x1
def VK_PIPELINE_STAGE_FRAGMENT_SHADER_BIT : Nat := 0x80
def VK_PIPELINE_STAGE_LATE_FRAGMENT_TESTS_BIT : Nat := 0x200
def VK_PIPELINE_STAGE_COLOR_ATTACHMENT_OUTPUT_BIT : Nat := 0x400
def VK_PIPELINE_STAGE_COMPUTE_SHADER_BIT : Nat := 0x800
def VK_PIPELINE_STAGE_BOTTOM_OF_PIPE_BIT : Nat := 0x2000
def VK_STENCIL_FACE_FRONT_BIT : Nat := 1
def VK_STENCIL_FACE_BACK_BIT : Nat := 2
def VK_SHADER_STAGE_VERTEX_BIT : Nat := 0x1
def VK_SHADER_STAGE_FRAGMENT_BIT : Nat := 0x10
def VK_SHADER_STAGE_COMPUTE_BIT : Nat := 0x20
def VK_BUFFER_USAGE_VERTEX_BUFFER_BIT : Nat := 0x80
def VK_STRUCTURE_TYPE_RENDERING_INFO : Nat := 1000044000
def VK_STRUCTURE_TYPE_RENDERING_ATTACHMENT_INFO : Nat := 1000044001

/-- The value of `sizeof(VkDrawIndirectCommand)`: four 32-bit members. -/
def sizeof_VkDrawIndirectCommand : Nat := 16

/-- The value of `sizeof(VkDrawIndexedIndirectCommand)`: five 32-bit members. -/
def sizeof_VkDrawIndexedIndirectCommand : Nat := 20

/-- The image layouts; `VK_IMAGE_LAYOUT_UNDEFINED` is the zero value. -/
inductive VkImageLayout : Type
  | VK_IMAGE_LAYOUT_UNDEFINED
  | VK_IMAGE_LAYOUT_GENERAL
  | VK_IMAGE_LAYOUT_COLOR_ATTACHMENT_OPTIMAL
  | VK_IMAGE_LAYOUT_DEPTH_STENCIL_ATTACHMENT_OPTIMAL
  | VK_IMAGE_LAYOUT_DEPTH_STENCIL_READ_ONLY_OPTIMAL
  | VK_IMAGE_LAYOUT_SHADER_READ_ONLY_OPTIMAL
  | VK_IMAGE_LAYOUT_TRANSFER_SRC_OPTIMAL
  | VK_IMAGE_LAYOUT_TRANSFER_DST_OPTIMAL
  | VK_IMAGE_LAYOUT_PREINITIALIZED
  | VK_IMAGE_LAYOUT_PRESENT_SRC_KHR
deriving DecidableEq, Repr

inductive VkPipelineBindPoint : Type
  | VK_PIPELINE_BIND_POINT_GRAPHICS
  | VK_PIPELINE_BIND_POINT_COMPUTE
deriving DecidableEq, Repr

/-- The attachment load operations; `VK_ATTACHMENT_LOAD_OP_LOAD` is the zero value. -/
inductive VkAttachmentLoadOp : Type
  | VK_ATTACHMENT_LOAD_OP_LOAD
  | VK_ATTACHMENT_LOAD_OP_CLEAR
  | VK_ATTACHMENT_LOAD_OP_DONT_CARE
  | VK_ATTACHMENT_LOAD_OP_NONE_EXT
deriving DecidableEq, Repr

/-- The attachment store operations; `VK_ATTACHMENT_STORE_OP_STORE` is the zero value. -/
inductive VkAttachmentStoreOp : Type
  | VK_ATTACHMENT_STORE_OP_STORE
  | VK_ATTACHMENT_STORE_OP_DONT_CARE
  | VK_ATTACHMENT_STORE_OP_NONE
deriving DecidableEq, Repr

inductive VkStencilOp : Type
  | VK_STENCIL_OP_KEEP
  | VK_STENCIL_OP_ZERO
  | VK_STENCIL_OP_REPLACE
  | VK_STENCIL_OP_INCREMENT_AND_CLAMP
  | VK_STENCIL_OP_DECREMENT_AND_CLAMP
  | VK_STENCIL_OP_INVERT
  | VK_STENCIL_OP_INCREMENT_AND_WRAP
  | VK_STENCIL_OP_DECREMENT_AND_WRAP
deriving DecidableEq, Repr

inductive VkCompareOp : Type
  | VK_COMPARE_OP_NEVER
  | VK_COMPARE_OP_LESS
  | VK_COMPARE_OP_EQUAL
  | VK_COMPARE_OP_LESS_OR_EQUAL
  | VK_COMPARE_OP_GREATER
  | VK_COMPARE_OP_NOT_EQUAL
  | VK_COMPARE_OP_GREATER_OR_EQUAL
  | VK_COMPARE_OP_ALWAYS
deriving DecidableEq, Repr

inductive VkIndexType : Type
  | VK_INDEX_TYPE_UINT16
  | VK_INDEX_TYPE_UINT32
  | VK_INDEX_TYPE_NONE_KHR
deriving DecidableEq, Repr

inductive VkPrimitiveTopology : Type
  | VK_PRIMITIVE_TOPOLOGY_POINT_LIST
  | VK_PRIMITIVE_TOPOLOGY_LINE_LIST
  | VK_PRIMITIVE_TOPOLOGY_LINE_STRIP
  | VK_PRIMITIVE_TOPOLOGY_TRIANGLE_LIST
  | VK_PRIMITIVE_TOPOLOGY_TRIANGLE_STRIP
  | VK_PRIMITIVE_TOPOLOGY_TRIANGLE_FAN
  | VK_PRIMITIVE_TOPOLOGY_MAX_ENUM
deriving DecidableEq, Repr

inductive VkResolveModeFlagBits : Type
  | VK_RESOLVE_MODE_NONE
  | VK_RESOLVE_MODE_AVERAGE_BIT
deriving DecidableEq, Repr

/-- The struct `VkImageSubresourceRange`. -/
structure VkImageSubresourceRange where
  aspectMask : Nat
  baseMipLevel : Nat
  levelCount : Nat
  baseArrayLayer : Nat
  layerCount : Nat
deriving DecidableEq, Repr

/-- The struct `VkViewport`. -/
structure VkViewport where
  x : FloatValue
  y : FloatValue
  width : FloatValue
  height : FloatValue
  minDepth : FloatValue
  maxDepth : FloatValue
deriving DecidableEq, Repr

/-- The struct `VkRect2D`: an offset of two `int32_t` and an extent of two `uint32_t`. -/
structure VkRect2D where
  offsetX : Int
  offsetY : Int
  extentWidth : Nat
  extentHeight : Nat
deriving DecidableEq, Repr

/-- The union `VkClearValue`, with its value-initialised state. -/
inductive VkClearValue : Type
  | zero
  | color (r g b a : FloatValue)
  | depthStencil (depth : FloatValue) (stencil : Nat)
deriving DecidableEq, Repr

/-- The struct `VkRenderingAttachmentInfo`; the defaults are its value-initialised state. -/
structure VkRenderingAttachmentInfo where
  sType : Nat := 0
  pNext : Nat := nullptr
  imageView : Nat := nullptr
  imageLayout : VkImageLayout := .VK_IMAGE_LAYOUT_UNDEFINED
  resolveMode : VkResolveModeFlagBits := .VK_RESOLVE_MODE_NONE
  resolveImageView : Nat := nullptr
  resolveImageLayout : VkImageLayout := .VK_IMAGE_LAYOUT_UNDEFINED
  loadOp : VkAttachmentLoadOp := .VK_ATTACHMENT_LOAD_OP_LOAD
  storeOp : VkAttachmentStoreOp := .VK_ATTACHMENT_STORE_OP_STORE
  clearValue : VkClearValue := .zero
deriving DecidableEq, Repr

/-- The struct `VkRenderingInfo`; pointers to attachment structures are
represented by the structures pointed to. -/
structure VkRenderingInfo where
  sType : Nat
  pNext : Nat
  flags : Nat
  renderArea : VkRect2D
  layerCount : Nat
  viewMask : Nat
  colorAttachmentCount : Nat
  pColorAttachments : List VkRenderingAttachmentInfo
  pDepthAttachment : Option VkRenderingAttachmentInfo
  pStencilAttachment : Option VkRenderingAttachmentInfo
deriving DecidableEq, Repr

/-- A call made by the recorder on `wrapper_->cmdBuf_` or on `ctx_`, with its
arguments. `transitionLayout` stands for the barrier recorded by
`VulkanImage::transitionLayout` for the image at the given address. -/
inductive VkCmd : Type
  | transitionLayout (image : Nat) (oldLayout newLayout : VkImageLayout)
      (srcStageMask dstStageMask : Nat) (subresourceRange : VkImageSubresourceRange)
  | vkCmdBindPipeline (bindPoint : VkPipelineBindPoint) (pipeline : Nat)
  | checkAndUpdateDescriptorSets
  | bindDefaultDescriptorSets (bindPoint : VkPipelineBindPoint)
  | vkCmdDispatch (groupCountX groupCountY groupCountZ : Nat)
  | ivkCmdBeginDebugUtilsLabel (label : Nat) (color : Color)
  | ivkCmdInsertDebugUtilsLabel (label : Nat) (color : Color)
  | ivkCmdEndDebugUtilsLabel
  | vkCmdSetViewport (firstViewport viewportCount : Nat) (viewport : VkViewport)
  | vkCmdSetScissor (firstScissor scissorCount : Nat) (scissor : VkRect2D)
  | vkCmdBeginRendering (renderingInfo : VkRenderingInfo)
  | vkCmdEndRendering
  | vkCmdSetStencilReference (faceMask reference : Nat)
  | vkCmdSetStencilCompareMask (faceMask compareMask : Nat)
  | vkCmdSetStencilWriteMask (faceMask writeMask : Nat)
  | vkCmdBindVertexBuffers (firstBinding bindingCount buffer offset : Nat)
  | vkCmdPushConstants (layout stageFlags offset size data : Nat)
  | vkCmdDraw (vertexCount instanceCount firstVertex firstInstance : Nat)
  | vkCmdBindIndexBuffer (buffer offset : Nat) (indexType : VkIndexType)
  | vkCmdDrawIndexed (indexCount instanceCount firstIndex vertexOffset firstInstance : Nat)
  | vkCmdDrawIndirect (buffer offset drawCount stride : Nat)
  | vkCmdDrawIndexedIndirect (buffer offset drawCount stride : Nat)
  | vkCmdSetBlendConstants (color : Color)
  | vkCmdSetDepthBias (depthBiasConstantFactor depthBiasClamp depthBiasSlopeFactor : FloatValue)
deriving DecidableEq, Repr

/-! ## The objects the recorder reaches through `ctx_` -/

/-- The members of `VulkanImage` read or written by `CommandBuffer.cpp`.
`isStorageImage` and `aspectFlags` hold the results of the members
`isStorageImage()` and `getImageAspectFlags()`, which are constant for an image. -/
structure VulkanImage where
  imageFormat_ : Nat := VK_FORMAT_UNDEFINED
  isDepthFormat_ : Bool := false
  isStencilFormat_ : Bool := false
  samples_ : Nat := VK_SAMPLE_COUNT_1_BIT
  imageLayout_ : VkImageLayout := .VK_IMAGE_LAYOUT_UNDEFINED
  isStorageImage : Bool := false
  aspectFlags : Nat := VK_IMAGE_ASPECT_COLOR_BIT
deriving DecidableEq, Repr

/-- The members of `VulkanTexture` read by `CommandBuffer.cpp`: `image_` is the
address of the `VulkanImage` it shares; `dimensions`, `isSwapchainTexture` and
`imageViewForFramebuffer` hold the results of `getDimensions()`,
`isSwapchainTexture()` and `getVkImageViewForFramebuffer(0)`. -/
structure VulkanTexture where
  image_ : Nat
  dimensions : Dimensions := {}
  isSwapchainTexture : Bool := false
  imageViewForFramebuffer : Nat := nullptr
deriving DecidableEq, Repr

/-- Modelled from the spec: the dynamic state of a render pipeline
(`RenderPipelineDynamicState`, declared outside the files at hand): topology,
depth-bias enable, depth write and compare, and the stencil operations of the
two faces. -/
structure RenderPipelineDynamicState where
  topology_ : VkPrimitiveTopology := .VK_PRIMITIVE_TOPOLOGY_TRIANGLE_LIST
  depthCompareOp_ : VkCompareOp := .VK_COMPARE_OP_ALWAYS
  stencilFrontFailOp_ : VkStencilOp := .VK_STENCIL_OP_KEEP
  stencilFrontPassOp_ : VkStencilOp := .VK_STENCIL_OP_KEEP
  stencilFrontDepthFailOp_ : VkStencilOp := .VK_STENCIL_OP_KEEP
  stencilFrontCompareOp_ : VkCompareOp := .VK_COMPARE_OP_ALWAYS
  stencilBackFailOp_ : VkStencilOp := .VK_STENCIL_OP_KEEP
  stencilBackPassOp_ : VkStencilOp := .VK_STENCIL_OP_KEEP
  stencilBackDepthFailOp_ : VkStencilOp := .VK_STENCIL_OP_KEEP
  stencilBackCompareOp_ : VkCompareOp := .VK_COMPARE_OP_ALWAYS
  depthBiasEnable_ : Bool := false
  depthWriteEnable_ : Bool := false
deriving DecidableEq, Repr

namespace RenderPipelineDynamicState

/-- Modelled from the spec: the setter `setTopology`. -/
def setTopology (self : RenderPipelineDynamicState) (topology : VkPrimitiveTopology) :
    RenderPipelineDynamicState :=
  { self with topology_ := topology }

/-- Modelled from the spec: the setter `setDepthCompareOp`. -/
def setDepthCompareOp (self : RenderPipelineDynamicState) (depthCompareOp : VkCompareOp) :
    RenderPipelineDynamicState :=
  { self with depthCompareOp_ := depthCompareOp }

/-- Modelled from the spec: the setter `setStencilStateOps`, which stores the
four operations for each face selected by `faceMask`
(cf. `VulkanPipelineBuilder::stencilStateOps`). -/
def setStencilStateOps (self : RenderPipelineDynamicState) (faceMask : Nat)
    (failOp passOp depthFailOp : VkStencilOp) (compareOp : VkCompareOp) :
    RenderPipelineDynamicState :=
  let s1 :=
    if faceMask &&& VK_STENCIL_FACE_FRONT_BIT ≠ 0 then
      { self with stencilFrontFailOp_ := failOp, stencilFrontPassOp_ := passOp,
                  stencilFrontDepthFailOp_ := depthFailOp, stencilFrontCompareOp_ := compareOp }
    else self
  if faceMask &&& VK_STENCIL_FACE_BACK_BIT ≠ 0 then
    { s1 with stencilBackFailOp_ := failOp, stencilBackPassOp_ := passOp,
              stencilBackDepthFailOp_ := depthFailOp, stencilBackCompareOp_ := compareOp }
  else s1

end RenderPipelineDynamicState

/-- The part of `RenderPipelineDesc` read by `CommandBuffer.cpp`. -/
structure RenderPipelineDesc where
  depthFormat : Nat := Format_Invalid
deriving DecidableEq, Repr

/-- The class `RenderPipelineState` as the recorder sees it: the description
returned by `getRenderPipelineDesc()` and the native pipeline returned by
`getVkPipeline(dynamicState)`, a function of the dynamic state. -/
structure RenderPipelineState where
  desc_ : RenderPipelineDesc := {}
  getVkPipeline : RenderPipelineDynamicState → Nat

/-- What the recorder reads through `ctx_` and does not change: the lookups
`get(handle)` of the four pools (`none` for a null result), the device limit
`maxPushConstantsSize`, the pipeline layout, and the two free functions of
`Common.h` that `CommandBuffer.cpp` calls. -/
structure VulkanContext where
  texturesPool_ : TextureHandle → Option VulkanTexture
  buffersPool_ : BufferHandle → Option VulkanBuffer
  renderPipelinesPool_ : RenderPipelineHandle → Option RenderPipelineState
  computePipelinesPool_ : ComputePipelineHandle → Option Nat
  maxPushConstantsSize : Nat
  vkPipelineLayout_ : Nat
  isDepthOrStencilVkFormat : Nat → Bool
  compareOpToVkCompareOp : CompareOp → VkCompareOp

/-- The class `CommandBuffer` together with what its member functions act on:
its data members; the `VulkanImage` objects, by address (their tracked layout
is mutable); the calls recorded so far; the faults (failed assertions, by line
of `CommandBuffer.cpp`) and warnings (`LLOGW`, by line) raised so far; and
`ub`, set once a null pointer has been dereferenced or a shift count was out
of range, after which nothing more is executed. -/
structure CommandBuffer where
  ctx_ : VulkanContext
  framebuffer_ : Framebuffer := {}
  dynamicState_ : RenderPipelineDynamicState := {}
  currentPipeline_ : RenderPipelineHandle := {}
  lastPipelineBound_ : Nat := nullptr
  isRendering_ : Bool := false
  images : Nat → VulkanImage
  commands : List VkCmd := []
  faults : List Nat := []
  warnings : List Nat := []
  ub : Bool := false

namespace CommandBuffer

/-- Modelled from the spec: `lvk::Assert`, reached through `IGL_ASSERT`,
`IGL_ASSERT_MSG` and `IGL_VERIFY` in a debug build and defined outside the
files at hand: a false condition is reported as a fault and control returns
to the caller. -/
def assert (self : CommandBuffer) (line : Nat) (cond : Bool) : CommandBuffer :=
  if cond then self else { self with faults := self.faults ++ [line] }

/-- The logging macro `LLOGW`, by source line. -/
def warn (self : CommandBuffer) (line : Nat) : CommandBuffer :=
  { self with warnings := self.warnings ++ [line] }

/-- Record one call on the native command buffer or on the context. -/
def record (self : CommandBuffer) (c : VkCmd) : CommandBuffer :=
  { self with commands := self.commands ++ [c] }

/-- Undefined behaviour was reached: execution stops here. -/
def crash (self : CommandBuffer) : CommandBuffer :=
  { self with ub := true }

/-- Modelled from the spec: `VulkanImage::transitionLayout`, defined outside
the files at hand: it records a one-shot transition of the image from its
tracked layout to `newImageLayout` with the given stage masks and makes
`newImageLayout` the tracked layout. -/
def transitionLayout (self : CommandBuffer) (image : Nat) (newImageLayout : VkImageLayout)
    (srcStageMask dstStageMask : Nat) (subresourceRange : VkImageSubresourceRange) :
    CommandBuffer :=
  { self with
    commands := self.commands ++
      [.transitionLayout image (self.images image).imageLayout_ newImageLayout
        srcStageMask dstStageMask subresourceRange],
    images := Function.update self.images image
      { self.images image with imageLayout_ := newImageLayout } }

/-- The assignment `image->imageLayout_ = layout`. -/
def setImageLayout (self : CommandBuffer) (image : Nat) (layout : VkImageLayout) :
    CommandBuffer :=
  { self with
    images := Function.update self.images image { self.images image with imageLayout_ := layout } }

end CommandBuffer

/-! ## src/igl/vulkan/CommandBuffer.cpp : the helpers of the anonymous namespace -/

/-- Report the faults raised by a helper that returns them. -/
def CommandBuffer.raise (self : CommandBuffer) (raised : List Nat) : CommandBuffer :=
  { self with faults := self.faults ++ raised }

/-- The conversion `(int32_t)x` of a `uint32_t`. -/
def toInt32 (x : Nat) : Int :=
  if x % 2 ^ 32 < 2 ^ 31 then ((x % 2 ^ 32 : Nat) : Int) else ((x % 2 ^ 32 : Nat) : Int) - 2 ^ 32

/-- The function `transitionColorAttachment(buffer, colorTex)`; `colorTex` is
`none` for a null pointer. -/
def transitionColorAttachment (s : CommandBuffer) (colorTex : Option VulkanTexture) :
    CommandBuffer :=
  let s := s.assert 26 colorTex.isSome
  match colorTex with
  | none => s
  | some tex =>
    let colorImg := s.images tex.image_
    let notDepthStencil := !colorImg.isDepthFormat_ && !colorImg.isStencilFormat_
    let s := s.assert 31 notDepthStencil
    if !notDepthStencil then
      s.assert 32 false
    else
      let s := s.assert 35 (colorImg.imageFormat_ != VK_FORMAT_UNDEFINED)
      s.transitionLayout tex.image_ .VK_IMAGE_LAYOUT_COLOR_ATTACHMENT_OPTIMAL
        VK_PIPELINE_STAGE_COLOR_ATTACHMENT_OUTPUT_BIT
        (VK_PIPELINE_STAGE_FRAGMENT_SHADER_BIT ||| VK_PIPELINE_STAGE_COMPUTE_SHADER_BIT)
        { aspectMask := VK_IMAGE_ASPECT_COLOR_BIT, baseMipLevel := 0,
          levelCount := VK_REMAINING_MIP_LEVELS, baseArrayLayer := 0,
          layerCount := VK_REMAINING_ARRAY_LAYERS }

/-- The function `loadOpToVkAttachmentLoadOp`; `LoadOp_Invalid` falls out of
the switch, fails the assertion of line 56 and yields `DONT_CARE`. -/
def loadOpToVkAttachmentLoadOp (a : LoadOp) : VkAttachmentLoadOp × List Nat :=
  match a with
  | .LoadOp_DontCare => (.VK_ATTACHMENT_LOAD_OP_DONT_CARE, [])
  | .LoadOp_Load => (.VK_ATTACHMENT_LOAD_OP_LOAD, [])
  | .LoadOp_Clear => (.VK_ATTACHMENT_LOAD_OP_CLEAR, [])
  | .LoadOp_None => (.VK_ATTACHMENT_LOAD_OP_NONE_EXT, [])
  | .LoadOp_Invalid => (.VK_ATTACHMENT_LOAD_OP_DONT_CARE, IGL_ASSERT 56 false)

/-- The function `storeOpToVkAttachmentStoreOp`. -/
def storeOpToVkAttachmentStoreOp (a : StoreOp) : VkAttachmentStoreOp :=
  match a with
  | .StoreOp_DontCare => .VK_ATTACHMENT_STORE_OP_DONT_CARE
  | .StoreOp_Store => .VK_ATTACHMENT_STORE_OP_STORE
  | .StoreOp_MsaaResolve => .VK_ATTACHMENT_STORE_OP_DONT_CARE
  | .StoreOp_None => .VK_ATTACHMENT_STORE_OP_NONE

/-- The function `stencilOpToVkStencilOp`. -/
def stencilOpToVkStencilOp (op : StencilOp) : VkStencilOp :=
  match op with
  | .StencilOp_Keep => .VK_STENCIL_OP_KEEP
  | .StencilOp_Zero => .VK_STENCIL_OP_ZERO
  | .StencilOp_Replace => .VK_STENCIL_OP_REPLACE
  | .StencilOp_IncrementClamp => .VK_STENCIL_OP_INCREMENT_AND_CLAMP
  | .StencilOp_DecrementClamp => .VK_STENCIL_OP_DECREMENT_AND_CLAMP
  | .StencilOp_Invert => .VK_STENCIL_OP_INVERT
  | .StencilOp_IncrementWrap => .VK_STENCIL_OP_INCREMENT_AND_WRAP
  | .StencilOp_DecrementWrap => .VK_STENCIL_OP_DECREMENT_AND_WRAP

/-- The function `indexFormatToVkIndexType`. -/
def indexFormatToVkIndexType (fmt : IndexFormat) : VkIndexType :=
  match fmt with
  | .IndexFormat_UI16 => .VK_INDEX_TYPE_UINT16
  | .IndexFormat_UI32 => .VK_INDEX_TYPE_UINT32

/-- The function `primitiveTypeToVkPrimitiveTopology`. -/
def primitiveTypeToVkPrimitiveTopology (t : PrimitiveType) : VkPrimitiveTopology :=
  match t with
  | .Primitive_Point => .VK_PRIMITIVE_TOPOLOGY_POINT_LIST
  | .Primitive_Line => .VK_PRIMITIVE_TOPOLOGY_LINE_LIST
  | .Primitive_LineStrip => .VK_PRIMITIVE_TOPOLOGY_LINE_STRIP
  | .Primitive_Triangle => .VK_PRIMITIVE_TOPOLOGY_TRIANGLE_LIST
  | .Primitive_TriangleStrip => .VK_PRIMITIVE_TOPOLOGY_TRIANGLE_STRIP

/-! ## src/igl/vulkan/CommandBuffer.cpp : the member functions -/

namespace CommandBuffer

/-- Modelled from the spec: the state of a recorder after `acquire()`: the
members hold their defaults (no pipeline bound, not rendering, empty
framebuffer snapshot) and nothing is recorded. -/
def ctor (ctx : VulkanContext) (images : Nat → VulkanImage) : CommandBuffer :=
  { ctx_ := ctx, images := images }

/-- The destructor `~CommandBuffer()`. -/
def dtor (s : CommandBuffer) : CommandBuffer :=
  s.assert 20 (!s.isRendering_)

/-- The member `transitionToShaderReadOnly(TextureHandle handle)`. -/
def transitionToShaderReadOnly (s : CommandBuffer) (handle : TextureHandle) : CommandBuffer :=
  match s.ctx_.texturesPool_ handle with
  | none => s.crash
  | some tex =>
    let img := s.images tex.image_
    let s := s.assert 136 (!tex.isSwapchainTexture)
    if img.samples_ = VK_SAMPLE_COUNT_1_BIT then
      let flags := img.aspectFlags
      let srcStage :=
        if s.ctx_.isDepthOrStencilVkFormat img.imageFormat_ then
          VK_PIPELINE_STAGE_LATE_FRAGMENT_TESTS_BIT
        else VK_PIPELINE_STAGE_COLOR_ATTACHMENT_OUTPUT_BIT
      s.transitionLayout tex.image_ .VK_IMAGE_LAYOUT_SHADER_READ_ONLY_OPTIMAL srcStage
        (VK_PIPELINE_STAGE_FRAGMENT_SHADER_BIT ||| VK_PIPELINE_STAGE_COMPUTE_SHADER_BIT)
        { aspectMask := flags, baseMipLevel := 0, levelCount := VK_REMAINING_MIP_LEVELS,
          baseArrayLayer := 0, layerCount := VK_REMAINING_ARRAY_LAYERS }
    else s

/-- The member `cmdBindComputePipeline(ComputePipelineHandle handle)`. The
pool yields a pointer to a `VkPipeline`; `none` is the null pointer, which the
function dereferences after the assertion of line 163. The inner test
`pipeline != VK_NULL_HANDLE` is made on that pointer. -/
def cmdBindComputePipeline (s : CommandBuffer) (handle : ComputePipelineHandle) :
    CommandBuffer :=
  let s := s.assert 157 (!handle.empty)
  if handle.empty then s
  else
    let pipeline := s.ctx_.computePipelinesPool_ handle
    let s := s.assert 163 pipeline.isSome
    match pipeline with
    | none => s.crash
    | some pipelineValue =>
      let s := s.assert 164 (pipelineValue != nullptr)
      if s.lastPipelineBound_ != pipelineValue then
        let s := { s with lastPipelineBound_ := pipelineValue }
        if pipeline.isSome then
          s.record (.vkCmdBindPipeline .VK_PIPELINE_BIND_POINT_COMPUTE pipelineValue)
        else s
      else s

/-- The member `useComputeTexture(TextureHandle handle)`. -/
def useComputeTexture (s : CommandBuffer) (handle : TextureHandle) : CommandBuffer :=
  let s := s.assert 206 (!handle.empty)
  match s.ctx_.texturesPool_ handle with
  | none => s.crash
  | some tex =>
    let vkImage := s.images tex.image_
    if !vkImage.isStorageImage then
      s.assert 210 false
    else
      let srcStage :=
        if vkImage.imageLayout_ = .VK_IMAGE_LAYOUT_GENERAL then
          VK_PIPELINE_STAGE_COMPUTE_SHADER_BIT
        else VK_PIPELINE_STAGE_BOTTOM_OF_PIPE_BIT
      s.transitionLayout tex.image_ .VK_IMAGE_LAYOUT_GENERAL srcStage
        VK_PIPELINE_STAGE_COMPUTE_SHADER_BIT
        { aspectMask := vkImage.aspectFlags, baseMipLevel := 0,
          levelCount := VK_REMAINING_MIP_LEVELS, baseArrayLayer := 0,
          layerCount := VK_REMAINING_ARRAY_LAYERS }

/-- The loop of `cmdDispatchThreadGroups` over the remaining indices:
`for (i = 0; i != IGL_MAX_SUBMIT_DEPENDENCIES && deps.textures[i]; i++)
useComputeTexture(deps.textures[i]);`. -/
def useComputeTextures (deps : Dependencies) : List Nat → CommandBuffer → CommandBuffer
  | [], s => s
  | i :: rest, s =>
    if (deps.textures i).toBool then
      let s1 := s.useComputeTexture (deps.textures i)
      if s1.ub then s1 else useComputeTextures deps rest s1
    else s

/-- The member `cmdDispatchThreadGroups(threadgroupCount, deps)`. -/
def cmdDispatchThreadGroups (s : CommandBuffer) (threadgroupCount : Dimensions)
    (deps : Dependencies) : CommandBuffer :=
  let s := s.assert 175 (!s.isRendering_)
  let s := useComputeTextures deps (List.range IGL_MAX_SUBMIT_DEPENDENCIES) s
  if s.ub then s
  else
    let s := s.record .checkAndUpdateDescriptorSets
    let s := s.record (.bindDefaultDescriptorSets .VK_PIPELINE_BIND_POINT_COMPUTE)
    s.record (.vkCmdDispatch threadgroupCount.width threadgroupCount.height
      threadgroupCount.depth)

/-- The member `cmdPushDebugGroupLabel(label, color)`; `label` is a pointer. -/
def cmdPushDebugGroupLabel (s : CommandBuffer) (label : Nat) (color : Color) : CommandBuffer :=
  let s := s.assert 188 (label != nullptr)
  s.record (.ivkCmdBeginDebugUtilsLabel label color)

/-- The member `cmdInsertDebugEventLabel(label, color)`; `label` is a pointer. -/
def cmdInsertDebugEventLabel (s : CommandBuffer) (label : Nat) (color : Color) :
    CommandBuffer :=
  let s := s.assert 194 (label != nullptr)
  s.record (.ivkCmdInsertDebugUtilsLabel label color)

/-- The member `cmdPopDebugGroupLabel()`. -/
def cmdPopDebugGroupLabel (s : CommandBuffer) : CommandBuffer :=
  s.record .ivkCmdEndDebugUtilsLabel

/-- The member `cmdBindViewport(viewport)`. -/
def cmdBindViewport (s : CommandBuffer) (viewport : Viewport) : CommandBuffer :=
  s.record (.vkCmdSetViewport 0 1
    { x := viewport.x, y := floatSub viewport.height viewport.y, width := viewport.width,
      height := -viewport.height, minDepth := viewport.minDepth,
      maxDepth := viewport.maxDepth })

/-- The member `cmdBindScissorRect(rect)`. -/
def cmdBindScissorRect (s : CommandBuffer) (rect : ScissorRect) : CommandBuffer :=
  s.record (.vkCmdSetScissor 0 1
    { offsetX := toInt32 rect.x, offsetY := toInt32 rect.y,
      extentWidth := rect.width, extentHeight := rect.height })

end CommandBuffer

namespace CommandBuffer

/-- One iteration of the first loop of `cmdBeginRendering` (lines 241-251):
transition the colour attachment `i` and its resolve texture, when set. -/
def beginTransitionColor (fb : Framebuffer) (i : Nat) (s : CommandBuffer) : CommandBuffer :=
  let s :=
    if (fb.color i).texture.toBool then
      transitionColorAttachment s (s.ctx_.texturesPool_ (fb.color i).texture)
    else s
  if (fb.color i).resolveTexture.toBool then
    transitionColorAttachment s (s.ctx_.texturesPool_ (fb.color i).resolveTexture)
  else s

/-- The transition of the depth-stencil attachment in `cmdBeginRendering`
(lines 253-265). -/
def beginTransitionDepth (fb : Framebuffer) (s : CommandBuffer) : CommandBuffer :=
  let depthTex := fb.depthStencil.texture
  if depthTex.toBool then
    match s.ctx_.texturesPool_ depthTex with
    | none => s.crash
    | some vkDepthTex =>
      let depthImg := s.images vkDepthTex.image_
      let s := s.assert 257 (depthImg.imageFormat_ != VK_FORMAT_UNDEFINED)
      let flags := depthImg.aspectFlags
      s.transitionLayout vkDepthTex.image_ .VK_IMAGE_LAYOUT_DEPTH_STENCIL_ATTACHMENT_OPTIMAL
        VK_PIPELINE_STAGE_LATE_FRAGMENT_TESTS_BIT VK_PIPELINE_STAGE_TOP_OF_PIPE_BIT
        { aspectMask := flags, baseMipLevel := 0, levelCount := VK_REMAINING_MIP_LEVELS,
          baseArrayLayer := 0, layerCount := VK_REMAINING_ARRAY_LAYERS }
  else s

/-- The local variables of `cmdBeginRendering` that live across its loops;
`colorAttachments` holds the entries written so far. -/
structure BeginLocals where
  samples : Nat := VK_SAMPLE_COUNT_1_BIT
  mipLevel : Nat := 0
  fbWidth : Nat := 0
  fbHeight : Nat := 0
  colorAttachments : List VkRenderingAttachmentInfo := []
  depthAttachment : VkRenderingAttachmentInfo := {}
deriving DecidableEq, Repr

/-- One iteration of the second loop of `cmdBeginRendering` (lines 277-317). -/
def beginColorAttachment (renderPass : RenderPass) (fb : Framebuffer) (i : Nat)
    (l : BeginLocals) (s : CommandBuffer) : BeginLocals × CommandBuffer :=
  let attachment := fb.color i
  let s := s.assert 279 (!attachment.texture.empty)
  match s.ctx_.texturesPool_ attachment.texture with
  | none => (l, s.crash)
  | some colorTexture =>
    let descColor := renderPass.color i
    let s :=
      if l.mipLevel ≠ 0 ∧ descColor.level ≠ 0 then s.assert 284 (descColor.level == l.mipLevel)
      else s
    let dim := colorTexture.dimensions
    let s := if l.fbWidth ≠ 0 then s.assert 288 (dim.width == l.fbWidth) else s
    let s := if l.fbHeight ≠ 0 then s.assert 291 (dim.height == l.fbHeight) else s
    let samples := (s.images colorTexture.image_).samples_
    let loadOp := loadOpToVkAttachmentLoadOp descColor.loadOp
    let s := s.raise loadOp.2
    let info : VkRenderingAttachmentInfo :=
      { sType := VK_STRUCTURE_TYPE_RENDERING_ATTACHMENT_INFO,
        pNext := nullptr,
        imageView := colorTexture.imageViewForFramebuffer,
        imageLayout := .VK_IMAGE_LAYOUT_COLOR_ATTACHMENT_OPTIMAL,
        resolveMode := if samples > 1 then .VK_RESOLVE_MODE_AVERAGE_BIT else .VK_RESOLVE_MODE_NONE,
        resolveImageView := nullptr,
        resolveImageLayout := .VK_IMAGE_LAYOUT_UNDEFINED,
        loadOp := loadOp.1,
        storeOp := storeOpToVkAttachmentStoreOp descColor.storeOp,
        clearValue := .color descColor.clearColor.r descColor.clearColor.g
          descColor.clearColor.b descColor.clearColor.a }
    let l1 : BeginLocals :=
      { l with mipLevel := descColor.level, fbWidth := dim.width, fbHeight := dim.height,
               samples := samples }
    if descColor.storeOp = .StoreOp_MsaaResolve then
      let s := s.assert 311 (decide (samples > 1))
      let s := s.assert 312 (!attachment.resolveTexture.empty)
      match s.ctx_.texturesPool_ attachment.resolveTexture with
      | none => ({ l1 with colorAttachments := l.colorAttachments ++ [info] }, s.crash)
      | some colorResolveTexture =>
        ({ l1 with colorAttachments := l.colorAttachments ++
            [{ info with resolveImageView := colorResolveTexture.imageViewForFramebuffer,
                         resolveImageLayout := .VK_IMAGE_LAYOUT_COLOR_ATTACHMENT_OPTIMAL }] }, s)
    else
      ({ l1 with colorAttachments := l.colorAttachments ++ [info] }, s)

/-- The second loop of `cmdBeginRendering` over the remaining indices. -/
def beginColorAttachments (renderPass : RenderPass) (fb : Framebuffer) :
    List Nat → BeginLocals → CommandBuffer → BeginLocals × CommandBuffer
  | [], l, s => (l, s)
  | i :: rest, l, s =>
    let r := beginColorAttachment renderPass fb i l s
    if r.2.ub then r else beginColorAttachments renderPass fb rest r.1 r.2

/-- The depth attachment part of `cmdBeginRendering` (lines 319-347). -/
def beginDepthAttachment (renderPass : RenderPass) (fb : Framebuffer)
    (l : BeginLocals) (s : CommandBuffer) : BeginLocals × CommandBuffer :=
  if fb.depthStencil.texture.toBool then
    match s.ctx_.texturesPool_ fb.depthStencil.texture with
    | none => (l, s.crash)
    | some depthTexture =>
      let descDepth := renderPass.depth
      let s := s.assert 324 (descDepth.level == l.mipLevel)
      let loadOp := loadOpToVkAttachmentLoadOp descDepth.loadOp
      let s := s.raise loadOp.2
      let depthAttachment : VkRenderingAttachmentInfo :=
        { sType := VK_STRUCTURE_TYPE_RENDERING_ATTACHMENT_INFO,
          pNext := nullptr,
          imageView := depthTexture.imageViewForFramebuffer,
          imageLayout := .VK_IMAGE_LAYOUT_DEPTH_STENCIL_ATTACHMENT_OPTIMAL,
          resolveMode := .VK_RESOLVE_MODE_NONE,
          resolveImageView := nullptr,
          resolveImageLayout := .VK_IMAGE_LAYOUT_UNDEFINED,
          loadOp := loadOp.1,
          storeOp := storeOpToVkAttachmentStoreOp descDepth.storeOp,
          clearValue := .depthStencil descDepth.clearDepth descDepth.clearStencil }
      let dim := depthTexture.dimensions
      let s := if l.fbWidth ≠ 0 then s.assert 339 (dim.width == l.fbWidth) else s
      let s := if l.fbHeight ≠ 0 then s.assert 342 (dim.height == l.fbHeight) else s
      ({ l with depthAttachment := depthAttachment, mipLevel := descDepth.level,
                fbWidth := dim.width, fbHeight := dim.height }, s)
  else (l, s)

/-- The end of `cmdBeginRendering` (lines 349-377): the viewport and scissor
derived from the mip-adjusted size, and the call of `vkCmdBeginRendering`.
A shift of a `uint32_t` by 32 or more is undefined. -/
def beginFinish (renderPass : RenderPass) (fb : Framebuffer) (numFbColorAttachments : Nat)
    (l : BeginLocals) (s : CommandBuffer) : CommandBuffer :=
  if 32 ≤ l.mipLevel then s.crash
  else
    let width := max (l.fbWidth >>> l.mipLevel) 1
    let height := max (l.fbHeight >>> l.mipLevel) 1
    let viewport : Viewport :=
      { x := 0, y := 0, width := uint32ToFloat width, height := uint32ToFloat height,
        minDepth := 0, maxDepth := 1 }
    let scissor : ScissorRect := { x := 0, y := 0, width := width, height := height }
    let stencilAttachment := l.depthAttachment
    let isStencilFormat := decide (renderPass.stencil.loadOp ≠ .LoadOp_Invalid)
    let renderingInfo : VkRenderingInfo :=
      { sType := VK_STRUCTURE_TYPE_RENDERING_INFO,
        pNext := nullptr,
        flags := 0,
        renderArea := { offsetX := toInt32 scissor.x, offsetY := toInt32 scissor.y,
                        extentWidth := scissor.width, extentHeight := scissor.height },
        layerCount := 1,
        viewMask := 0,
        colorAttachmentCount := numFbColorAttachments,
        pColorAttachments := l.colorAttachments,
        pDepthAttachment := if fb.depthStencil.texture.toBool then some l.depthAttachment else none,
        pStencilAttachment := if isStencilFormat then some stencilAttachment else none }
    let s := s.cmdBindViewport viewport
    let s := s.cmdBindScissorRect scissor
    let s := s.record .checkAndUpdateDescriptorSets
    let s := s.record (.bindDefaultDescriptorSets .VK_PIPELINE_BIND_POINT_GRAPHICS)
    s.record (.vkCmdBeginRendering renderingInfo)

/-- The body of `cmdBeginRendering` from line 240 on: the transitions, the
attachment descriptions and the native call. -/
def beginAttachments (renderPass : RenderPass) (fb : Framebuffer) (numFbColorAttachments : Nat)
    (s : CommandBuffer) : CommandBuffer :=
  let s := (List.range numFbColorAttachments).foldl (fun s i => beginTransitionColor fb i s) s
  let s := beginTransitionDepth fb s
  if s.ub then s
  else
    let s := { s with dynamicState_ := { s.dynamicState_ with depthBiasEnable_ := false } }
    let r := beginColorAttachments renderPass fb (List.range numFbColorAttachments) {} s
    if r.2.ub then r.2
    else
      let r := beginDepthAttachment renderPass fb r.1 r.2
      if r.2.ub then r.2
      else beginFinish renderPass fb numFbColorAttachments r.1 r.2

/-- The member `cmdBeginRendering(renderPass, fb)`. -/
def cmdBeginRendering (s : CommandBuffer) (renderPass : RenderPass) (fb : Framebuffer) :
    CommandBuffer :=
  let s := s.assert 229 (!s.isRendering_)
  let s := { s with isRendering_ := true }
  let numFbColorAttachments := fb.getNumColorAttachments
  let numPassColorAttachments := renderPass.getNumColorAttachments
  let s := s.assert 236 (numPassColorAttachments == numFbColorAttachments)
  let s := { s with framebuffer_ := fb }
  beginAttachments renderPass fb numFbColorAttachments s

/-- The loop of `cmdEndRendering` over the remaining indices (lines 390-395). -/
def endColorLayouts : List Nat → CommandBuffer → CommandBuffer
  | [], s => s
  | i :: rest, s =>
    match s.ctx_.texturesPool_ (s.framebuffer_.color i).texture with
    | none => s.crash
    | some tex =>
      endColorLayouts rest
        (s.setImageLayout tex.image_ .VK_IMAGE_LAYOUT_COLOR_ATTACHMENT_OPTIMAL)

/-- The member `cmdEndRendering()`. -/
def cmdEndRendering (s : CommandBuffer) : CommandBuffer :=
  let s := s.assert 381 s.isRendering_
  let s := { s with isRendering_ := false }
  let s := s.record .vkCmdEndRendering
  let numFbColorAttachments := s.framebuffer_.getNumColorAttachments
  let s := endColorLayouts (List.range numFbColorAttachments) s
  if s.ub then s
  else if s.framebuffer_.depthStencil.texture.toBool then
    match s.ctx_.texturesPool_ s.framebuffer_.depthStencil.texture with
    | none => s.crash
    | some tex =>
      let s := s.setImageLayout tex.image_ .VK_IMAGE_LAYOUT_DEPTH_STENCIL_ATTACHMENT_OPTIMAL
      { s with framebuffer_ := {} }
  else { s with framebuffer_ := {} }

end CommandBuffer

namespace CommandBuffer

/-- The member `cmdBindRenderPipeline(RenderPipelineHandle handle)`. -/
def cmdBindRenderPipeline (s : CommandBuffer) (handle : RenderPipelineHandle) : CommandBuffer :=
  let s := s.assert 428 (!handle.empty)
  if handle.empty then s
  else
    let s := { s with currentPipeline_ := handle }
    let rps := s.ctx_.renderPipelinesPool_ handle
    let s := s.assert 436 rps.isSome
    match rps with
    | none => s.crash
    | some rpsValue =>
      let desc := rpsValue.desc_
      let hasDepthAttachmentPipeline := desc.depthFormat != Format_Invalid
      let hasDepthAttachmentPass := !s.framebuffer_.depthStencil.texture.empty
      let s :=
        if hasDepthAttachmentPipeline != hasDepthAttachmentPass then
          (s.assert 444 false).warn 445
        else s
      { s with lastPipelineBound_ := nullptr }

/-- The lambda `setStencilState` of `cmdBindDepthStencilState`. -/
def setStencilState (s : CommandBuffer) (faceMask : Nat) (desc : StencilStateDesc) :
    CommandBuffer :=
  let dynamicState := s.dynamicState_.setStencilStateOps faceMask
    (stencilOpToVkStencilOp desc.stencilFailureOp)
    (stencilOpToVkStencilOp desc.depthStencilPassOp)
    (stencilOpToVkStencilOp desc.depthFailureOp)
    (s.ctx_.compareOpToVkCompareOp desc.stencilCompareOp)
  let s := { s with dynamicState_ := dynamicState }
  let s := s.record (.vkCmdSetStencilReference faceMask desc.readMask)
  let s := s.record (.vkCmdSetStencilCompareMask faceMask 0xFF)
  s.record (.vkCmdSetStencilWriteMask faceMask desc.writeMask)

/-- The member `cmdBindDepthStencilState(desc)`. -/
def cmdBindDepthStencilState (s : CommandBuffer) (desc : DepthStencilState) : CommandBuffer :=
  let s := { s with dynamicState_ := { s.dynamicState_ with
      depthWriteEnable_ := desc.isDepthWriteEnabled } }
  let dynamicState :=
    s.dynamicState_.setDepthCompareOp (s.ctx_.compareOpToVkCompareOp desc.compareOp)
  let s := { s with dynamicState_ := dynamicState }
  let s := s.setStencilState VK_STENCIL_FACE_FRONT_BIT desc.frontFaceStencil
  s.setStencilState VK_STENCIL_FACE_BACK_BIT desc.backFaceStencil

/-- The member `cmdBindVertexBuffer(index, buffer, bufferOffset)`. -/
def cmdBindVertexBuffer (s : CommandBuffer) (index : Nat) (buffer : BufferHandle)
    (bufferOffset : Nat) : CommandBuffer :=
  let s := s.assert 475 (!buffer.empty)
  if buffer.empty then s
  else
    match s.ctx_.buffersPool_ buffer with
    | none => s.crash
    | some buf =>
      let vkBuf := buf.vkBuffer_
      let s := s.assert 483 (buf.usageFlags_ &&& VK_BUFFER_USAGE_VERTEX_BUFFER_BIT != 0)
      let offset := bufferOffset
      s.record (.vkCmdBindVertexBuffers index 1 vkBuf offset)

/-- The member `cmdPushConstants(data, size, offset)`; `data` is a pointer,
`size` and `offset` are `size_t`, their sum wraps at `2^64` and the native
call receives both converted to `uint32_t`. -/
def cmdPushConstants (s : CommandBuffer) (data size offset : Nat) : CommandBuffer :=
  let s := s.assert 492 (size % 4 == 0)
  let withinLimit := decide ((size + offset) % 2 ^ 64 ≤ s.ctx_.maxPushConstantsSize)
  let s := s.assert 496 withinLimit
  let s := if !withinLimit then s.warn 497 else s
  s.record (.vkCmdPushConstants s.ctx_.vkPipelineLayout_
    (VK_SHADER_STAGE_VERTEX_BIT ||| VK_SHADER_STAGE_FRAGMENT_BIT ||| VK_SHADER_STAGE_COMPUTE_BIT)
    (offset % 2 ^ 32) (size % 2 ^ 32) data)

/-- The member `bindGraphicsPipeline()`. -/
def bindGraphicsPipeline (s : CommandBuffer) : CommandBuffer :=
  let rps := s.ctx_.renderPipelinesPool_ s.currentPipeline_
  let s := s.assert 511 rps.isSome
  match rps with
  | none => s
  | some rpsValue =>
    let pipeline := rpsValue.getVkPipeline s.dynamicState_
    if s.lastPipelineBound_ != pipeline then
      let s := { s with lastPipelineBound_ := pipeline }
      if pipeline != nullptr then
        s.record (.vkCmdBindPipeline .VK_PIPELINE_BIND_POINT_GRAPHICS pipeline)
      else s
    else s

/-- The member `cmdDraw(primitiveType, vertexStart, vertexCount)`. -/
def cmdDraw (s : CommandBuffer) (primitiveType : PrimitiveType)
    (vertexStart vertexCount : Nat) : CommandBuffer :=
  if vertexCount = 0 then s
  else
    let dynamicState :=
      s.dynamicState_.setTopology (primitiveTypeToVkPrimitiveTopology primitiveType)
    let s := { s with dynamicState_ := dynamicState }
    let s := s.bindGraphicsPipeline
    s.record (.vkCmdDraw (vertexCount % 2 ^ 32) 1 (vertexStart % 2 ^ 32) 0)

/-- The member `cmdDrawIndexed(primitiveType, indexCount, indexFormat,
indexBuffer, indexBufferOffset)`. -/
def cmdDrawIndexed (s : CommandBuffer) (primitiveType : PrimitiveType) (indexCount : Nat)
    (indexFormat : IndexFormat) (indexBuffer : BufferHandle) (indexBufferOffset : Nat) :
    CommandBuffer :=
  if indexCount = 0 then s
  else
    let dynamicState :=
      s.dynamicState_.setTopology (primitiveTypeToVkPrimitiveTopology primitiveType)
    let s := { s with dynamicState_ := dynamicState }
    let s := s.bindGraphicsPipeline
    match s.ctx_.buffersPool_ indexBuffer with
    | none => s.crash
    | some buf =>
      let type := indexFormatToVkIndexType indexFormat
      let s := s.record (.vkCmdBindIndexBuffer buf.vkBuffer_ indexBufferOffset type)
      s.record (.vkCmdDrawIndexed (indexCount % 2 ^ 32) 1 0 0 0)

/-- The member `cmdDrawIndirect(primitiveType, indirectBuffer,
indirectBufferOffset, drawCount, stride)`. -/
def cmdDrawIndirect (s : CommandBuffer) (primitiveType : PrimitiveType)
    (indirectBuffer : BufferHandle) (indirectBufferOffset drawCount stride : Nat) :
    CommandBuffer :=
  let dynamicState :=
    s.dynamicState_.setTopology (primitiveTypeToVkPrimitiveTopology primitiveType)
  let s := { s with dynamicState_ := dynamicState }
  let s := s.bindGraphicsPipeline
  match s.ctx_.buffersPool_ indirectBuffer with
  | none => s.crash
  | some bufIndirect =>
    s.record (.vkCmdDrawIndirect bufIndirect.vkBuffer_ indirectBufferOffset drawCount
      (if stride ≠ 0 then stride else sizeof_VkDrawIndirectCommand))

/-- The member `cmdDrawIndexedIndirect(primitiveType, indexFormat, indexBuffer,
indirectBuffer, indirectBufferOffset, drawCount, stride)`. -/
def cmdDrawIndexedIndirect (s : CommandBuffer) (primitiveType : PrimitiveType)
    (indexFormat : IndexFormat) (indexBuffer indirectBuffer : BufferHandle)
    (indirectBufferOffset drawCount stride : Nat) : CommandBuffer :=
  let dynamicState :=
    s.dynamicState_.setTopology (primitiveTypeToVkPrimitiveTopology primitiveType)
  let s := { s with dynamicState_ := dynamicState }
  let s := s.bindGraphicsPipeline
  let bufIndex := s.ctx_.buffersPool_ indexBuffer
  let bufIndirect := s.ctx_.buffersPool_ indirectBuffer
  let type := indexFormatToVkIndexType indexFormat
  match bufIndex with
  | none => s.crash
  | some bufIndexValue =>
    let s := s.record (.vkCmdBindIndexBuffer bufIndexValue.vkBuffer_ 0 type)
    match bufIndirect with
    | none => s.crash
    | some bufIndirectValue =>
      s.record (.vkCmdDrawIndexedIndirect bufIndirectValue.vkBuffer_ indirectBufferOffset
        drawCount (if stride ≠ 0 then stride else sizeof_VkDrawIndexedIndirectCommand))

/-- The member `cmdSetStencilReferenceValues(frontValue, backValue)`. -/
def cmdSetStencilReferenceValues (s : CommandBuffer) (frontValue backValue : Nat) :
    CommandBuffer :=
  let s := s.record (.vkCmdSetStencilReference VK_STENCIL_FACE_FRONT_BIT frontValue)
  s.record (.vkCmdSetStencilReference VK_STENCIL_FACE_BACK_BIT backValue)

/-- The member `cmdSetBlendColor(color)`. -/
def cmdSetBlendColor (s : CommandBuffer) (color : Color) : CommandBuffer :=
  s.record (.vkCmdSetBlendConstants color)

/-- The member `cmdSetDepthBias(depthBias, slopeScale, clamp)`. -/
def cmdSetDepthBias (s : CommandBuffer) (depthBias slopeScale clamp : FloatValue) :
    CommandBuffer :=
  let s := { s with dynamicState_ := { s.dynamicState_ with depthBiasEnable_ := true } }
  s.record (.vkCmdSetDepthBias depthBias clamp slopeScale)

end CommandBuffer

/-- A call of one public member function of the recorder, with its arguments. -/
inductive Call : Type
  | transitionToShaderReadOnly (handle : TextureHandle)
  | cmdPushDebugGroupLabel (label : Nat) (color : Color)
  | cmdInsertDebugEventLabel (label : Nat) (color : Color)
  | cmdPopDebugGroupLabel
  | cmdBindComputePipeline (handle : ComputePipelineHandle)
  | cmdDispatchThreadGroups (threadgroupCount : Dimensions) (deps : Dependencies)
  | cmdBeginRendering (renderPass : RenderPass) (fb : Framebuffer)
  | cmdEndRendering
  | cmdBindViewport (viewport : Viewport)
  | cmdBindScissorRect (rect : ScissorRect)
  | cmdBindRenderPipeline (handle : RenderPipelineHandle)
  | cmdBindDepthStencilState (desc : DepthStencilState)
  | cmdBindVertexBuffer (index : Nat) (buffer : BufferHandle) (bufferOffset : Nat)
  | cmdPushConstants (data size offset : Nat)
  | cmdDraw (primitiveType : PrimitiveType) (vertexStart vertexCount : Nat)
  | cmdDrawIndexed (primitiveType : PrimitiveType) (indexCount : Nat)
      (indexFormat : IndexFormat) (indexBuffer : BufferHandle) (indexBufferOffset : Nat)
  | cmdDrawIndirect (primitiveType : PrimitiveType) (indirectBuffer : BufferHandle)
      (indirectBufferOffset drawCount stride : Nat)
  | cmdDrawIndexedIndirect (primitiveType : PrimitiveType) (indexFormat : IndexFormat)
      (indexBuffer indirectBuffer : BufferHandle) (indirectBufferOffset drawCount stride : Nat)
  | cmdSetStencilReferenceValues (frontValue backValue : Nat)
  | cmdSetBlendColor (color : Color)
  | cmdSetDepthBias (depthBias slopeScale clamp : FloatValue)

/-- Perform one call on the recorder; nothing is executed once undefined
behaviour has been reached. -/
def CommandBuffer.step (s : CommandBuffer) (c : Call) : CommandBuffer :=
  if s.ub then s
  else
    match c with
    | .transitionToShaderReadOnly handle => s.transitionToShaderReadOnly handle
    | .cmdPushDebugGroupLabel label color => s.cmdPushDebugGroupLabel label color
    | .cmdInsertDebugEventLabel label color => s.cmdInsertDebugEventLabel label color
    | .cmdPopDebugGroupLabel => s.cmdPopDebugGroupLabel
    | .cmdBindComputePipeline handle => s.cmdBindComputePipeline handle
    | .cmdDispatchThreadGroups threadgroupCount deps =>
      s.cmdDispatchThreadGroups threadgroupCount deps
    | .cmdBeginRendering renderPass fb => s.cmdBeginRendering renderPass fb
    | .cmdEndRendering => s.cmdEndRendering
    | .cmdBindViewport viewport => s.cmdBindViewport viewport
    | .cmdBindScissorRect rect => s.cmdBindScissorRect rect
    | .cmdBindRenderPipeline handle => s.cmdBindRenderPipeline handle
    | .cmdBindDepthStencilState desc => s.cmdBindDepthStencilState desc
    | .cmdBindVertexBuffer index buffer bufferOffset =>
      s.cmdBindVertexBuffer index buffer bufferOffset
    | .cmdPushConstants data size offset => s.cmdPushConstants data size offset
    | .cmdDraw primitiveType vertexStart vertexCount =>
      s.cmdDraw primitiveType vertexStart vertexCount
    | .cmdDrawIndexed primitiveType indexCount indexFormat indexBuffer indexBufferOffset =>
      s.cmdDrawIndexed primitiveType indexCount indexFormat indexBuffer indexBufferOffset
    | .cmdDrawIndirect primitiveType indirectBuffer indirectBufferOffset drawCount stride =>
      s.cmdDrawIndirect primitiveType indirectBuffer indirectBufferOffset drawCount stride
    | .cmdDrawIndexedIndirect primitiveType indexFormat indexBuffer indirectBuffer
        indirectBufferOffset drawCount stride =>
      s.cmdDrawIndexedIndirect primitiveType indexFormat indexBuffer indirectBuffer
        indirectBufferOffset drawCount stride
    | .cmdSetStencilReferenceValues frontValue backValue =>
      s.cmdSetStencilReferenceValues frontValue backValue
    | .cmdSetBlendColor color => s.cmdSetBlendColor color
    | .cmdSetDepthBias depthBias slopeScale clamp => s.cmdSetDepthBias depthBias slopeScale clamp

/-- Perform a sequence of calls, in order. -/
def CommandBuffer.run (s : CommandBuffer) (calls : List Call) : CommandBuffer :=
  calls.foldl CommandBuffer.step s

/-! ## The recorder state machine, as the specification describes it -/

/-- The rendering flag the state machine of the specification prescribes
after the given calls, starting from the flag `f`: a begin enters Rendering,
an end returns to Recording, any other call leaves the state alone. -/
def renderingAfter : Bool → List Call → Bool
  | f, [] => f
  | _, .cmdBeginRendering _ _ :: rest => renderingAfter true rest
  | _, .cmdEndRendering :: rest => renderingAfter false rest
  | f, _ :: rest => renderingAfter f rest

/-- Begins and ends alternate strictly in the given calls, starting from the
flag `f`: every begin comes while not rendering and every end while rendering. -/
def alternates : Bool → List Call → Bool
  | _, [] => true
  | f, .cmdBeginRendering _ _ :: rest => !f && alternates true rest
  | f, .cmdEndRendering :: rest => f && alternates false rest
  | f, _ :: rest => alternates f rest

/-! ## Sample objects for concrete runs -/

/-- A context with three textures (indices 1 to 3, generation 1; 512 x 512;
texture `i` uses the image at address `i`), buffers and pipelines for every
handle of generation 1, and a push-constant limit of 128 bytes. -/
def sampleContext : VulkanContext :=
  { texturesPool_ := fun h =>
      if h.gen_ = 1 ∧ 1 ≤ h.index_ ∧ h.index_ ≤ 3 then
        some { image_ := h.index_, dimensions := { width := 512, height := 512, depth := 1 },
               imageViewForFramebuffer := 40 + h.index_ }
      else none,
    buffersPool_ := fun h =>
      if h.gen_ = 1 then
        some { ctx_ := 1, vkBuffer_ := 100 + h.index_, bufferSize_ := 256,
               usageFlags_ := 0x1C0, mappedPtr_ := 4096 }
      else none,
    renderPipelinesPool_ := fun h =>
      if h.gen_ = 1 then
        some { getVkPipeline := fun d =>
          if d.topology_ = .VK_PRIMITIVE_TOPOLOGY_TRIANGLE_LIST then 1000 + h.index_
          else 2000 + h.index_ }
      else none,
    computePipelinesPool_ := fun h => if h.gen_ = 1 then some (3000 + h.index_) else none,
    maxPushConstantsSize := 128,
    vkPipelineLayout_ := 77,
    isDepthOrStencilVkFormat := fun f => decide (124 ≤ f ∧ f ≤ 130),
    compareOpToVkCompareOp := fun op =>
      match op with
      | .CompareOp_Never => .VK_COMPARE_OP_NEVER
      | .CompareOp_Less => .VK_COMPARE_OP_LESS
      | .CompareOp_Equal => .VK_COMPARE_OP_EQUAL
      | .CompareOp_LessEqual => .VK_COMPARE_OP_LESS_OR_EQUAL
      | .CompareOp_Greater => .VK_COMPARE_OP_GREATER
      | .CompareOp_NotEqual => .VK_COMPARE_OP_NOT_EQUAL
      | .CompareOp_GreaterEqual => .VK_COMPARE_OP_GREATER_OR_EQUAL
      | .CompareOp_AlwaysPass => .VK_COMPARE_OP_ALWAYS }

/-- The images of the sample context: image 2 is a storage image, image 3 a
depth image; every other image is a plain colour image. -/
def sampleImages : Nat → VulkanImage := fun a =>
  if a = 2 then { imageFormat_ := 37, isStorageImage := true }
  else if a = 3 then { imageFormat_ := 126, isDepthFormat_ := true, aspectFlags := 2 }
  else { imageFormat_ := 37 }

/-- A recorder just acquired on the sample context. -/
def sampleRecorder : CommandBuffer := CommandBuffer.ctor sampleContext sampleImages

/-- The handle of index `i` and generation 1. -/
def sampleHandle {ObjectType : Type} (i : Nat) : Handle ObjectType := { index_ := i, gen_ := 1 }

/-- A render pass with one colour attachment that is cleared. -/
def sampleRenderPass : RenderPass :=
  { color := fun i => if i = 0 then { loadOp := .LoadOp_Clear } else {} }

/-- A framebuffer with texture 1 as its only colour attachment. -/
def sampleFramebuffer : Framebuffer :=
  { color := fun i => if i = 0 then { texture := sampleHandle 1 } else {} }

/-- One pass on the sample context: begin, bind pipeline 5, draw a triangle, end. -/
def sampleCalls : List Call :=
  [.cmdBeginRendering sampleRenderPass sampleFramebuffer,
   .cmdBindRenderPipeline (sampleHandle 5),
   .cmdDraw .Primitive_Triangle 0 3,
   .cmdEndRendering]

/-- The sample recorder with pipeline 5 bound, outside any render pass. -/
def sampleRecorderBound : CommandBuffer :=
  sampleRecorder.cmdBindRenderPipeline (sampleHandle 5)

/-- The dependency textures that `cmdDispatchThreadGroups` uses: the entries
of the array, in order, up to the first one that is not set. -/
def usedDependencies (deps : Dependencies) : List TextureHandle :=
  ((List.range IGL_MAX_SUBMIT_DEPENDENCIES).map deps.textures).takeWhile Handle.toBool

/-- The image, the new layout and the destination stages of a recorded layout
transition; `none` for any other call. -/
def VkCmd.transitionTarget : VkCmd → Option (Nat × VkImageLayout × Nat)
  | .transitionLayout image _ newLayout _ dstStageMask _ => some (image, newLayout, dstStageMask)
  | _ => none

/-- Dependencies whose only entry is the texture of index `i`. -/
def sampleDependencies (i : Nat) : Dependencies :=
  { textures := fun k => if k = 0 then sampleHandle i else {} }

/-! ## Further sample objects -/

/-- A context in which every render pipeline handle of generation 1 resolves to
the one native pipeline 1234, whatever the dynamic state. -/
def sampleContextShared : VulkanContext :=
  { sampleContext with
    renderPipelinesPool_ := fun h =>
      if h.gen_ = 1 then some { getVkPipeline := fun _ => 1234 } else none }

/-- A recorder just acquired on the context with the shared native pipeline. -/
def sampleRecorderShared : CommandBuffer := CommandBuffer.ctor sampleContextShared sampleImages

/-- The images of the sample context, image 1 having four samples. -/
def sampleImagesMsaa : Nat → VulkanImage := fun a =>
  if a = 1 then { imageFormat_ := 37, samples_ := 4 } else sampleImages a

/-- A recorder just acquired on the sample context with the multisampled image 1. -/
def sampleRecorderMsaa : CommandBuffer := CommandBuffer.ctor sampleContext sampleImagesMsaa

/-- The sample texture of index `i`, as the sample context resolves it. -/
def sampleTexture (i : Nat) : VulkanTexture :=
  { image_ := i, dimensions := { width := 512, height := 512, depth := 1 },
    imageViewForFramebuffer := 40 + i }

/-- The render pipeline state to which the sample context resolves the handle
of index `i`. -/
def sampleRenderPipelineState (i : Nat) : RenderPipelineState :=
  { getVkPipeline := fun d =>
      if d.topology_ = .VK_PRIMITIVE_TOPOLOGY_TRIANGLE_LIST then 1000 + i else 2000 + i }

/-- A render pass with two colour attachments, the first at mip level
`level0`, the second at mip level `level1`. -/
def sampleRenderPassLevels (level0 level1 : Nat) : RenderPass :=
  { color := fun i =>
      if i = 0 then { loadOp := .LoadOp_Clear, level := level0 }
      else if i = 1 then { loadOp := .LoadOp_Clear, level := level1 }
      else {} }

/-- A framebuffer with the textures 1 and 2 as its two colour attachments. -/
def sampleFramebufferTwo : Framebuffer :=
  { color := fun i =>
      if i = 0 then { texture := sampleHandle 1 }
      else if i = 1 then { texture := sampleHandle 2 }
      else {} }
/-! ## Notions of the specification used to state the claims on `cmdBeginRendering` -/

/-- The length of the leading run of used entries among the first `max`
entries of an array: the entries are counted up to, and not including, the
first unused one. -/
def leadingRun (used : Nat → Bool) (max : Nat) : Nat :=
  (((List.range max).map used).takeWhile (fun b => b)).length

/-- The textures of a framebuffer can be reached when `cmdBeginRendering`
dereferences them: each colour attachment resolves in the texture pool, so
does its resolve texture when the pass stores with `StoreOp_MsaaResolve`, and
so does the depth-stencil attachment when it is set. -/
def attachmentsResolve (ctx : VulkanContext) (renderPass : RenderPass) (fb : Framebuffer) :
    Prop :=
  (∀ i, i < fb.getNumColorAttachments →
    (ctx.texturesPool_ (fb.color i).texture).isSome = true ∧
    ((renderPass.color i).storeOp = .StoreOp_MsaaResolve →
      (ctx.texturesPool_ (fb.color i).resolveTexture).isSome = true)) ∧
  (fb.depthStencil.texture.toBool = true →
    (ctx.texturesPool_ fb.depthStencil.texture).isSome = true)

instance (ctx : VulkanContext) (renderPass : RenderPass) (fb : Framebuffer) :
    Decidable (attachmentsResolve ctx renderPass fb) := by
  unfold attachmentsResolve
  infer_instance

/-- The textures of the colour attachments with the given indices, in order. -/
def colorTextures (ctx : VulkanContext) (fb : Framebuffer) (is : List Nat) :
    List VulkanTexture :=
  is.filterMap (fun i => ctx.texturesPool_ (fb.color i).texture)

/-- The textures of the attachments of a framebuffer in the order in which
`cmdBeginRendering` visits them: the colour attachments, then the
depth-stencil attachment when it is set. -/
def attachmentTextures (ctx : VulkanContext) (fb : Framebuffer) : List VulkanTexture :=
  colorTextures ctx fb (List.range fb.getNumColorAttachments) ++
    (if fb.depthStencil.texture.toBool then (ctx.texturesPool_ fb.depthStencil.texture).toList
     else [])

/-- The number of entries of a list that differ from their predecessor, the
predecessor of the first entry being `prev`; a predecessor of 0 is compared
with nothing. -/
def mismatches : Nat → List Nat → Nat
  | _, [] => 0
  | prev, x :: rest => (if prev ≠ 0 ∧ x ≠ prev then 1 else 0) + mismatches x rest

/-- The triple (W, H, level) from which the specification derives the render
extent: taken from the depth-stencil attachment when one is set, otherwise
from the last colour attachment, and all zero without any attachment. -/
def renderExtentSource (ctx : VulkanContext) (renderPass : RenderPass) (fb : Framebuffer) :
    Nat × Nat × Nat :=
  if fb.depthStencil.texture.toBool then
    match ctx.texturesPool_ fb.depthStencil.texture with
    | some t => (t.dimensions.width, t.dimensions.height, renderPass.depth.level)
    | none => (0, 0, 0)
  else if fb.getNumColorAttachments = 0 then (0, 0, 0)
  else
    match ctx.texturesPool_ (fb.color (fb.getNumColorAttachments - 1)).texture with
    | some t => (t.dimensions.width, t.dimensions.height,
        (renderPass.color (fb.getNumColorAttachments - 1)).level)
    | none => (0, 0, 0)

/-- The sample context with textures of different sizes: texture 1 is
512 x 512, texture 2 is 256 x 512 and texture 3 is 512 x 256. -/
def sampleContextSizes : VulkanContext :=
  { sampleContext with
    texturesPool_ := fun h =>
      if h.gen_ = 1 ∧ 1 ≤ h.index_ ∧ h.index_ ≤ 3 then
        some { image_ := h.index_,
               dimensions := { width := if h.index_ = 2 then 256 else 512,
                               height := if h.index_ = 3 then 256 else 512, depth := 1 },
               imageViewForFramebuffer := 40 + h.index_ }
      else none }

/-- A recorder just acquired on the context with textures of different sizes. -/
def sampleRecorderSizes : CommandBuffer := CommandBuffer.ctor sampleContextSizes sampleImages

/-- A framebuffer with texture 1 as its colour attachment and texture 3 as its
depth-stencil attachment. -/
def sampleFramebufferDepth : Framebuffer :=
  { color := fun i => if i = 0 then { texture := sampleHandle 1 } else {},
    depthStencil := { texture := sampleHandle 3 } }

/-- The render extent (w, h) of the specification: `w = max(W >> level, 1)`
and `h = max(H >> level, 1)` for the triple of `renderExtentSource`. -/
def renderExtent (ctx : VulkanContext) (renderPass : RenderPass) (fb : Framebuffer) :
    Nat × Nat :=
  (max ((renderExtentSource ctx renderPass fb).1 >>> (renderExtentSource ctx renderPass fb).2.2) 1,
   max ((renderExtentSource ctx renderPass fb).2.1 >>> (renderExtentSource ctx renderPass fb).2.2)
     1)

/-- The sample context in which texture 1 has the dimensions of a
value-initialised `Dimensions` (0 x 0); textures 2 and 3 are 512 x 512. -/
def sampleContextZero : VulkanContext :=
  { sampleContext with
    texturesPool_ := fun h =>
      if h.gen_ = 1 ∧ 1 ≤ h.index_ ∧ h.index_ ≤ 3 then
        some { image_ := h.index_,
               dimensions := if h.index_ = 1 then {} else { width := 512, height := 512, depth := 1 },
               imageViewForFramebuffer := 40 + h.index_ }
      else none }

/-- A recorder just acquired on the context whose texture 1 is 0 x 0. -/
def sampleRecorderZero : CommandBuffer := CommandBuffer.ctor sampleContextZero sampleImages

end vulkan

/-! ## The generational pool behind the handles -/

/-- Modelled from the spec: one slot of a `Pool`, holding
`(generation, optional Value)`; the slot is free when it holds no value. -/
structure PoolEntry (Value : Type) where
  gen_ : Nat := 1
  obj_ : Option Value := none

/-- Modelled from the spec: the class template `Pool<ObjectType, Value>`, a
friend of `Handle` declared outside the files at hand: an indexable array of
slots. Generations are natural numbers: the specification treats the 32-bit
generation space as unbounded. -/
structure Pool (ObjectType Value : Type) where
  objects_ : List (PoolEntry Value) := []

namespace Pool

variable {ObjectType Value : Type}

/-- Modelled from the spec: the index of the first free slot, if there is one. -/
def firstFree (self : Pool ObjectType Value) : Option Nat :=
  if self.objects_.findIdx (fun e => e.obj_.isNone) < self.objects_.length then
    some (self.objects_.findIdx (fun e => e.obj_.isNone))
  else none

/-- Modelled from the spec: `add(value) -> Handle` allocates the first free
slot, or grows the pool by a slot of generation 1, stores `value` there and
returns the handle made of the index and the generation of the slot. -/
def add (self : Pool ObjectType Value) (value : Value) :
    Pool ObjectType Value × Handle ObjectType :=
  match self.firstFree with
  | some i =>
    ({ objects_ := self.objects_.set i
         { gen_ := (self.objects_.getD i {}).gen_, obj_ := some value } },
     { index_ := i, gen_ := (self.objects_.getD i {}).gen_ })
  | none =>
    ({ objects_ := self.objects_ ++ [{ gen_ := 1, obj_ := some value }] },
     { index_ := self.objects_.length, gen_ := 1 })

/-- Modelled from the spec: `get(handle)` returns the live value only if the
generation of the handle is the generation of the slot, and null otherwise. -/
def get (self : Pool ObjectType Value) (handle : Handle ObjectType) : Option Value :=
  match self.objects_[handle.index_]? with
  | some e => if handle.gen_ = e.gen_ then e.obj_ else none
  | none => none

/-- Modelled from the spec: `remove(handle)` marks the slot free, increments
its generation and returns the stored value; a handle that does not match
its slot removes nothing. -/
def remove (self : Pool ObjectType Value) (handle : Handle ObjectType) :
    Pool ObjectType Value × Option Value :=
  match self.objects_[handle.index_]? with
  | some e =>
    if handle.gen_ = e.gen_ then
      ({ objects_ := self.objects_.set handle.index_ { gen_ := e.gen_ + 1, obj_ := none } },
       e.obj_)
    else (self, none)
  | none => (self, none)

end Pool

/-- A call on a pool: `add(value)` or `remove(handle)`. -/
inductive PoolCall (ObjectType Value : Type) : Type
  | add (value : Value)
  | remove (handle : Handle ObjectType)

/-- The pool after one call. -/
def Pool.step {ObjectType Value : Type} (self : Pool ObjectType Value) :
    PoolCall ObjectType Value → Pool ObjectType Value
  | .add value => (self.add value).1
  | .remove handle => (self.remove handle).1

/-- The pool after a sequence of calls. -/
def Pool.run {ObjectType Value : Type} (calls : List (PoolCall ObjectType Value))
    (self : Pool ObjectType Value) : Pool ObjectType Value :=
  calls.foldl Pool.step self

/-- A pool of numbers in which slot 0 is live and slot 1 is free. -/
def samplePool : Pool Texture Nat :=
  { objects_ := [{ gen_ := 1, obj_ := some 10 }, { gen_ := 3, obj_ := none }] }

/-- The slot of index `i` exists and its generation is above `g`: a handle of
index `i` and generation `g` is stale. -/
def Pool.genAbove {ObjectType Value : Type} (self : Pool ObjectType Value) (i g : Nat) : Prop :=
  ∃ e, self.objects_[i]? = some e ∧ g < e.gen_

end lvk

/-! ## Further notions and sample objects -/

namespace lvk

namespace vulkan

/-! ## Notions used to state the claims on buffer teardown -/

/-- The task that the destructor of the buffer `b` hands to `deferredTask`:
the body of the lambda with the values it captures. -/
def teardownTask (IGL_VULKAN_USE_VMA : Bool) (w : DeviceWorld) (b : VulkanBuffer) :
    DeferredTask :=
  if IGL_VULKAN_USE_VMA then
    { body := [.vmaDestroyBuffer w.vmaAllocator b.vkBuffer_ b.vmaAllocation_] }
  else
    { body := [.vkDestroyBuffer b.device_ b.vkBuffer_, .vkFreeMemory b.device_ b.vkMemory_] }

/-- The native call destroys the native buffer `buffer`. -/
def NativeCall.destroysBuffer (buffer : Nat) : NativeCall → Bool
  | .vmaDestroyBuffer _ b _ => b == buffer
  | .vkDestroyBuffer _ b => b == buffer
  | .vkFreeMemory _ _ => false
  | .vmaUnmapMemory _ _ => false
  | .vkUnmapMemory _ _ => false

/-- The task, when run, destroys the native buffer `buffer`. -/
def DeferredTask.destroysBuffer (t : DeferredTask) (buffer : Nat) : Bool :=
  t.body.any (NativeCall.destroysBuffer buffer)

/-- A second buffer, of 64 bytes and not mapped, with native buffer 31 and
allocation 33. -/
def sampleDeviceBuffer : VulkanBuffer :=
  { ctx_ := 1, vkBuffer_ := 31, vmaAllocation_ := 33, bufferSize_ := 64 }

/-- The sample context in which the pool entry of the compute pipeline of
index 9 holds `VK_NULL_HANDLE`, and in which the render pipelines yield
`VK_NULL_HANDLE` for every topology other than `TRIANGLE_LIST`. -/
def sampleContextNullPipeline : VulkanContext :=
  { sampleContext with
    computePipelinesPool_ := fun h =>
      if h.gen_ = 1 then some (if h.index_ = 9 then nullptr else 3000 + h.index_) else none,
    renderPipelinesPool_ := fun h =>
      if h.gen_ = 1 then
        some { getVkPipeline := fun d =>
          if d.topology_ = .VK_PRIMITIVE_TOPOLOGY_TRIANGLE_LIST then 1000 + h.index_
          else nullptr }
      else none }

/-- A recorder just acquired on the context with the null native pipelines. -/
def sampleRecorderNullPipeline : CommandBuffer :=
  CommandBuffer.ctor sampleContextNullPipeline sampleImages

/-- A depth-stencil state whose front face has the read mask `0x0F` and the
write mask `0xF0`, and whose back face has the read mask `0x33` and the write
mask `0xCC`. -/
def sampleDepthStencilState : DepthStencilState :=
  { frontFaceStencil := { readMask := 0x0F, writeMask := 0xF0 },
    backFaceStencil := { readMask := 0x33, writeMask := 0xCC } }

end vulkan

end lvk

/-! ## Sample objects with a large texture and with reversed attachments -/

namespace lvk

namespace vulkan

/-- The sample context in which texture 1 is 16777217 x 33554433
(`2^24 + 1` by `2^25 + 1`); textures 2 and 3 are 512 x 512. -/
def sampleContextLarge : VulkanContext :=
  { sampleContext with
    texturesPool_ := fun h =>
      if h.gen_ = 1 ∧ 1 ≤ h.index_ ∧ h.index_ ≤ 3 then
        some { image_ := h.index_,
               dimensions :=
                 if h.index_ = 1 then { width := 16777217, height := 33554433, depth := 1 }
                 else { width := 512, height := 512, depth := 1 },
               imageViewForFramebuffer := 40 + h.index_ }
      else none }

/-- A recorder just acquired on the context with the large texture. -/
def sampleRecorderLarge : CommandBuffer := CommandBuffer.ctor sampleContextLarge sampleImages

end vulkan

end lvk

namespace lvk

namespace vulkan

/-- A framebuffer with the textures 2 and 1, in this order, as its two colour
attachments. -/
def sampleFramebufferTwoReversed : Framebuffer :=
  { color := fun i =>
      if i = 0 then { texture := sampleHandle 2 }
      else if i = 1 then { texture := sampleHandle 1 }
      else {} }

end vulkan

end lvk

/-! # Properties -/

namespace lvk

/-! ## Handle and Holder -/

/-- Claim C1: a handle is empty exactly when its generation is zero and valid
exactly when it is not, so `valid` is the negation of `empty`; the default
handle has index 0 and generation 0 and is empty. -/
theorem Handle.empty_valid_default {ObjectType : Type} (h : Handle ObjectType) :
    (h.empty = true ↔ h.gen = 0) ∧ (h.valid = true ↔ h.gen ≠ 0) ∧
    h.valid = !h.empty ∧
    ({} : Handle ObjectType).index = 0 ∧ ({} : Handle ObjectType).gen = 0 ∧
    ({} : Handle ObjectType).empty = true := by
  refine ⟨?_, ?_, ?_, rfl, rfl, rfl⟩
  · simp [Handle.empty, Handle.gen]
  · simp [Handle.valid, Handle.gen]
  · simp [Handle.valid, Handle.empty, bne]

/-- Claim C2: `operator==` holds exactly when index and generation both agree,
`operator!=` is its negation, and two handles with one index and different
generations never compare equal. -/
theorem Handle.operatorEq_iff {ObjectType : Type} (a b : Handle ObjectType) :
    (a.operatorEq b = true ↔ a.index = b.index ∧ a.gen = b.gen) ∧
    a.operatorNe b = !a.operatorEq b ∧
    (a.index = b.index → a.gen ≠ b.gen → a.operatorEq b = false ∧ a.operatorNe b = true) := by
  refine ⟨?_, ?_, ?_⟩
  · simp [Handle.operatorEq, Handle.index, Handle.gen]
  · simp only [Handle.operatorEq, Handle.operatorNe, bne, Bool.not_and]
  · intro hi hg
    simp only [Handle.index, Handle.gen] at hi hg
    simp [Handle.operatorEq, Handle.operatorNe, hi, hg]

/-- A stale handle and the handle of the reused slot: index 5 with generations
1 and 2 compare unequal. -/
theorem Handle.operatorEq_iff_witness :
    (({ index_ := 5, gen_ := 1 } : Handle Texture).operatorEq { index_ := 5, gen_ := 2 } = false ∧
     ({ index_ := 5, gen_ := 1 } : Handle Texture).operatorNe { index_ := 5, gen_ := 2 } = true) :=
  (Handle.operatorEq_iff ({ index_ := 5, gen_ := 1 } : Handle Texture)
    { index_ := 5, gen_ := 2 }).2.2 rfl (by decide)

/-- Clearing calls leave a cleared Holder cleared and add one destroy call with
a null device and the empty handle each. -/
theorem Holder.foldl_call_cleared {ObjectType : Type} (calls : List HolderCall)
    (log : List (DestroyRequest ObjectType)) :
    calls.foldl (fun st c => Holder.call c st)
        (({ device_ := nullptr, handle_ := {} } : Holder ObjectType), log) =
      ({ device_ := nullptr, handle_ := {} },
       log ++ List.replicate calls.length { device := nullptr, handle := {} }) := by
  induction calls generalizing log with
  | nil => simp
  | cons c cs ih =>
    have hstep : Holder.call c
        (({ device_ := nullptr, handle_ := {} } : Holder ObjectType), log) =
        ({ device_ := nullptr, handle_ := {} },
         log ++ [{ device := nullptr, handle := {} }]) := by
      cases c <;> rfl
    rw [List.foldl_cons, hstep, ih]
    simp [List.replicate_succ]

/-- The destroy calls of a whole Holder life: the pair given at construction
first, then one call with null device and empty handle per further call. -/
theorem Holder.lifetime_eq {ObjectType : Type} (d : Nat) (h : Handle ObjectType)
    (calls : List HolderCall) :
    Holder.lifetime d h calls =
      { device := d, handle := h } ::
        List.replicate calls.length { device := nullptr, handle := {} } := by
  cases calls with
  | nil => rfl
  | cons c cs =>
    have hstep : Holder.call c ((Holder.ctor d h, []) :
        Holder ObjectType × List (DestroyRequest ObjectType)) =
        ({ device_ := nullptr, handle_ := {} }, [{ device := d, handle := h }]) := by
      cases c <;> rfl
    unfold Holder.lifetime
    simp only [List.foldl_cons, hstep, Holder.foldl_call_cleared, Holder.dtor]
    have hrep := List.replicate_succ' (n := cs.length)
      (a := ({ device := nullptr, handle := {} } : DestroyRequest ObjectType))
    simp only [List.length_cons, List.singleton_append, List.cons_append, hrep,
      List.nil_append]

/-- Claim C3: a Holder built from device `d` and a valid handle `h`, cleared any
number of times by `reset()` or `= nullptr` and then destructed, makes
`1 + calls.length` destroy calls: the first one (issued by the first clearing
call, or by the destructor when there is none) is `lvk::destroy(d, h)`, every
later one carries a null device and the empty handle, and so destruction of
`h` is requested exactly once. -/
theorem Holder.destroy_requested_once {ObjectType : Type} (d : Nat)
    (h : Handle ObjectType) (hv : h.valid = true) (calls : List HolderCall) :
    Holder.lifetime d h calls =
      { device := d, handle := h } ::
        List.replicate calls.length { device := nullptr, handle := {} } ∧
    (Holder.lifetime d h calls).count { device := d, handle := h } = 1 ∧
    ((Holder.lifetime d h calls).filter (fun r => decide (r.handle = h))).length = 1 := by
  have hne : h ≠ ({} : Handle ObjectType) := by
    intro he
    rw [he] at hv
    simp [Handle.valid] at hv
  have hne2 : ({} : Handle ObjectType) ≠ h := fun he => hne he.symm
  refine ⟨Holder.lifetime_eq d h calls, ?_, ?_⟩
  · rw [Holder.lifetime_eq, List.count_cons_self, List.count_replicate]
    have : ¬ (({ device := nullptr, handle := {} } : DestroyRequest ObjectType) =
        { device := d, handle := h }) := by
      intro he
      exact hne2 (congrArg DestroyRequest.handle he)
    simp [this]
  · rw [Holder.lifetime_eq]
    simp [List.filter_cons, List.filter_replicate, hne2]

/-- A Holder of device 7 and handle (index 3, generation 1), reset twice and
then destructed: three destroy calls, one of them for the handle. -/
theorem Holder.destroy_requested_once_witness :
    Holder.lifetime 7 ({ index_ := 3, gen_ := 1 } : Handle ShaderModule)
        [HolderCall.reset, HolderCall.assignNullptr] =
      [{ device := 7, handle := { index_ := 3, gen_ := 1 } },
       { device := nullptr, handle := {} }, { device := nullptr, handle := {} }] ∧
    (Holder.lifetime 7 ({ index_ := 3, gen_ := 1 } : Handle ShaderModule)
        [HolderCall.reset, HolderCall.assignNullptr]).count
        { device := 7, handle := { index_ := 3, gen_ := 1 } } = 1 ∧
    ((Holder.lifetime 7 ({ index_ := 3, gen_ := 1 } : Handle ShaderModule)
        [HolderCall.reset, HolderCall.assignNullptr]).filter
        (fun r => decide (r.handle = { index_ := 3, gen_ := 1 }))).length = 1 :=
  Holder.destroy_requested_once 7 { index_ := 3, gen_ := 1 } (by decide)
    [HolderCall.reset, HolderCall.assignNullptr]

/-- Claim C4: move-constructing B from a Holder A of `(d, h)` with `h` valid
makes no destroy call, leaves B converting to `h` and valid, leaves A empty
with a null device, and destructing A and B afterwards, in either order,
requests destruction of `h` exactly once, by the destructor of B. -/
theorem Holder.moveCtor_transfers {ObjectType : Type} (d : Nat) (h : Handle ObjectType)
    (hv : h.valid = true) (log : List (DestroyRequest ObjectType)) :
    (Holder.moveCtor (Holder.ctor d h) log).1.toHandle = h ∧
    (Holder.moveCtor (Holder.ctor d h) log).1.valid = true ∧
    (Holder.moveCtor (Holder.ctor d h) log).1.device_ = d ∧
    (Holder.moveCtor (Holder.ctor d h) log).2.1.empty = true ∧
    (Holder.moveCtor (Holder.ctor d h) log).2.1.device_ = nullptr ∧
    (Holder.moveCtor (Holder.ctor d h) log).2.2 = log ∧
    (Holder.moveCtor (Holder.ctor d h) log).1.dtor [] = [{ device := d, handle := h }] ∧
    (Holder.moveCtor (Holder.ctor d h) log).2.1.dtor [] =
      [{ device := nullptr, handle := {} }] ∧
    (Holder.moveCtor (Holder.ctor d h) log).1.dtor
        ((Holder.moveCtor (Holder.ctor d h) log).2.1.dtor []) =
      [{ device := nullptr, handle := {} }, { device := d, handle := h }] ∧
    (Holder.moveCtor (Holder.ctor d h) log).2.1.dtor
        ((Holder.moveCtor (Holder.ctor d h) log).1.dtor []) =
      [{ device := d, handle := h }, { device := nullptr, handle := {} }] ∧
    (((Holder.moveCtor (Holder.ctor d h) log).1.dtor
        ((Holder.moveCtor (Holder.ctor d h) log).2.1.dtor [])).filter
          (fun q => decide (q.handle = h))).length = 1 ∧
    (((Holder.moveCtor (Holder.ctor d h) log).2.1.dtor
        ((Holder.moveCtor (Holder.ctor d h) log).1.dtor [])).filter
          (fun q => decide (q.handle = h))).length = 1 := by
  have hne : ({} : Handle ObjectType) ≠ h := by
    intro he
    rw [← he] at hv
    simp [Handle.valid] at hv
  refine ⟨rfl, hv, rfl, rfl, rfl, rfl, rfl, rfl, rfl, rfl, ?_, ?_⟩
  · simp [Holder.moveCtor, Holder.ctor, Holder.dtor, List.filter_cons, hne]
  · simp [Holder.moveCtor, Holder.ctor, Holder.dtor, List.filter_cons, hne]

/-- Moving a Holder of device 7 and handle (index 3, generation 1): the new
Holder converts to the handle, and the two destructors together request
destruction of that handle once. -/
theorem Holder.moveCtor_transfers_witness :
    (Holder.moveCtor (Holder.ctor 7 ({ index_ := 3, gen_ := 1 } : Handle RenderPipeline))
      []).1.toHandle = { index_ := 3, gen_ := 1 } ∧
    (((Holder.moveCtor (Holder.ctor 7 ({ index_ := 3, gen_ := 1 } : Handle RenderPipeline))
        []).1.dtor
        ((Holder.moveCtor (Holder.ctor 7 ({ index_ := 3, gen_ := 1 } : Handle RenderPipeline))
          []).2.1.dtor [])).filter
          (fun q => decide (q.handle = { index_ := 3, gen_ := 1 }))).length = 1 :=
  ⟨(Holder.moveCtor_transfers 7 ({ index_ := 3, gen_ := 1 } : Handle RenderPipeline)
      (by decide) []).1,
   (Holder.moveCtor_transfers 7 ({ index_ := 3, gen_ := 1 } : Handle RenderPipeline)
      (by decide) []).2.2.2.2.2.2.2.2.2.2.1⟩

/-- Claim C5: move-assigning a Holder A of `(d1, h1)` into a Holder B of
`(d2, h2)` makes no destroy call and exchanges the contents; destructing both
afterwards, in either order, makes exactly the two destroy calls
`lvk::destroy(d1, h1)` (by B) and `lvk::destroy(d2, h2)` (by A), so that for
distinct handles each one has its destruction requested exactly once, with its
own original device. -/
theorem Holder.moveAssign_exchanges {ObjectType : Type} (d1 d2 : Nat)
    (h1 h2 : Handle ObjectType) (log : List (DestroyRequest ObjectType)) :
    (Holder.moveAssign (Holder.ctor d2 h2) (Holder.ctor d1 h1) log).1 = Holder.ctor d1 h1 ∧
    (Holder.moveAssign (Holder.ctor d2 h2) (Holder.ctor d1 h1) log).2.1 = Holder.ctor d2 h2 ∧
    (Holder.moveAssign (Holder.ctor d2 h2) (Holder.ctor d1 h1) log).2.2 = log ∧
    (Holder.moveAssign (Holder.ctor d2 h2) (Holder.ctor d1 h1) log).1.dtor
        ((Holder.moveAssign (Holder.ctor d2 h2) (Holder.ctor d1 h1) log).2.1.dtor []) =
      [{ device := d2, handle := h2 }, { device := d1, handle := h1 }] ∧
    (Holder.moveAssign (Holder.ctor d2 h2) (Holder.ctor d1 h1) log).2.1.dtor
        ((Holder.moveAssign (Holder.ctor d2 h2) (Holder.ctor d1 h1) log).1.dtor []) =
      [{ device := d1, handle := h1 }, { device := d2, handle := h2 }] ∧
    (h1 ≠ h2 →
      ((Holder.moveAssign (Holder.ctor d2 h2) (Holder.ctor d1 h1) log).1.dtor
        ((Holder.moveAssign (Holder.ctor d2 h2) (Holder.ctor d1 h1) log).2.1.dtor [])).filter
          (fun q => decide (q.handle = h1)) = [{ device := d1, handle := h1 }] ∧
      ((Holder.moveAssign (Holder.ctor d2 h2) (Holder.ctor d1 h1) log).1.dtor
        ((Holder.moveAssign (Holder.ctor d2 h2) (Holder.ctor d1 h1) log).2.1.dtor [])).filter
          (fun q => decide (q.handle = h2)) = [{ device := d2, handle := h2 }] ∧
      ((Holder.moveAssign (Holder.ctor d2 h2) (Holder.ctor d1 h1) log).2.1.dtor
        ((Holder.moveAssign (Holder.ctor d2 h2) (Holder.ctor d1 h1) log).1.dtor [])).filter
          (fun q => decide (q.handle = h1)) = [{ device := d1, handle := h1 }] ∧
      ((Holder.moveAssign (Holder.ctor d2 h2) (Holder.ctor d1 h1) log).2.1.dtor
        ((Holder.moveAssign (Holder.ctor d2 h2) (Holder.ctor d1 h1) log).1.dtor [])).filter
          (fun q => decide (q.handle = h2)) = [{ device := d2, handle := h2 }]) := by
  refine ⟨rfl, rfl, rfl, rfl, rfl, ?_⟩
  intro hne
  have hne2 : h2 ≠ h1 := fun he => hne he.symm
  simp [Holder.moveAssign, Holder.ctor, Holder.dtor, List.filter_cons, hne, hne2]

/-- Two Holders of (device 7, handle (3,1)) and (device 8, handle (4,2)),
move-assigned and destructed: each handle is destroyed once with its device. -/
theorem Holder.moveAssign_exchanges_witness :
    ((Holder.moveAssign (Holder.ctor 8 ({ index_ := 4, gen_ := 2 } : Handle RenderPipeline))
        (Holder.ctor 7 { index_ := 3, gen_ := 1 }) []).1.dtor
      ((Holder.moveAssign (Holder.ctor 8 ({ index_ := 4, gen_ := 2 } : Handle RenderPipeline))
        (Holder.ctor 7 { index_ := 3, gen_ := 1 }) []).2.1.dtor [])).filter
        (fun q => decide (q.handle = { index_ := 3, gen_ := 1 })) =
      [{ device := 7, handle := { index_ := 3, gen_ := 1 } }] :=
  ((Holder.moveAssign_exchanges 7 8 ({ index_ := 3, gen_ := 1 } : Handle RenderPipeline)
    { index_ := 4, gen_ := 2 } []).2.2.2.2.2 (by decide)).1

/-! ## VulkanBuffer -/

namespace vulkan

/-- Claim C6: on a buffer with a non-null mapped pointer, for `offset + size`
within the buffer size and a non-null data block, `bufferSubData` followed by
`getBufferSubData` with the same offset and size raises no fault and leaves
the first `size` bytes of the destination equal to those of the data block. -/
theorem VulkanBuffer.bufferSubData_getBufferSubData_roundtrip (b : VulkanBuffer)
    (mapped data out : Nat → Byte) (offset size : Nat)
    (hmapped : b.mappedPtr_ ≠ nullptr) (hrange : offset + size ≤ b.bufferSize_) :
    (∀ i, i < size →
      (b.getBufferSubData (b.bufferSubData mapped offset size (some data)).1 offset size out).1 i
        = data i) ∧
    (b.bufferSubData mapped offset size (some data)).2 = [] ∧
    (b.getBufferSubData (b.bufferSubData mapped offset size (some data)).1 offset size out).2
      = [] := by
  have hle : (offset + size) % 2 ^ 64 ≤ b.bufferSize_ :=
    le_trans (Nat.mod_le _ _) hrange
  have hb : (b.mappedPtr_ != nullptr) = true := by simpa [bne_iff_ne] using hmapped
  refine ⟨?_, ?_, ?_⟩
  · intro i hi
    simp only [VulkanBuffer.getBufferSubData, VulkanBuffer.bufferSubData, hmapped, if_false,
      memcpy]
    have h1 : 0 ≤ i ∧ i < 0 + size := ⟨Nat.zero_le _, by omega⟩
    have h2 : offset ≤ offset + (i - 0) ∧ offset + (i - 0) < offset + size := by
      constructor <;> omega
    rw [if_pos h1, if_pos h2]
    congr 1
    omega
  · simp only [VulkanBuffer.bufferSubData, hmapped, if_false, IGL_ASSERT, hb, hle,
      decide_True, if_true, List.append_nil]
  · simp only [VulkanBuffer.getBufferSubData, hmapped, if_false, IGL_ASSERT, hb, hle,
      decide_True, if_true, List.append_nil]

/-- A 256-byte mapped buffer, 256 bytes uploaded at offset 0 and read back:
the first and the last byte read are the first and the last byte uploaded. -/
theorem VulkanBuffer.bufferSubData_getBufferSubData_roundtrip_witness :
    (sampleMappedBuffer.getBufferSubData
        (sampleMappedBuffer.bufferSubData (fun _ => 0) 0 256 (some sampleData)).1
        0 256 (fun _ => 0)).1 0 = sampleData 0 ∧
    (sampleMappedBuffer.getBufferSubData
        (sampleMappedBuffer.bufferSubData (fun _ => 0) 0 256 (some sampleData)).1
        0 256 (fun _ => 0)).1 255 = sampleData 255 ∧
    (sampleMappedBuffer.bufferSubData (fun _ => 0) 0 256 (some sampleData)).2 = [] :=
  ⟨(VulkanBuffer.bufferSubData_getBufferSubData_roundtrip sampleMappedBuffer
      (fun _ => 0) sampleData (fun _ => 0) 0 256 (by decide) (by decide)).1 0 (by decide),
   (VulkanBuffer.bufferSubData_getBufferSubData_roundtrip sampleMappedBuffer
      (fun _ => 0) sampleData (fun _ => 0) 0 256 (by decide) (by decide)).1 255 (by decide),
   (VulkanBuffer.bufferSubData_getBufferSubData_roundtrip sampleMappedBuffer
      (fun _ => 0) sampleData (fun _ => 0) 0 256 (by decide) (by decide)).2.1⟩

/-- Claim C7: the destructor of a buffer with a non-null `ctx_` makes no native
teardown call itself; it hands exactly one task to `deferredTask`, and running
that task destroys exactly the native buffer and the allocation (with VMA) or
the native buffer and its memory (without VMA) that the object held. -/
theorem VulkanBuffer.dtor_defers_teardown (useVma : Bool) (b : VulkanBuffer) (w : DeviceWorld)
    (hctx : b.ctx_ ≠ nullptr) :
    (∃ sync, (b.dtor useVma w).nativeCalls = w.nativeCalls ++ sync ∧
      ∀ c ∈ sync, c.isTeardown = false) ∧
    (∃ t, (b.dtor useVma w).deferredTasks = w.deferredTasks ++ [t] ∧
      t.body = (if useVma then [NativeCall.vmaDestroyBuffer w.vmaAllocator b.vkBuffer_ b.vmaAllocation_]
        else [NativeCall.vkDestroyBuffer b.device_ b.vkBuffer_,
              NativeCall.vkFreeMemory b.device_ b.vkMemory_]) ∧
      (t.run (b.dtor useVma w)).nativeCalls = (b.dtor useVma w).nativeCalls ++ t.body) := by
  cases useVma <;> by_cases hm : b.mappedPtr_ = nullptr
  · simp only [VulkanBuffer.dtor, hctx, hm, if_false, if_true, ne_eq, not_true_eq_false,
      Bool.false_eq_true]
    exact ⟨⟨[], (List.append_nil _).symm, by simp⟩, ⟨_, rfl, rfl, rfl⟩⟩
  · simp only [VulkanBuffer.dtor, hctx, hm, if_false, if_true, ne_eq, not_false_eq_true,
      Bool.false_eq_true]
    exact ⟨⟨_, rfl, by simp [NativeCall.isTeardown]⟩, ⟨_, rfl, rfl, rfl⟩⟩
  · simp only [VulkanBuffer.dtor, hctx, hm, if_false, if_true, ne_eq, not_true_eq_false]
    exact ⟨⟨[], (List.append_nil _).symm, by simp⟩, ⟨_, rfl, rfl, rfl⟩⟩
  · simp only [VulkanBuffer.dtor, hctx, hm, if_false, if_true, ne_eq, not_false_eq_true]
    exact ⟨⟨_, rfl, by simp [NativeCall.isTeardown]⟩, ⟨_, rfl, rfl, rfl⟩⟩

/-- The sample mapped buffer (native buffer 21, allocation 23) destructed with
VMA allocator 9: one unmap call at once, one deferred task destroying buffer
21 with allocation 23. -/
theorem VulkanBuffer.dtor_defers_teardown_witness :
    (∃ sync, (sampleMappedBuffer.dtor true sampleWorld).nativeCalls =
        sampleWorld.nativeCalls ++ sync ∧
      ∀ c ∈ sync, c.isTeardown = false) ∧
    (∃ t, (sampleMappedBuffer.dtor true sampleWorld).deferredTasks =
        sampleWorld.deferredTasks ++ [t] ∧
      t.body = (if true = true then [NativeCall.vmaDestroyBuffer sampleWorld.vmaAllocator
          sampleMappedBuffer.vkBuffer_ sampleMappedBuffer.vmaAllocation_]
        else [NativeCall.vkDestroyBuffer sampleMappedBuffer.device_ sampleMappedBuffer.vkBuffer_,
              NativeCall.vkFreeMemory sampleMappedBuffer.device_ sampleMappedBuffer.vkMemory_]) ∧
      (t.run (sampleMappedBuffer.dtor true sampleWorld)).nativeCalls =
        (sampleMappedBuffer.dtor true sampleWorld).nativeCalls ++ t.body) :=
  VulkanBuffer.dtor_defers_teardown true sampleMappedBuffer sampleWorld (by decide)

/-! ## The command recorder: effect of the elementary steps on each member -/

namespace CommandBuffer

@[simp]
theorem assert_ctx_ (s : CommandBuffer) (line : Nat) (cond : Bool) :
    (s.assert line cond).ctx_ = s.ctx_ := by
  unfold CommandBuffer.assert
  split <;> simp_all

@[simp]
theorem assert_framebuffer_ (s : CommandBuffer) (line : Nat) (cond : Bool) :
    (s.assert line cond).framebuffer_ = s.framebuffer_ := by
  unfold CommandBuffer.assert
  split <;> simp_all

@[simp]
theorem assert_dynamicState_ (s : CommandBuffer) (line : Nat) (cond : Bool) :
    (s.assert line cond).dynamicState_ = s.dynamicState_ := by
  unfold CommandBuffer.assert
  split <;> simp_all

@[simp]
theorem assert_currentPipeline_ (s : CommandBuffer) (line : Nat) (cond : Bool) :
    (s.assert line cond).currentPipeline_ = s.currentPipeline_ := by
  unfold CommandBuffer.assert
  split <;> simp_all

@[simp]
theorem assert_lastPipelineBound_ (s : CommandBuffer) (line : Nat) (cond : Bool) :
    (s.assert line cond).lastPipelineBound_ = s.lastPipelineBound_ := by
  unfold CommandBuffer.assert
  split <;> simp_all

@[simp]
theorem assert_isRendering_ (s : CommandBuffer) (line : Nat) (cond : Bool) :
    (s.assert line cond).isRendering_ = s.isRendering_ := by
  unfold CommandBuffer.assert
  split <;> simp_all

@[simp]
theorem assert_images (s : CommandBuffer) (line : Nat) (cond : Bool) :
    (s.assert line cond).images = s.images := by
  unfold CommandBuffer.assert
  split <;> simp_all

@[simp]
theorem assert_commands (s : CommandBuffer) (line : Nat) (cond : Bool) :
    (s.assert line cond).commands = s.commands := by
  unfold CommandBuffer.assert
  split <;> simp_all

@[simp]
theorem assert_faults (s : CommandBuffer) (line : Nat) (cond : Bool) :
    (s.assert line cond).faults = s.faults ++ (if cond = true then [] else [line]) := by
  unfold CommandBuffer.assert
  split <;> simp_all

@[simp]
theorem assert_warnings (s : CommandBuffer) (line : Nat) (cond : Bool) :
    (s.assert line cond).warnings = s.warnings := by
  unfold CommandBuffer.assert
  split <;> simp_all

@[simp]
theorem assert_ub (s : CommandBuffer) (line : Nat) (cond : Bool) :
    (s.assert line cond).ub = s.ub := by
  unfold CommandBuffer.assert
  split <;> simp_all

@[simp]
theorem warn_ctx_ (s : CommandBuffer) (line : Nat) :
    (s.warn line).ctx_ = s.ctx_ := rfl

@[simp]
theorem warn_framebuffer_ (s : CommandBuffer) (line : Nat) :
    (s.warn line).framebuffer_ = s.framebuffer_ := rfl

@[simp]
theorem warn_dynamicState_ (s : CommandBuffer) (line : Nat) :
    (s.warn line).dynamicState_ = s.dynamicState_ := rfl

@[simp]
theorem warn_currentPipeline_ (s : CommandBuffer) (line : Nat) :
    (s.warn line).currentPipeline_ = s.currentPipeline_ := rfl

@[simp]
theorem warn_lastPipelineBound_ (s : CommandBuffer) (line : Nat) :
    (s.warn line).lastPipelineBound_ = s.lastPipelineBound_ := rfl

@[simp]
theorem warn_isRendering_ (s : CommandBuffer) (line : Nat) :
    (s.warn line).isRendering_ = s.isRendering_ := rfl

@[simp]
theorem warn_images (s : CommandBuffer) (line : Nat) :
    (s.warn line).images = s.images := rfl

@[simp]
theorem warn_commands (s : CommandBuffer) (line : Nat) :
    (s.warn line).commands = s.commands := rfl

@[simp]
theorem warn_faults (s : CommandBuffer) (line : Nat) :
    (s.warn line).faults = s.faults := rfl

@[simp]
theorem warn_warnings (s : CommandBuffer) (line : Nat) :
    (s.warn line).warnings = s.warnings ++ [line] := rfl

@[simp]
theorem warn_ub (s : CommandBuffer) (line : Nat) :
    (s.warn line).ub = s.ub := rfl

@[simp]
theorem record_ctx_ (s : CommandBuffer) (c : VkCmd) :
    (s.record c).ctx_ = s.ctx_ := rfl

@[simp]
theorem record_framebuffer_ (s : CommandBuffer) (c : VkCmd) :
    (s.record c).framebuffer_ = s.framebuffer_ := rfl

@[simp]
theorem record_dynamicState_ (s : CommandBuffer) (c : VkCmd) :
    (s.record c).dynamicState_ = s.dynamicState_ := rfl

@[simp]
theorem record_currentPipeline_ (s : CommandBuffer) (c : VkCmd) :
    (s.record c).currentPipeline_ = s.currentPipeline_ := rfl

@[simp]
theorem record_lastPipelineBound_ (s : CommandBuffer) (c : VkCmd) :
    (s.record c).lastPipelineBound_ = s.lastPipelineBound_ := rfl

@[simp]
theorem record_isRendering_ (s : CommandBuffer) (c : VkCmd) :
    (s.record c).isRendering_ = s.isRendering_ := rfl

@[simp]
theorem record_images (s : CommandBuffer) (c : VkCmd) :
    (s.record c).images = s.images := rfl

@[simp]
theorem record_commands (s : CommandBuffer) (c : VkCmd) :
    (s.record c).commands = s.commands ++ [c] := rfl

@[simp]
theorem record_faults (s : CommandBuffer) (c : VkCmd) :
    (s.record c).faults = s.faults := rfl

@[simp]
theorem record_warnings (s : CommandBuffer) (c : VkCmd) :
    (s.record c).warnings = s.warnings := rfl

@[simp]
theorem record_ub (s : CommandBuffer) (c : VkCmd) :
    (s.record c).ub = s.ub := rfl

@[simp]
theorem crash_ctx_ (s : CommandBuffer) :
    (s.crash).ctx_ = s.ctx_ := rfl

@[simp]
theorem crash_framebuffer_ (s : CommandBuffer) :
    (s.crash).framebuffer_ = s.framebuffer_ := rfl

@[simp]
theorem crash_dynamicState_ (s : CommandBuffer) :
    (s.crash).dynamicState_ = s.dynamicState_ := rfl

@[simp]
theorem crash_currentPipeline_ (s : CommandBuffer) :
    (s.crash).currentPipeline_ = s.currentPipeline_ := rfl

@[simp]
theorem crash_lastPipelineBound_ (s : CommandBuffer) :
    (s.crash).lastPipelineBound_ = s.lastPipelineBound_ := rfl

@[simp]
theorem crash_isRendering_ (s : CommandBuffer) :
    (s.crash).isRendering_ = s.isRendering_ := rfl

@[simp]
theorem crash_images (s : CommandBuffer) :
    (s.crash).images = s.images := rfl

@[simp]
theorem crash_commands (s : CommandBuffer) :
    (s.crash).commands = s.commands := rfl

@[simp]
theorem crash_faults (s : CommandBuffer) :
    (s.crash).faults = s.faults := rfl

@[simp]
theorem crash_warnings (s : CommandBuffer) :
    (s.crash).warnings = s.warnings := rfl

@[simp]
theorem crash_ub (s : CommandBuffer) :
    (s.crash).ub = true := rfl

@[simp]
theorem raise_ctx_ (s : CommandBuffer) (raised : List Nat) :
    (s.raise raised).ctx_ = s.ctx_ := rfl

@[simp]
theorem raise_framebuffer_ (s : CommandBuffer) (raised : List Nat) :
    (s.raise raised).framebuffer_ = s.framebuffer_ := rfl

@[simp]
theorem raise_dynamicState_ (s : CommandBuffer) (raised : List Nat) :
    (s.raise raised).dynamicState_ = s.dynamicState_ := rfl

@[simp]
theorem raise_currentPipeline_ (s : CommandBuffer) (raised : List Nat) :
    (s.raise raised).currentPipeline_ = s.currentPipeline_ := rfl

@[simp]
theorem raise_lastPipelineBound_ (s : CommandBuffer) (raised : List Nat) :
    (s.raise raised).lastPipelineBound_ = s.lastPipelineBound_ := rfl

@[simp]
theorem raise_isRendering_ (s : CommandBuffer) (raised : List Nat) :
    (s.raise raised).isRendering_ = s.isRendering_ := rfl

@[simp]
theorem raise_images (s : CommandBuffer) (raised : List Nat) :
    (s.raise raised).images = s.images := rfl

@[simp]
theorem raise_commands (s : CommandBuffer) (raised : List Nat) :
    (s.raise raised).commands = s.commands := rfl

@[simp]
theorem raise_faults (s : CommandBuffer) (raised : List Nat) :
    (s.raise raised).faults = s.faults ++ raised := rfl

@[simp]
theorem raise_warnings (s : CommandBuffer) (raised : List Nat) :
    (s.raise raised).warnings = s.warnings := rfl

@[simp]
theorem raise_ub (s : CommandBuffer) (raised : List Nat) :
    (s.raise raised).ub = s.ub := rfl

@[simp]
theorem transitionLayout_ctx_ (s : CommandBuffer) (image : Nat) (newImageLayout : VkImageLayout) (srcStageMask dstStageMask : Nat) (subresourceRange : VkImageSubresourceRange) :
    (s.transitionLayout image newImageLayout srcStageMask dstStageMask subresourceRange).ctx_ = s.ctx_ := rfl

@[simp]
theorem transitionLayout_framebuffer_ (s : CommandBuffer) (image : Nat) (newImageLayout : VkImageLayout) (srcStageMask dstStageMask : Nat) (subresourceRange : VkImageSubresourceRange) :
    (s.transitionLayout image newImageLayout srcStageMask dstStageMask subresourceRange).framebuffer_ = s.framebuffer_ := rfl

@[simp]
theorem transitionLayout_dynamicState_ (s : CommandBuffer) (image : Nat) (newImageLayout : VkImageLayout) (srcStageMask dstStageMask : Nat) (subresourceRange : VkImageSubresourceRange) :
    (s.transitionLayout image newImageLayout srcStageMask dstStageMask subresourceRange).dynamicState_ = s.dynamicState_ := rfl

@[simp]
theorem transitionLayout_currentPipeline_ (s : CommandBuffer) (image : Nat) (newImageLayout : VkImageLayout) (srcStageMask dstStageMask : Nat) (subresourceRange : VkImageSubresourceRange) :
    (s.transitionLayout image newImageLayout srcStageMask dstStageMask subresourceRange).currentPipeline_ = s.currentPipeline_ := rfl

@[simp]
theorem transitionLayout_lastPipelineBound_ (s : CommandBuffer) (image : Nat) (newImageLayout : VkImageLayout) (srcStageMask dstStageMask : Nat) (subresourceRange : VkImageSubresourceRange) :
    (s.transitionLayout image newImageLayout srcStageMask dstStageMask subresourceRange).lastPipelineBound_ = s.lastPipelineBound_ := rfl

@[simp]
theorem transitionLayout_isRendering_ (s : CommandBuffer) (image : Nat) (newImageLayout : VkImageLayout) (srcStageMask dstStageMask : Nat) (subresourceRange : VkImageSubresourceRange) :
    (s.transitionLayout image newImageLayout srcStageMask dstStageMask subresourceRange).isRendering_ = s.isRendering_ := rfl

@[simp]
theorem transitionLayout_images (s : CommandBuffer) (image : Nat) (newImageLayout : VkImageLayout) (srcStageMask dstStageMask : Nat) (subresourceRange : VkImageSubresourceRange) :
    (s.transitionLayout image newImageLayout srcStageMask dstStageMask subresourceRange).images = Function.update s.images image { s.images image with imageLayout_ := newImageLayout } := rfl

@[simp]
theorem transitionLayout_commands (s : CommandBuffer) (image : Nat) (newImageLayout : VkImageLayout) (srcStageMask dstStageMask : Nat) (subresourceRange : VkImageSubresourceRange) :
    (s.transitionLayout image newImageLayout srcStageMask dstStageMask subresourceRange).commands = s.commands ++ [.transitionLayout image (s.images image).imageLayout_ newImageLayout srcStageMask dstStageMask subresourceRange] := rfl

@[simp]
theorem transitionLayout_faults (s : CommandBuffer) (image : Nat) (newImageLayout : VkImageLayout) (srcStageMask dstStageMask : Nat) (subresourceRange : VkImageSubresourceRange) :
    (s.transitionLayout image newImageLayout srcStageMask dstStageMask subresourceRange).faults = s.faults := rfl

@[simp]
theorem transitionLayout_warnings (s : CommandBuffer) (image : Nat) (newImageLayout : VkImageLayout) (srcStageMask dstStageMask : Nat) (subresourceRange : VkImageSubresourceRange) :
    (s.transitionLayout image newImageLayout srcStageMask dstStageMask subresourceRange).warnings = s.warnings := rfl

@[simp]
theorem transitionLayout_ub (s : CommandBuffer) (image : Nat) (newImageLayout : VkImageLayout) (srcStageMask dstStageMask : Nat) (subresourceRange : VkImageSubresourceRange) :
    (s.transitionLayout image newImageLayout srcStageMask dstStageMask subresourceRange).ub = s.ub := rfl

@[simp]
theorem setImageLayout_ctx_ (s : CommandBuffer) (image : Nat) (layout : VkImageLayout) :
    (s.setImageLayout image layout).ctx_ = s.ctx_ := rfl

@[simp]
theorem setImageLayout_framebuffer_ (s : CommandBuffer) (image : Nat) (layout : VkImageLayout) :
    (s.setImageLayout image layout).framebuffer_ = s.framebuffer_ := rfl

@[simp]
theorem setImageLayout_dynamicState_ (s : CommandBuffer) (image : Nat) (layout : VkImageLayout) :
    (s.setImageLayout image layout).dynamicState_ = s.dynamicState_ := rfl

@[simp]
theorem setImageLayout_currentPipeline_ (s : CommandBuffer) (image : Nat) (layout : VkImageLayout) :
    (s.setImageLayout image layout).currentPipeline_ = s.currentPipeline_ := rfl

@[simp]
theorem setImageLayout_lastPipelineBound_ (s : CommandBuffer) (image : Nat) (layout : VkImageLayout) :
    (s.setImageLayout image layout).lastPipelineBound_ = s.lastPipelineBound_ := rfl

@[simp]
theorem setImageLayout_isRendering_ (s : CommandBuffer) (image : Nat) (layout : VkImageLayout) :
    (s.setImageLayout image layout).isRendering_ = s.isRendering_ := rfl

@[simp]
theorem setImageLayout_images (s : CommandBuffer) (image : Nat) (layout : VkImageLayout) :
    (s.setImageLayout image layout).images = Function.update s.images image { s.images image with imageLayout_ := layout } := rfl

@[simp]
theorem setImageLayout_commands (s : CommandBuffer) (image : Nat) (layout : VkImageLayout) :
    (s.setImageLayout image layout).commands = s.commands := rfl

@[simp]
theorem setImageLayout_faults (s : CommandBuffer) (image : Nat) (layout : VkImageLayout) :
    (s.setImageLayout image layout).faults = s.faults := rfl

@[simp]
theorem setImageLayout_warnings (s : CommandBuffer) (image : Nat) (layout : VkImageLayout) :
    (s.setImageLayout image layout).warnings = s.warnings := rfl

@[simp]
theorem setImageLayout_ub (s : CommandBuffer) (image : Nat) (layout : VkImageLayout) :
    (s.setImageLayout image layout).ub = s.ub := rfl

end CommandBuffer

/-! ## The command recorder: faults only grow, and who changes the rendering flag -/

namespace CommandBuffer

theorem transitionColorAttachment_isRendering (s : CommandBuffer) (t : Option VulkanTexture) :
    (transitionColorAttachment s t).isRendering_ = s.isRendering_ := by
  unfold transitionColorAttachment
  cases t with
  | none => simp
  | some tex => simp only []; split <;> simp

theorem transitionColorAttachment_faults (s : CommandBuffer) (t : Option VulkanTexture) :
    s.faults <+: (transitionColorAttachment s t).faults := by
  unfold transitionColorAttachment
  cases t with
  | none => simp
  | some tex => simp only []; split <;> simp [List.append_assoc]

end CommandBuffer

namespace CommandBuffer

theorem transitionToShaderReadOnly_isRendering (s : CommandBuffer) (h : TextureHandle) :
    (s.transitionToShaderReadOnly h).isRendering_ = s.isRendering_ := by
  unfold transitionToShaderReadOnly
  simp only []
  repeat' split
  all_goals simp

theorem transitionToShaderReadOnly_faults (s : CommandBuffer) (h : TextureHandle) :
    s.faults <+: (s.transitionToShaderReadOnly h).faults := by
  unfold transitionToShaderReadOnly
  simp only []
  repeat' split
  all_goals simp

theorem cmdBindComputePipeline_isRendering (s : CommandBuffer) (h : ComputePipelineHandle) :
    (s.cmdBindComputePipeline h).isRendering_ = s.isRendering_ := by
  unfold cmdBindComputePipeline
  simp only []
  repeat' split
  all_goals simp

theorem cmdBindComputePipeline_faults (s : CommandBuffer) (h : ComputePipelineHandle) :
    s.faults <+: (s.cmdBindComputePipeline h).faults := by
  unfold cmdBindComputePipeline
  simp only []
  repeat' split
  all_goals simp [List.append_assoc]

theorem useComputeTexture_isRendering (s : CommandBuffer) (h : TextureHandle) :
    (s.useComputeTexture h).isRendering_ = s.isRendering_ := by
  unfold useComputeTexture
  simp only []
  repeat' split
  all_goals simp

theorem useComputeTexture_faults (s : CommandBuffer) (h : TextureHandle) :
    s.faults <+: (s.useComputeTexture h).faults := by
  unfold useComputeTexture
  simp only []
  repeat' split
  all_goals simp [List.append_assoc]

theorem useComputeTexture_ctx (s : CommandBuffer) (h : TextureHandle) :
    (s.useComputeTexture h).ctx_ = s.ctx_ := by
  unfold useComputeTexture
  simp only []
  repeat' split
  all_goals simp

theorem useComputeTextures_isRendering (deps : Dependencies) (is : List Nat) (s : CommandBuffer) :
    (useComputeTextures deps is s).isRendering_ = s.isRendering_ := by
  induction is generalizing s with
  | nil => rfl
  | cons i rest ih =>
    unfold useComputeTextures
    simp only []
    repeat' split
    all_goals simp [ih, useComputeTexture_isRendering]

theorem useComputeTextures_faults (deps : Dependencies) (is : List Nat) (s : CommandBuffer) :
    s.faults <+: (useComputeTextures deps is s).faults := by
  induction is generalizing s with
  | nil => exact List.prefix_refl _
  | cons i rest ih =>
    unfold useComputeTextures
    simp only []
    repeat' split
    · exact useComputeTexture_faults s _
    · exact (useComputeTexture_faults s _).trans (ih _)
    · exact List.prefix_refl _

theorem cmdDispatchThreadGroups_isRendering (s : CommandBuffer) (tc : Dimensions)
    (deps : Dependencies) :
    (s.cmdDispatchThreadGroups tc deps).isRendering_ = s.isRendering_ := by
  unfold cmdDispatchThreadGroups
  simp only []
  split <;> simp [useComputeTextures_isRendering]

theorem cmdDispatchThreadGroups_faults (s : CommandBuffer) (tc : Dimensions)
    (deps : Dependencies) :
    s.faults <+: (s.cmdDispatchThreadGroups tc deps).faults := by
  unfold cmdDispatchThreadGroups
  simp only []
  have h := useComputeTextures_faults deps (List.range IGL_MAX_SUBMIT_DEPENDENCIES)
    (s.assert 175 (!s.isRendering_))
  have h0 : s.faults <+: (s.assert 175 (!s.isRendering_)).faults := by simp
  split
  · exact h0.trans h
  · simpa using h0.trans h

end CommandBuffer

namespace CommandBuffer

set_option linter.unusedTactic false

theorem cmdPushDebugGroupLabel_isRendering (s : CommandBuffer) (label : Nat) (color : Color) :
    (s.cmdPushDebugGroupLabel label color).isRendering_ = s.isRendering_ := by
  unfold cmdPushDebugGroupLabel
  try simp only []
  repeat' split
  all_goals simp

theorem cmdPushDebugGroupLabel_faults (s : CommandBuffer) (label : Nat) (color : Color) :
    s.faults <+: (s.cmdPushDebugGroupLabel label color).faults := by
  unfold cmdPushDebugGroupLabel
  try simp only []
  repeat' split
  all_goals simp [List.append_assoc]

theorem cmdInsertDebugEventLabel_isRendering (s : CommandBuffer) (label : Nat) (color : Color) :
    (s.cmdInsertDebugEventLabel label color).isRendering_ = s.isRendering_ := by
  unfold cmdInsertDebugEventLabel
  try simp only []
  repeat' split
  all_goals simp

theorem cmdInsertDebugEventLabel_faults (s : CommandBuffer) (label : Nat) (color : Color) :
    s.faults <+: (s.cmdInsertDebugEventLabel label color).faults := by
  unfold cmdInsertDebugEventLabel
  try simp only []
  repeat' split
  all_goals simp [List.append_assoc]

theorem cmdPopDebugGroupLabel_isRendering (s : CommandBuffer) :
    (s.cmdPopDebugGroupLabel).isRendering_ = s.isRendering_ := by
  unfold cmdPopDebugGroupLabel
  try simp only []
  repeat' split
  all_goals simp

theorem cmdPopDebugGroupLabel_faults (s : CommandBuffer) :
    s.faults <+: (s.cmdPopDebugGroupLabel).faults := by
  unfold cmdPopDebugGroupLabel
  try simp only []
  repeat' split
  all_goals simp [List.append_assoc]

theorem cmdBindViewport_isRendering (s : CommandBuffer) (viewport : Viewport) :
    (s.cmdBindViewport viewport).isRendering_ = s.isRendering_ := by
  unfold cmdBindViewport
  try simp only []
  repeat' split
  all_goals simp

theorem cmdBindViewport_faults (s : CommandBuffer) (viewport : Viewport) :
    s.faults <+: (s.cmdBindViewport viewport).faults := by
  unfold cmdBindViewport
  try simp only []
  repeat' split
  all_goals simp [List.append_assoc]

theorem cmdBindScissorRect_isRendering (s : CommandBuffer) (rect : ScissorRect) :
    (s.cmdBindScissorRect rect).isRendering_ = s.isRendering_ := by
  unfold cmdBindScissorRect
  try simp only []
  repeat' split
  all_goals simp

theorem cmdBindScissorRect_faults (s : CommandBuffer) (rect : ScissorRect) :
    s.faults <+: (s.cmdBindScissorRect rect).faults := by
  unfold cmdBindScissorRect
  try simp only []
  repeat' split
  all_goals simp [List.append_assoc]

theorem cmdBindRenderPipeline_isRendering (s : CommandBuffer) (handle : RenderPipelineHandle) :
    (s.cmdBindRenderPipeline handle).isRendering_ = s.isRendering_ := by
  unfold cmdBindRenderPipeline
  try simp only []
  repeat' split
  all_goals simp

theorem cmdBindRenderPipeline_faults (s : CommandBuffer) (handle : RenderPipelineHandle) :
    s.faults <+: (s.cmdBindRenderPipeline handle).faults := by
  unfold cmdBindRenderPipeline
  try simp only []
  repeat' split
  all_goals simp [List.append_assoc]

theorem setStencilState_isRendering (s : CommandBuffer) (faceMask : Nat) (desc : StencilStateDesc) :
    (s.setStencilState faceMask desc).isRendering_ = s.isRendering_ := by
  unfold setStencilState
  try simp only []
  repeat' split
  all_goals simp

theorem setStencilState_faults (s : CommandBuffer) (faceMask : Nat) (desc : StencilStateDesc) :
    s.faults <+: (s.setStencilState faceMask desc).faults := by
  unfold setStencilState
  try simp only []
  repeat' split
  all_goals simp [List.append_assoc]

theorem cmdBindDepthStencilState_isRendering (s : CommandBuffer) (desc : DepthStencilState) :
    (s.cmdBindDepthStencilState desc).isRendering_ = s.isRendering_ := by
  unfold cmdBindDepthStencilState setStencilState
  try simp only []
  repeat' split
  all_goals simp

theorem cmdBindDepthStencilState_faults (s : CommandBuffer) (desc : DepthStencilState) :
    s.faults <+: (s.cmdBindDepthStencilState desc).faults := by
  unfold cmdBindDepthStencilState setStencilState
  try simp only []
  repeat' split
  all_goals simp [List.append_assoc]

theorem cmdBindVertexBuffer_isRendering (s : CommandBuffer) (index : Nat) (buffer : BufferHandle) (bufferOffset : Nat) :
    (s.cmdBindVertexBuffer index buffer bufferOffset).isRendering_ = s.isRendering_ := by
  unfold cmdBindVertexBuffer
  try simp only []
  repeat' split
  all_goals simp

theorem cmdBindVertexBuffer_faults (s : CommandBuffer) (index : Nat) (buffer : BufferHandle) (bufferOffset : Nat) :
    s.faults <+: (s.cmdBindVertexBuffer index buffer bufferOffset).faults := by
  unfold cmdBindVertexBuffer
  try simp only []
  repeat' split
  all_goals simp [List.append_assoc]

theorem cmdPushConstants_isRendering (s : CommandBuffer) (data size offset : Nat) :
    (s.cmdPushConstants data size offset).isRendering_ = s.isRendering_ := by
  unfold cmdPushConstants
  try simp only []
  repeat' split
  all_goals simp

theorem cmdPushConstants_faults (s : CommandBuffer) (data size offset : Nat) :
    s.faults <+: (s.cmdPushConstants data size offset).faults := by
  unfold cmdPushConstants
  try simp only []
  repeat' split
  all_goals simp [List.append_assoc]

theorem bindGraphicsPipeline_isRendering (s : CommandBuffer) :
    (s.bindGraphicsPipeline).isRendering_ = s.isRendering_ := by
  unfold bindGraphicsPipeline
  try simp only []
  repeat' split
  all_goals simp

theorem bindGraphicsPipeline_faults (s : CommandBuffer) :
    s.faults <+: (s.bindGraphicsPipeline).faults := by
  unfold bindGraphicsPipeline
  try simp only []
  repeat' split
  all_goals simp [List.append_assoc]

theorem cmdDraw_isRendering (s : CommandBuffer) (primitiveType : PrimitiveType) (vertexStart vertexCount : Nat) :
    (s.cmdDraw primitiveType vertexStart vertexCount).isRendering_ = s.isRendering_ := by
  unfold cmdDraw bindGraphicsPipeline
  try simp only []
  repeat' split
  all_goals simp

theorem cmdDraw_faults (s : CommandBuffer) (primitiveType : PrimitiveType) (vertexStart vertexCount : Nat) :
    s.faults <+: (s.cmdDraw primitiveType vertexStart vertexCount).faults := by
  unfold cmdDraw bindGraphicsPipeline
  try simp only []
  repeat' split
  all_goals simp [List.append_assoc]

theorem cmdDrawIndexed_isRendering (s : CommandBuffer) (primitiveType : PrimitiveType) (indexCount : Nat) (indexFormat : IndexFormat) (indexBuffer : BufferHandle) (indexBufferOffset : Nat) :
    (s.cmdDrawIndexed primitiveType indexCount indexFormat indexBuffer indexBufferOffset).isRendering_ = s.isRendering_ := by
  unfold cmdDrawIndexed bindGraphicsPipeline
  try simp only []
  repeat' split
  all_goals simp

theorem cmdDrawIndexed_faults (s : CommandBuffer) (primitiveType : PrimitiveType) (indexCount : Nat) (indexFormat : IndexFormat) (indexBuffer : BufferHandle) (indexBufferOffset : Nat) :
    s.faults <+: (s.cmdDrawIndexed primitiveType indexCount indexFormat indexBuffer indexBufferOffset).faults := by
  unfold cmdDrawIndexed bindGraphicsPipeline
  try simp only []
  repeat' split
  all_goals simp [List.append_assoc]

theorem cmdDrawIndirect_isRendering (s : CommandBuffer) (primitiveType : PrimitiveType) (indirectBuffer : BufferHandle) (indirectBufferOffset drawCount stride : Nat) :
    (s.cmdDrawIndirect primitiveType indirectBuffer indirectBufferOffset drawCount stride).isRendering_ = s.isRendering_ := by
  unfold cmdDrawIndirect bindGraphicsPipeline
  try simp only []
  repeat' split
  all_goals simp

theorem cmdDrawIndirect_faults (s : CommandBuffer) (primitiveType : PrimitiveType) (indirectBuffer : BufferHandle) (indirectBufferOffset drawCount stride : Nat) :
    s.faults <+: (s.cmdDrawIndirect primitiveType indirectBuffer indirectBufferOffset drawCount stride).faults := by
  unfold cmdDrawIndirect bindGraphicsPipeline
  try simp only []
  repeat' split
  all_goals simp [List.append_assoc]

theorem cmdDrawIndexedIndirect_isRendering (s : CommandBuffer) (primitiveType : PrimitiveType) (indexFormat : IndexFormat) (indexBuffer indirectBuffer : BufferHandle) (indirectBufferOffset drawCount stride : Nat) :
    (s.cmdDrawIndexedIndirect primitiveType indexFormat indexBuffer indirectBuffer indirectBufferOffset drawCount stride).isRendering_ = s.isRendering_ := by
  unfold cmdDrawIndexedIndirect bindGraphicsPipeline
  try simp only []
  repeat' split
  all_goals simp

theorem cmdDrawIndexedIndirect_faults (s : CommandBuffer) (primitiveType : PrimitiveType) (indexFormat : IndexFormat) (indexBuffer indirectBuffer : BufferHandle) (indirectBufferOffset drawCount stride : Nat) :
    s.faults <+: (s.cmdDrawIndexedIndirect primitiveType indexFormat indexBuffer indirectBuffer indirectBufferOffset drawCount stride).faults := by
  unfold cmdDrawIndexedIndirect bindGraphicsPipeline
  try simp only []
  repeat' split
  all_goals simp [List.append_assoc]

theorem cmdSetStencilReferenceValues_isRendering (s : CommandBuffer) (frontValue backValue : Nat) :
    (s.cmdSetStencilReferenceValues frontValue backValue).isRendering_ = s.isRendering_ := by
  unfold cmdSetStencilReferenceValues
  try simp only []
  repeat' split
  all_goals simp

theorem cmdSetStencilReferenceValues_faults (s : CommandBuffer) (frontValue backValue : Nat) :
    s.faults <+: (s.cmdSetStencilReferenceValues frontValue backValue).faults := by
  unfold cmdSetStencilReferenceValues
  try simp only []
  repeat' split
  all_goals simp [List.append_assoc]

theorem cmdSetBlendColor_isRendering (s : CommandBuffer) (color : Color) :
    (s.cmdSetBlendColor color).isRendering_ = s.isRendering_ := by
  unfold cmdSetBlendColor
  try simp only []
  repeat' split
  all_goals simp

theorem cmdSetBlendColor_faults (s : CommandBuffer) (color : Color) :
    s.faults <+: (s.cmdSetBlendColor color).faults := by
  unfold cmdSetBlendColor
  try simp only []
  repeat' split
  all_goals simp [List.append_assoc]

theorem cmdSetDepthBias_isRendering (s : CommandBuffer) (depthBias slopeScale clamp : FloatValue) :
    (s.cmdSetDepthBias depthBias slopeScale clamp).isRendering_ = s.isRendering_ := by
  unfold cmdSetDepthBias
  try simp only []
  repeat' split
  all_goals simp

theorem cmdSetDepthBias_faults (s : CommandBuffer) (depthBias slopeScale clamp : FloatValue) :
    s.faults <+: (s.cmdSetDepthBias depthBias slopeScale clamp).faults := by
  unfold cmdSetDepthBias
  try simp only []
  repeat' split
  all_goals simp [List.append_assoc]

end CommandBuffer

namespace CommandBuffer

set_option linter.unusedTactic false

theorem beginTransitionColor_isRendering (fb : Framebuffer) (i : Nat) (s : CommandBuffer) :
    (beginTransitionColor fb i s).isRendering_ = s.isRendering_ := by
  unfold beginTransitionColor
  simp only []
  repeat' split
  all_goals simp [transitionColorAttachment_isRendering]

theorem beginTransitionColor_faults (fb : Framebuffer) (i : Nat) (s : CommandBuffer) :
    s.faults <+: (beginTransitionColor fb i s).faults := by
  unfold beginTransitionColor
  simp only []
  repeat' split
  · exact (transitionColorAttachment_faults s _).trans (transitionColorAttachment_faults _ _)
  · exact transitionColorAttachment_faults s _
  · exact transitionColorAttachment_faults s _
  · exact List.prefix_refl _

theorem foldl_beginTransitionColor_isRendering (fb : Framebuffer) (is : List Nat)
    (s : CommandBuffer) :
    (is.foldl (fun s i => beginTransitionColor fb i s) s).isRendering_ = s.isRendering_ := by
  induction is generalizing s with
  | nil => rfl
  | cons i rest ih => rw [List.foldl_cons, ih, beginTransitionColor_isRendering]

theorem foldl_beginTransitionColor_faults (fb : Framebuffer) (is : List Nat)
    (s : CommandBuffer) :
    s.faults <+: (is.foldl (fun s i => beginTransitionColor fb i s) s).faults := by
  induction is generalizing s with
  | nil => exact List.prefix_refl _
  | cons i rest ih =>
    rw [List.foldl_cons]
    exact (beginTransitionColor_faults fb i s).trans (ih _)

theorem beginTransitionDepth_isRendering (fb : Framebuffer) (s : CommandBuffer) :
    (beginTransitionDepth fb s).isRendering_ = s.isRendering_ := by
  unfold beginTransitionDepth
  simp only []
  repeat' split
  all_goals simp

theorem beginTransitionDepth_faults (fb : Framebuffer) (s : CommandBuffer) :
    s.faults <+: (beginTransitionDepth fb s).faults := by
  unfold beginTransitionDepth
  simp only []
  repeat' split
  all_goals simp

theorem beginColorAttachment_isRendering (renderPass : RenderPass) (fb : Framebuffer) (i : Nat)
    (l : BeginLocals) (s : CommandBuffer) :
    (beginColorAttachment renderPass fb i l s).2.isRendering_ = s.isRendering_ := by
  unfold beginColorAttachment
  simp only []
  repeat' split
  all_goals simp

theorem beginColorAttachment_faults (renderPass : RenderPass) (fb : Framebuffer) (i : Nat)
    (l : BeginLocals) (s : CommandBuffer) :
    s.faults <+: (beginColorAttachment renderPass fb i l s).2.faults := by
  unfold beginColorAttachment
  simp only []
  repeat' split
  all_goals simp [List.append_assoc]

theorem beginColorAttachments_isRendering (renderPass : RenderPass) (fb : Framebuffer)
    (is : List Nat) (l : BeginLocals) (s : CommandBuffer) :
    (beginColorAttachments renderPass fb is l s).2.isRendering_ = s.isRendering_ := by
  induction is generalizing l s with
  | nil => rfl
  | cons i rest ih =>
    unfold beginColorAttachments
    simp only []
    split
    · exact beginColorAttachment_isRendering renderPass fb i l s
    · rw [ih, beginColorAttachment_isRendering]

theorem beginColorAttachments_faults (renderPass : RenderPass) (fb : Framebuffer)
    (is : List Nat) (l : BeginLocals) (s : CommandBuffer) :
    s.faults <+: (beginColorAttachments renderPass fb is l s).2.faults := by
  induction is generalizing l s with
  | nil => exact List.prefix_refl _
  | cons i rest ih =>
    unfold beginColorAttachments
    simp only []
    split
    · exact beginColorAttachment_faults renderPass fb i l s
    · exact (beginColorAttachment_faults renderPass fb i l s).trans (ih _ _)

theorem beginDepthAttachment_isRendering (renderPass : RenderPass) (fb : Framebuffer)
    (l : BeginLocals) (s : CommandBuffer) :
    (beginDepthAttachment renderPass fb l s).2.isRendering_ = s.isRendering_ := by
  unfold beginDepthAttachment
  simp only []
  repeat' split
  all_goals simp

theorem beginDepthAttachment_faults (renderPass : RenderPass) (fb : Framebuffer)
    (l : BeginLocals) (s : CommandBuffer) :
    s.faults <+: (beginDepthAttachment renderPass fb l s).2.faults := by
  unfold beginDepthAttachment
  simp only []
  repeat' split
  all_goals simp [List.append_assoc]

theorem beginFinish_isRendering (renderPass : RenderPass) (fb : Framebuffer) (n : Nat)
    (l : BeginLocals) (s : CommandBuffer) :
    (beginFinish renderPass fb n l s).isRendering_ = s.isRendering_ := by
  unfold beginFinish
  simp only []
  split <;> simp [cmdBindViewport, cmdBindScissorRect]

theorem beginFinish_faults (renderPass : RenderPass) (fb : Framebuffer) (n : Nat)
    (l : BeginLocals) (s : CommandBuffer) :
    (beginFinish renderPass fb n l s).faults = s.faults := by
  unfold beginFinish
  simp only []
  split <;> simp [cmdBindViewport, cmdBindScissorRect]

theorem beginAttachments_isRendering (renderPass : RenderPass) (fb : Framebuffer) (n : Nat)
    (s : CommandBuffer) :
    (beginAttachments renderPass fb n s).isRendering_ = s.isRendering_ := by
  unfold beginAttachments
  simp only []
  repeat' split
  all_goals
    simp [beginFinish_isRendering, beginDepthAttachment_isRendering,
      beginColorAttachments_isRendering, beginTransitionDepth_isRendering,
      foldl_beginTransitionColor_isRendering]

theorem beginColorAttachments_faults_of_eq (renderPass : RenderPass) (fb : Framebuffer)
    (is : List Nat) (l : BeginLocals) (s t : CommandBuffer) (h : s.faults = t.faults) :
    t.faults <+: (beginColorAttachments renderPass fb is l s).2.faults :=
  h ▸ beginColorAttachments_faults renderPass fb is l s

theorem beginAttachments_faults (renderPass : RenderPass) (fb : Framebuffer) (n : Nat)
    (s : CommandBuffer) :
    s.faults <+: (beginAttachments renderPass fb n s).faults := by
  have h0 : s.faults <+: (beginTransitionDepth fb
      ((List.range n).foldl (fun s i => beginTransitionColor fb i s) s)).faults :=
    (foldl_beginTransitionColor_faults fb _ _).trans (beginTransitionDepth_faults fb _)
  unfold beginAttachments
  simp only []
  repeat' split
  · exact h0
  · refine h0.trans ?_
    exact beginColorAttachments_faults_of_eq renderPass fb _ _ _ _ rfl
  · refine h0.trans ?_
    refine List.IsPrefix.trans ?_ (beginDepthAttachment_faults renderPass fb _ _)
    exact beginColorAttachments_faults_of_eq renderPass fb _ _ _ _ rfl
  · rw [beginFinish_faults]
    refine h0.trans ?_
    refine List.IsPrefix.trans ?_ (beginDepthAttachment_faults renderPass fb _ _)
    exact beginColorAttachments_faults_of_eq renderPass fb _ _ _ _ rfl

/-- After `cmdBeginRendering` the rendering flag is set. -/
theorem cmdBeginRendering_isRendering (s : CommandBuffer) (renderPass : RenderPass)
    (fb : Framebuffer) :
    (s.cmdBeginRendering renderPass fb).isRendering_ = true := by
  unfold cmdBeginRendering
  simp [beginAttachments_isRendering]

/-- The faults of `cmdBeginRendering` start with those raised before and the
outcome of the assertion of line 229. -/
theorem cmdBeginRendering_faults (s : CommandBuffer) (renderPass : RenderPass)
    (fb : Framebuffer) :
    s.faults ++ (if s.isRendering_ = true then [229] else []) <+:
      (s.cmdBeginRendering renderPass fb).faults := by
  unfold cmdBeginRendering
  simp only []
  refine List.IsPrefix.trans ?_ (beginAttachments_faults renderPass fb _ _)
  simp only [assert_faults]
  cases s.isRendering_ <;> simp

theorem endColorLayouts_isRendering (is : List Nat) (s : CommandBuffer) :
    (endColorLayouts is s).isRendering_ = s.isRendering_ := by
  induction is generalizing s with
  | nil => rfl
  | cons i rest ih =>
    unfold endColorLayouts
    split
    · simp
    · rw [ih]; simp

theorem endColorLayouts_faults (is : List Nat) (s : CommandBuffer) :
    (endColorLayouts is s).faults = s.faults := by
  induction is generalizing s with
  | nil => rfl
  | cons i rest ih =>
    unfold endColorLayouts
    split
    · simp
    · rw [ih]; simp

/-- After `cmdEndRendering` the rendering flag is cleared. -/
theorem cmdEndRendering_isRendering (s : CommandBuffer) :
    s.cmdEndRendering.isRendering_ = false := by
  unfold cmdEndRendering
  simp only []
  repeat' split
  all_goals simp [endColorLayouts_isRendering]

/-- The only fault `cmdEndRendering` can raise is that of line 381, raised
exactly when the recorder is not rendering. -/
theorem cmdEndRendering_faults (s : CommandBuffer) :
    s.cmdEndRendering.faults = s.faults ++ IGL_ASSERT 381 s.isRendering_ := by
  unfold cmdEndRendering
  simp only []
  repeat' split
  all_goals simp [endColorLayouts_faults, IGL_ASSERT]

end CommandBuffer

/-! ## The command recorder: sequences of calls -/

namespace CommandBuffer

/-- No call removes a fault raised earlier. -/
theorem step_faults (s : CommandBuffer) (c : Call) : s.faults <+: (s.step c).faults := by
  unfold step
  split
  · exact List.prefix_refl _
  · cases c with
    | transitionToShaderReadOnly h => exact transitionToShaderReadOnly_faults s h
    | cmdPushDebugGroupLabel l c => exact cmdPushDebugGroupLabel_faults s l c
    | cmdInsertDebugEventLabel l c => exact cmdInsertDebugEventLabel_faults s l c
    | cmdPopDebugGroupLabel => exact cmdPopDebugGroupLabel_faults s
    | cmdBindComputePipeline h => exact cmdBindComputePipeline_faults s h
    | cmdDispatchThreadGroups t d => exact cmdDispatchThreadGroups_faults s t d
    | cmdBeginRendering rp fb =>
      exact (List.prefix_append _ _).trans (cmdBeginRendering_faults s rp fb)
    | cmdEndRendering =>
      show s.faults <+: s.cmdEndRendering.faults
      rw [cmdEndRendering_faults]
      exact List.prefix_append _ _
    | cmdBindViewport v => exact cmdBindViewport_faults s v
    | cmdBindScissorRect r => exact cmdBindScissorRect_faults s r
    | cmdBindRenderPipeline h => exact cmdBindRenderPipeline_faults s h
    | cmdBindDepthStencilState d => exact cmdBindDepthStencilState_faults s d
    | cmdBindVertexBuffer i b o => exact cmdBindVertexBuffer_faults s i b o
    | cmdPushConstants d sz o => exact cmdPushConstants_faults s d sz o
    | cmdDraw p a b => exact cmdDraw_faults s p a b
    | cmdDrawIndexed p a f b o => exact cmdDrawIndexed_faults s p a f b o
    | cmdDrawIndirect p b o d st => exact cmdDrawIndirect_faults s p b o d st
    | cmdDrawIndexedIndirect p f a b o d st =>
      exact cmdDrawIndexedIndirect_faults s p f a b o d st
    | cmdSetStencilReferenceValues a b => exact cmdSetStencilReferenceValues_faults s a b
    | cmdSetBlendColor c => exact cmdSetBlendColor_faults s c
    | cmdSetDepthBias a b c => exact cmdSetDepthBias_faults s a b c

/-- No sequence of calls removes a fault raised earlier. -/
theorem run_faults (calls : List Call) (s : CommandBuffer) :
    s.faults <+: (s.run calls).faults := by
  induction calls generalizing s with
  | nil => exact List.prefix_refl _
  | cons c rest ih => exact (step_faults s c).trans (ih (s.step c))

/-- Once undefined behaviour has been reached, calls change nothing. -/
theorem run_of_ub (calls : List Call) (s : CommandBuffer) (h : s.ub = true) :
    s.run calls = s := by
  induction calls with
  | nil => rfl
  | cons c rest ih =>
    have hs : s.step c = s := by unfold step; simp [h]
    show (s.step c).run rest = s
    rw [hs]
    exact ih

theorem run_cons (c : Call) (rest : List Call) (s : CommandBuffer) :
    s.run (c :: rest) = (s.step c).run rest := rfl

/-- Every call other than `cmdBeginRendering` and `cmdEndRendering` leaves the
rendering flag alone, in the recorder and in the state machine of the
specification. -/
theorem step_isRendering (s : CommandBuffer) (c : Call) (hub : s.ub = false) :
    (∃ rp fb, c = .cmdBeginRendering rp fb) ∨ c = .cmdEndRendering ∨
    ((s.step c).isRendering_ = s.isRendering_ ∧
      ∀ f rest, alternates f (c :: rest) = alternates f rest ∧
        renderingAfter f (c :: rest) = renderingAfter f rest) := by
  cases c with
  | cmdBeginRendering rp fb => exact Or.inl ⟨rp, fb, rfl⟩
  | cmdEndRendering => exact Or.inr (Or.inl rfl)
  | transitionToShaderReadOnly h =>
    refine Or.inr (Or.inr ⟨?_, fun f rest => ⟨rfl, rfl⟩⟩)
    simp [step, hub, transitionToShaderReadOnly_isRendering]
  | cmdPushDebugGroupLabel l c =>
    refine Or.inr (Or.inr ⟨?_, fun f rest => ⟨rfl, rfl⟩⟩)
    simp [step, hub, cmdPushDebugGroupLabel_isRendering]
  | cmdInsertDebugEventLabel l c =>
    refine Or.inr (Or.inr ⟨?_, fun f rest => ⟨rfl, rfl⟩⟩)
    simp [step, hub, cmdInsertDebugEventLabel_isRendering]
  | cmdPopDebugGroupLabel =>
    refine Or.inr (Or.inr ⟨?_, fun f rest => ⟨rfl, rfl⟩⟩)
    simp [step, hub, cmdPopDebugGroupLabel_isRendering]
  | cmdBindComputePipeline h =>
    refine Or.inr (Or.inr ⟨?_, fun f rest => ⟨rfl, rfl⟩⟩)
    simp [step, hub, cmdBindComputePipeline_isRendering]
  | cmdDispatchThreadGroups t d =>
    refine Or.inr (Or.inr ⟨?_, fun f rest => ⟨rfl, rfl⟩⟩)
    simp [step, hub, cmdDispatchThreadGroups_isRendering]
  | cmdBindViewport v =>
    refine Or.inr (Or.inr ⟨?_, fun f rest => ⟨rfl, rfl⟩⟩)
    simp [step, hub, cmdBindViewport_isRendering]
  | cmdBindScissorRect r =>
    refine Or.inr (Or.inr ⟨?_, fun f rest => ⟨rfl, rfl⟩⟩)
    simp [step, hub, cmdBindScissorRect_isRendering]
  | cmdBindRenderPipeline h =>
    refine Or.inr (Or.inr ⟨?_, fun f rest => ⟨rfl, rfl⟩⟩)
    simp [step, hub, cmdBindRenderPipeline_isRendering]
  | cmdBindDepthStencilState d =>
    refine Or.inr (Or.inr ⟨?_, fun f rest => ⟨rfl, rfl⟩⟩)
    simp [step, hub, cmdBindDepthStencilState_isRendering]
  | cmdBindVertexBuffer i b o =>
    refine Or.inr (Or.inr ⟨?_, fun f rest => ⟨rfl, rfl⟩⟩)
    simp [step, hub, cmdBindVertexBuffer_isRendering]
  | cmdPushConstants d sz o =>
    refine Or.inr (Or.inr ⟨?_, fun f rest => ⟨rfl, rfl⟩⟩)
    simp [step, hub, cmdPushConstants_isRendering]
  | cmdDraw p a b =>
    refine Or.inr (Or.inr ⟨?_, fun f rest => ⟨rfl, rfl⟩⟩)
    simp [step, hub, cmdDraw_isRendering]
  | cmdDrawIndexed p a f b o =>
    refine Or.inr (Or.inr ⟨?_, fun f rest => ⟨rfl, rfl⟩⟩)
    simp [step, hub, cmdDrawIndexed_isRendering]
  | cmdDrawIndirect p b o d st =>
    refine Or.inr (Or.inr ⟨?_, fun f rest => ⟨rfl, rfl⟩⟩)
    simp [step, hub, cmdDrawIndirect_isRendering]
  | cmdDrawIndexedIndirect p f a b o d st =>
    refine Or.inr (Or.inr ⟨?_, fun f rest => ⟨rfl, rfl⟩⟩)
    simp [step, hub, cmdDrawIndexedIndirect_isRendering]
  | cmdSetStencilReferenceValues a b =>
    refine Or.inr (Or.inr ⟨?_, fun f rest => ⟨rfl, rfl⟩⟩)
    simp [step, hub, cmdSetStencilReferenceValues_isRendering]
  | cmdSetBlendColor c =>
    refine Or.inr (Or.inr ⟨?_, fun f rest => ⟨rfl, rfl⟩⟩)
    simp [step, hub, cmdSetBlendColor_isRendering]
  | cmdSetDepthBias a b c =>
    refine Or.inr (Or.inr ⟨?_, fun f rest => ⟨rfl, rfl⟩⟩)
    simp [step, hub, cmdSetDepthBias_isRendering]

end CommandBuffer

namespace CommandBuffer

/-- A prefix that is as long as the whole list is the whole list. -/
theorem faults_eq_of_prefix {a b c : List Nat} (h1 : a <+: b) (h2 : b <+: c) (h3 : c = a) :
    b = a := by
  subst h3
  have hl1 := h1.length_le
  have hl2 := h2.length_le
  exact (h1.eq_of_length (Nat.le_antisymm hl1 hl2)).symm

/-- A run without fault and without undefined behaviour follows the state
machine of the specification. -/
theorem run_fault_free (calls : List Call) (s : CommandBuffer)
    (hub : (s.run calls).ub = false) (hf : (s.run calls).faults = s.faults) :
    alternates s.isRendering_ calls = true ∧
    ∀ n, (s.run (calls.take n)).isRendering_ = renderingAfter s.isRendering_ (calls.take n) := by
  induction calls generalizing s with
  | nil =>
    refine ⟨rfl, fun n => ?_⟩
    simp [run, renderingAfter]
  | cons c rest ih =>
    rw [run_cons] at hub hf
    have hsub : s.ub = false := by
      cases h : s.ub with
      | false => rfl
      | true =>
        have hstep : s.step c = s := by unfold step; simp [h]
        rw [hstep, run_of_ub rest s h, h] at hub
        exact hub
    have hf1 : (s.step c).faults = s.faults :=
      faults_eq_of_prefix (step_faults s c) (run_faults rest (s.step c)) hf
    have hih := ih (s.step c) hub (hf.trans hf1.symm)
    have htake : ∀ n, (s.run ((c :: rest).take (n + 1))) = (s.step c).run (rest.take n) := by
      intro n
      rw [List.take_succ_cons, run_cons]
    rcases step_isRendering s c hsub with ⟨rp, fb, rfl⟩ | rfl | ⟨hflag, hspec⟩
    · have hstep : s.step (.cmdBeginRendering rp fb) = s.cmdBeginRendering rp fb := by
        simp [step, hsub]
      rw [hstep] at hf1 hih htake
      rw [cmdBeginRendering_isRendering] at hih
      have hnot : s.isRendering_ = false := by
        cases h : s.isRendering_ with
        | false => rfl
        | true =>
          have hp := cmdBeginRendering_faults s rp fb
          rw [h, hf1] at hp
          have := hp.length_le
          simp at this
      refine ⟨by simp [alternates, hnot, hih.1], fun n => ?_⟩
      cases n with
      | zero => simp [run, renderingAfter]
      | succ n => rw [htake, hih.2 n]; simp [renderingAfter]
    · have hstep : s.step .cmdEndRendering = s.cmdEndRendering := by
        simp [step, hsub]
      rw [hstep] at hf1 hih htake
      rw [cmdEndRendering_isRendering] at hih
      have hyes : s.isRendering_ = true := by
        cases h : s.isRendering_ with
        | true => rfl
        | false =>
          have hp := cmdEndRendering_faults s
          rw [h, hf1] at hp
          simp [IGL_ASSERT] at hp
      refine ⟨by simp [alternates, hyes, hih.1], fun n => ?_⟩
      cases n with
      | zero => simp [run, renderingAfter]
      | succ n => rw [htake, hih.2 n]; simp [renderingAfter]
    · rw [hflag] at hih
      refine ⟨by rw [(hspec _ _).1]; exact hih.1, fun n => ?_⟩
      cases n with
      | zero => simp [run, renderingAfter]
      | succ n => rw [htake, hih.2 n, List.take_succ_cons, (hspec _ _).2]

end CommandBuffer

/-! ## Claims about the recorder state machine -/

/-- Claim C8: `cmdEndRendering` called while the rendering flag is false raises
the fault of line 381; `cmdBeginRendering` called while the flag is true raises
the fault of line 229; and in every sequence of recorder calls that runs
without fault (and without undefined behaviour) begins and ends alternate
strictly, starting with a begin when the recorder starts outside a pass, and
after every prefix of the sequence the flag is true exactly when the last
begin or end of that prefix is a begin. -/
theorem CommandBuffer.begin_end_state_machine (s : CommandBuffer) (renderPass : RenderPass)
    (fb : Framebuffer) (calls : List Call) :
    (s.isRendering_ = false → s.cmdEndRendering.faults = s.faults ++ [381]) ∧
    (s.isRendering_ = true →
      s.faults ++ [229] <+: (s.cmdBeginRendering renderPass fb).faults) ∧
    (s.isRendering_ = false → (s.run calls).ub = false → (s.run calls).faults = s.faults →
      alternates false calls = true ∧
      ∀ n, (s.run (calls.take n)).isRendering_ = renderingAfter false (calls.take n)) := by
  refine ⟨?_, ?_, ?_⟩
  · intro h
    rw [CommandBuffer.cmdEndRendering_faults, h]
    rfl
  · intro h
    have hp := CommandBuffer.cmdBeginRendering_faults s renderPass fb
    rw [h] at hp
    simpa using hp
  · intro h hub hf
    have := CommandBuffer.run_fault_free calls s hub hf
    rw [h] at this
    exact this

/-- The sample recorder: an end without a begin faults, a second begin faults,
and the sample pass, which runs without fault, alternates. -/
theorem CommandBuffer.begin_end_state_machine_witness :
    sampleRecorder.cmdEndRendering.faults = sampleRecorder.faults ++ [381] ∧
    ((sampleRecorder.cmdBeginRendering sampleRenderPass sampleFramebuffer).faults ++ [229] <+:
      ((sampleRecorder.cmdBeginRendering sampleRenderPass sampleFramebuffer).cmdBeginRendering
        sampleRenderPass sampleFramebuffer).faults) ∧
    (alternates false sampleCalls = true ∧
      ∀ n, (sampleRecorder.run (sampleCalls.take n)).isRendering_ =
        renderingAfter false (sampleCalls.take n)) :=
  ⟨(CommandBuffer.begin_end_state_machine sampleRecorder sampleRenderPass sampleFramebuffer
      sampleCalls).1 rfl,
   (CommandBuffer.begin_end_state_machine
      (sampleRecorder.cmdBeginRendering sampleRenderPass sampleFramebuffer)
      sampleRenderPass sampleFramebuffer sampleCalls).2.1 (by decide),
   (CommandBuffer.begin_end_state_machine sampleRecorder sampleRenderPass sampleFramebuffer
      sampleCalls).2.2 rfl (by decide) (by decide)⟩

/-! ## Claims about draw calls -/

namespace CommandBuffer

set_option linter.unusedTactic false

/-- The one fault of `bindGraphicsPipeline` is the failed pipeline lookup. -/
theorem bindGraphicsPipeline_faults_eq (s : CommandBuffer) :
    s.bindGraphicsPipeline.faults =
      s.faults ++ IGL_ASSERT 511 (s.ctx_.renderPipelinesPool_ s.currentPipeline_).isSome := by
  unfold bindGraphicsPipeline
  simp only []
  repeat' split
  all_goals simp_all [IGL_ASSERT]

theorem bindGraphicsPipeline_ub (s : CommandBuffer) : s.bindGraphicsPipeline.ub = s.ub := by
  unfold bindGraphicsPipeline
  simp only []
  repeat' split
  all_goals simp

theorem bindGraphicsPipeline_ctx (s : CommandBuffer) : s.bindGraphicsPipeline.ctx_ = s.ctx_ := by
  unfold bindGraphicsPipeline
  simp only []
  repeat' split
  all_goals simp

end CommandBuffer

/-- Claim C9, as amended: the four draw calls make no check of the rendering
flag. Whatever the flag is, the only fault a draw (with a non-zero count, for
`cmdDraw` and `cmdDrawIndexed`) can raise is the failed lookup of the current
pipeline (line 511); the flag is left as it was; and, provided the buffers
named by the call resolve, the draw command is recorded as the last command. -/
theorem CommandBuffer.draw_without_state_check (s : CommandBuffer)
    (primitiveType : PrimitiveType) (indexFormat : IndexFormat)
    (indexBuffer indirectBuffer : BufferHandle) (bufIndex bufIndirect : VulkanBuffer)
    (start count offset drawCount stride : Nat)
    (hcount : count ≠ 0)
    (hindex : s.ctx_.buffersPool_ indexBuffer = some bufIndex)
    (hindirect : s.ctx_.buffersPool_ indirectBuffer = some bufIndirect) :
    ((s.cmdDraw primitiveType start count).faults =
        s.faults ++ IGL_ASSERT 511 (s.ctx_.renderPipelinesPool_ s.currentPipeline_).isSome ∧
      (s.cmdDraw primitiveType start count).isRendering_ = s.isRendering_ ∧
      (s.cmdDraw primitiveType start count).commands.getLast? =
        some (.vkCmdDraw (count % 2 ^ 32) 1 (start % 2 ^ 32) 0)) ∧
    ((s.cmdDrawIndexed primitiveType count indexFormat indexBuffer offset).faults =
        s.faults ++ IGL_ASSERT 511 (s.ctx_.renderPipelinesPool_ s.currentPipeline_).isSome ∧
      (s.cmdDrawIndexed primitiveType count indexFormat indexBuffer offset).isRendering_ =
        s.isRendering_ ∧
      (s.cmdDrawIndexed primitiveType count indexFormat indexBuffer offset).commands.getLast? =
        some (.vkCmdDrawIndexed (count % 2 ^ 32) 1 0 0 0)) ∧
    ((s.cmdDrawIndirect primitiveType indirectBuffer offset drawCount stride).faults =
        s.faults ++ IGL_ASSERT 511 (s.ctx_.renderPipelinesPool_ s.currentPipeline_).isSome ∧
      (s.cmdDrawIndirect primitiveType indirectBuffer offset drawCount stride).isRendering_ =
        s.isRendering_ ∧
      (s.cmdDrawIndirect primitiveType indirectBuffer offset drawCount stride).commands.getLast? =
        some (.vkCmdDrawIndirect bufIndirect.vkBuffer_ offset drawCount
          (if stride ≠ 0 then stride else sizeof_VkDrawIndirectCommand))) ∧
    ((s.cmdDrawIndexedIndirect primitiveType indexFormat indexBuffer indirectBuffer offset
          drawCount stride).faults =
        s.faults ++ IGL_ASSERT 511 (s.ctx_.renderPipelinesPool_ s.currentPipeline_).isSome ∧
      (s.cmdDrawIndexedIndirect primitiveType indexFormat indexBuffer indirectBuffer offset
          drawCount stride).isRendering_ = s.isRendering_ ∧
      (s.cmdDrawIndexedIndirect primitiveType indexFormat indexBuffer indirectBuffer offset
          drawCount stride).commands.getLast? =
        some (.vkCmdDrawIndexedIndirect bufIndirect.vkBuffer_ offset drawCount
          (if stride ≠ 0 then stride else sizeof_VkDrawIndexedIndirectCommand))) := by
  refine ⟨⟨?_, CommandBuffer.cmdDraw_isRendering _ _ _ _, ?_⟩,
    ⟨?_, CommandBuffer.cmdDrawIndexed_isRendering _ _ _ _ _ _, ?_⟩,
    ⟨?_, CommandBuffer.cmdDrawIndirect_isRendering _ _ _ _ _ _, ?_⟩,
    ⟨?_, CommandBuffer.cmdDrawIndexedIndirect_isRendering _ _ _ _ _ _ _ _, ?_⟩⟩
  · simp [CommandBuffer.cmdDraw, hcount, CommandBuffer.bindGraphicsPipeline_faults_eq]
  · simp [CommandBuffer.cmdDraw, hcount]
  · simp [CommandBuffer.cmdDrawIndexed, hcount, CommandBuffer.bindGraphicsPipeline_faults_eq,
      CommandBuffer.bindGraphicsPipeline_ctx, hindex]
  · simp [CommandBuffer.cmdDrawIndexed, hcount, CommandBuffer.bindGraphicsPipeline_ctx, hindex]
  · simp [CommandBuffer.cmdDrawIndirect, CommandBuffer.bindGraphicsPipeline_faults_eq,
      CommandBuffer.bindGraphicsPipeline_ctx, hindirect]
  · simp [CommandBuffer.cmdDrawIndirect, CommandBuffer.bindGraphicsPipeline_ctx, hindirect]
  · simp [CommandBuffer.cmdDrawIndexedIndirect, CommandBuffer.bindGraphicsPipeline_faults_eq,
      CommandBuffer.bindGraphicsPipeline_ctx, hindex, hindirect]
  · simp [CommandBuffer.cmdDrawIndexedIndirect, CommandBuffer.bindGraphicsPipeline_ctx, hindex,
      hindirect]

/-- The sample recorder with pipeline 5 bound is outside a render pass, yet
each of the four draw calls raises no fault there and records its draw. -/
theorem CommandBuffer.draw_outside_pass_counterexample :
    sampleRecorderBound.isRendering_ = false ∧
    (sampleRecorderBound.cmdDraw .Primitive_Triangle 0 3).faults = [] ∧
    (sampleRecorderBound.cmdDraw .Primitive_Triangle 0 3).commands =
      [.vkCmdBindPipeline .VK_PIPELINE_BIND_POINT_GRAPHICS 1005, .vkCmdDraw 3 1 0 0] ∧
    (sampleRecorderBound.cmdDrawIndexed .Primitive_Triangle 3 .IndexFormat_UI16
      (sampleHandle 1) 0).faults = [] ∧
    (sampleRecorderBound.cmdDrawIndexed .Primitive_Triangle 3 .IndexFormat_UI16
      (sampleHandle 1) 0).commands.getLast? = some (.vkCmdDrawIndexed 3 1 0 0 0) ∧
    (sampleRecorderBound.cmdDrawIndirect .Primitive_Triangle (sampleHandle 2) 0 1 0).faults
      = [] ∧
    (sampleRecorderBound.cmdDrawIndirect .Primitive_Triangle (sampleHandle 2) 0 1
      0).commands.getLast? = some (.vkCmdDrawIndirect 102 0 1 16) ∧
    (sampleRecorderBound.cmdDrawIndexedIndirect .Primitive_Triangle .IndexFormat_UI16
      (sampleHandle 1) (sampleHandle 2) 0 1 0).faults = [] ∧
    (sampleRecorderBound.cmdDrawIndexedIndirect .Primitive_Triangle .IndexFormat_UI16
      (sampleHandle 1) (sampleHandle 2) 0 1 0).commands.getLast? =
        some (.vkCmdDrawIndexedIndirect 102 0 1 20) := by
  decide

/-- The four draws on the sample recorder with pipeline 5 bound, index buffer
1 and indirect buffer 2: no fault, and the draw is the last command. -/
theorem CommandBuffer.draw_without_state_check_witness :
    ((sampleRecorderBound.cmdDraw .Primitive_Triangle 0 3).faults =
        sampleRecorderBound.faults ++ IGL_ASSERT 511
          (sampleRecorderBound.ctx_.renderPipelinesPool_
            sampleRecorderBound.currentPipeline_).isSome ∧
      (sampleRecorderBound.cmdDraw .Primitive_Triangle 0 3).isRendering_ =
        sampleRecorderBound.isRendering_ ∧
      (sampleRecorderBound.cmdDraw .Primitive_Triangle 0 3).commands.getLast? =
        some (.vkCmdDraw (3 % 2 ^ 32) 1 (0 % 2 ^ 32) 0)) ∧
    (sampleRecorderBound.cmdDrawIndexedIndirect .Primitive_Triangle .IndexFormat_UI16
        (sampleHandle 1) (sampleHandle 2) 0 1 0).commands.getLast? =
      some (.vkCmdDrawIndexedIndirect 102 0 1 20) :=
  ⟨(CommandBuffer.draw_without_state_check sampleRecorderBound .Primitive_Triangle
      .IndexFormat_UI16 (sampleHandle 1) (sampleHandle 2)
      { ctx_ := 1, vkBuffer_ := 101, bufferSize_ := 256, usageFlags_ := 0x1C0,
        mappedPtr_ := 4096 }
      { ctx_ := 1, vkBuffer_ := 102, bufferSize_ := 256, usageFlags_ := 0x1C0,
        mappedPtr_ := 4096 }
      0 3 0 1 0 (by decide) (by decide) (by decide)).1,
   (CommandBuffer.draw_without_state_check sampleRecorderBound .Primitive_Triangle
      .IndexFormat_UI16 (sampleHandle 1) (sampleHandle 2)
      { ctx_ := 1, vkBuffer_ := 101, bufferSize_ := 256, usageFlags_ := 0x1C0,
        mappedPtr_ := 4096 }
      { ctx_ := 1, vkBuffer_ := 102, bufferSize_ := 256, usageFlags_ := 0x1C0,
        mappedPtr_ := 4096 }
      0 3 0 1 0 (by decide) (by decide) (by decide)).2.2.2.2.2⟩

/-! ## Claims about compute dispatch -/

namespace CommandBuffer

set_option linter.unusedTactic false

theorem mem_IGL_ASSERT {f line : Nat} {cond : Bool} (h : f ∈ IGL_ASSERT line cond) :
    f = line := by
  unfold IGL_ASSERT at h
  split at h <;> simp_all

theorem assert_faults_eq (s : CommandBuffer) (line : Nat) (cond : Bool) :
    (s.assert line cond).faults = s.faults ++ IGL_ASSERT line cond := by
  simp [IGL_ASSERT]

/-- The faults of `useComputeTexture` are those of lines 206 and 210. -/
theorem useComputeTexture_faults_mem (s : CommandBuffer) (h : TextureHandle) :
    ∃ more, (s.useComputeTexture h).faults = s.faults ++ more ∧
      ∀ f ∈ more, f = 206 ∨ f = 210 := by
  unfold useComputeTexture
  simp only []
  repeat' split
  · refine ⟨IGL_ASSERT 206 (!h.empty), by rw [crash_faults, assert_faults_eq], ?_⟩
    intro f hf
    exact Or.inl (mem_IGL_ASSERT hf)
  · refine ⟨IGL_ASSERT 206 (!h.empty) ++ IGL_ASSERT 210 false,
      by rw [assert_faults_eq, assert_faults_eq, List.append_assoc], ?_⟩
    intro f hf
    rcases List.mem_append.mp hf with hf | hf
    · exact Or.inl (mem_IGL_ASSERT hf)
    · exact Or.inr (mem_IGL_ASSERT hf)
  · refine ⟨IGL_ASSERT 206 (!h.empty), by rw [transitionLayout_faults, assert_faults_eq], ?_⟩
    intro f hf
    exact Or.inl (mem_IGL_ASSERT hf)
  · refine ⟨IGL_ASSERT 206 (!h.empty), by rw [transitionLayout_faults, assert_faults_eq], ?_⟩
    intro f hf
    exact Or.inl (mem_IGL_ASSERT hf)

theorem useComputeTextures_faults_mem (deps : Dependencies) (is : List Nat) (s : CommandBuffer) :
    ∃ more, (useComputeTextures deps is s).faults = s.faults ++ more ∧
      ∀ f ∈ more, f = 206 ∨ f = 210 := by
  induction is generalizing s with
  | nil => exact ⟨[], by simp [useComputeTextures], by simp⟩
  | cons i rest ih =>
    obtain ⟨m1, h1, hm1⟩ := useComputeTexture_faults_mem s (deps.textures i)
    obtain ⟨m2, h2, hm2⟩ := ih (s.useComputeTexture (deps.textures i))
    unfold useComputeTextures
    simp only []
    repeat' split
    · exact ⟨m1, h1, hm1⟩
    · refine ⟨m1 ++ m2, by rw [h2, h1, List.append_assoc], ?_⟩
      intro f hf
      rcases List.mem_append.mp hf with hf | hf
      · exact hm1 f hf
      · exact hm2 f hf
    · exact ⟨[], by simp, by simp⟩

/-- On a set handle that resolves to a storage image, `useComputeTexture` is
exactly one transition to `GENERAL`. -/
theorem useComputeTexture_storage (s : CommandBuffer) (h : TextureHandle) (tex : VulkanTexture)
    (hv : h.toBool = true) (hp : s.ctx_.texturesPool_ h = some tex)
    (hs : (s.images tex.image_).isStorageImage = true) :
    s.useComputeTexture h =
      s.transitionLayout tex.image_ .VK_IMAGE_LAYOUT_GENERAL
        (if (s.images tex.image_).imageLayout_ = .VK_IMAGE_LAYOUT_GENERAL then
          VK_PIPELINE_STAGE_COMPUTE_SHADER_BIT
        else VK_PIPELINE_STAGE_BOTTOM_OF_PIPE_BIT)
        VK_PIPELINE_STAGE_COMPUTE_SHADER_BIT
        { aspectMask := (s.images tex.image_).aspectFlags, baseMipLevel := 0,
          levelCount := VK_REMAINING_MIP_LEVELS, baseArrayLayer := 0,
          layerCount := VK_REMAINING_ARRAY_LAYERS } := by
  have he : h.empty = false := by
    simp only [Handle.toBool, Handle.valid, bne_iff_ne, ne_eq] at hv
    simp [Handle.empty, hv]
  unfold useComputeTexture
  simp only [he, Bool.not_false, CommandBuffer.assert, if_true, hp, hs, Bool.not_true,
    Bool.false_eq_true, if_false]

/-- The loop over dependency textures that all resolve to storage images
raises no fault and records one transition to `GENERAL` per texture, in order. -/
theorem useComputeTextures_storage (deps : Dependencies) (is : List Nat) (s : CommandBuffer)
    (hub : s.ub = false)
    (hall : ∀ h ∈ (is.map deps.textures).takeWhile Handle.toBool,
      ∃ tex, s.ctx_.texturesPool_ h = some tex ∧ (s.images tex.image_).isStorageImage = true) :
    (useComputeTextures deps is s).faults = s.faults ∧
    (useComputeTextures deps is s).ub = false ∧
    ∃ ts, (useComputeTextures deps is s).commands = s.commands ++ ts ∧
      ts.map VkCmd.transitionTarget =
        ((is.map deps.textures).takeWhile Handle.toBool).map (fun h =>
          (s.ctx_.texturesPool_ h).map (fun tex =>
            (tex.image_, VkImageLayout.VK_IMAGE_LAYOUT_GENERAL,
              VK_PIPELINE_STAGE_COMPUTE_SHADER_BIT))) := by
  induction is generalizing s with
  | nil => exact ⟨rfl, hub, [], by simp [useComputeTextures], by simp⟩
  | cons i rest ih =>
    unfold useComputeTextures
    by_cases hv : (deps.textures i).toBool = true
    · have hmem : deps.textures i ∈
          ((i :: rest).map deps.textures).takeWhile Handle.toBool := by
        simp [List.takeWhile_cons, hv]
      obtain ⟨tex, hp, hs⟩ := hall _ hmem
      have hstep := useComputeTexture_storage s (deps.textures i) tex hv hp hs
      simp only [hv, if_true]
      rw [hstep]
      simp only [transitionLayout_ub, hub, Bool.false_eq_true, if_false]
      have hall1 : ∀ h ∈ (rest.map deps.textures).takeWhile Handle.toBool,
          ∃ tex1, (s.transitionLayout tex.image_ .VK_IMAGE_LAYOUT_GENERAL
              (if (s.images tex.image_).imageLayout_ = .VK_IMAGE_LAYOUT_GENERAL then
                VK_PIPELINE_STAGE_COMPUTE_SHADER_BIT
              else VK_PIPELINE_STAGE_BOTTOM_OF_PIPE_BIT)
              VK_PIPELINE_STAGE_COMPUTE_SHADER_BIT
              { aspectMask := (s.images tex.image_).aspectFlags, baseMipLevel := 0,
                levelCount := VK_REMAINING_MIP_LEVELS, baseArrayLayer := 0,
                layerCount := VK_REMAINING_ARRAY_LAYERS }).ctx_.texturesPool_ h = some tex1 ∧
            ((s.transitionLayout tex.image_ .VK_IMAGE_LAYOUT_GENERAL
              (if (s.images tex.image_).imageLayout_ = .VK_IMAGE_LAYOUT_GENERAL then
                VK_PIPELINE_STAGE_COMPUTE_SHADER_BIT
              else VK_PIPELINE_STAGE_BOTTOM_OF_PIPE_BIT)
              VK_PIPELINE_STAGE_COMPUTE_SHADER_BIT
              { aspectMask := (s.images tex.image_).aspectFlags, baseMipLevel := 0,
                levelCount := VK_REMAINING_MIP_LEVELS, baseArrayLayer := 0,
                layerCount := VK_REMAINING_ARRAY_LAYERS }).images tex1.image_).isStorageImage
              = true := by
        intro h hh
        have hmem1 : h ∈ ((i :: rest).map deps.textures).takeWhile Handle.toBool := by
          simp only [List.map_cons, List.takeWhile_cons, hv, if_true, List.mem_cons]
          exact Or.inr hh
        obtain ⟨tex1, hp1, hs1⟩ := hall _ hmem1
        refine ⟨tex1, by simpa using hp1, ?_⟩
        simp only [transitionLayout_images, Function.update_apply]
        split
        · next heq => rw [heq] at hs1; exact hs1
        · exact hs1
      obtain ⟨hf, hu, ts, hc, hts⟩ := ih _ (by simp [hub]) hall1
      refine ⟨by rw [hf]; simp, hu,
        VkCmd.transitionLayout tex.image_ (s.images tex.image_).imageLayout_
          .VK_IMAGE_LAYOUT_GENERAL
          (if (s.images tex.image_).imageLayout_ = .VK_IMAGE_LAYOUT_GENERAL then
            VK_PIPELINE_STAGE_COMPUTE_SHADER_BIT
          else VK_PIPELINE_STAGE_BOTTOM_OF_PIPE_BIT)
          VK_PIPELINE_STAGE_COMPUTE_SHADER_BIT
          { aspectMask := (s.images tex.image_).aspectFlags, baseMipLevel := 0,
            levelCount := VK_REMAINING_MIP_LEVELS, baseArrayLayer := 0,
            layerCount := VK_REMAINING_ARRAY_LAYERS } :: ts, by rw [hc]; simp, ?_⟩
      simp only [List.map_cons, List.takeWhile_cons, hv, if_true, hp, Option.map_some']
      rw [hts]
      simp [VkCmd.transitionTarget]
    · have hv0 : (deps.textures i).toBool = false := by simpa using hv
      simp only [hv0, Bool.false_eq_true, if_false]
      refine ⟨?_, ?_, [], ?_, ?_⟩ <;> simp [hub, List.takeWhile_cons, hv0]

end CommandBuffer

/-- Claim C20: for a handle that resolves to a texture, `transitionToShaderReadOnly`
records a layout transition exactly when the sample count of the image is 1.
The transition recorded targets `SHADER_READ_ONLY_OPTIMAL` with destination
stages `FRAGMENT_SHADER | COMPUTE_SHADER` and source stage
`LATE_FRAGMENT_TESTS` for a depth or stencil format, `COLOR_ATTACHMENT_OUTPUT`
otherwise, and makes that layout the tracked one; for a multisampled image
nothing is recorded and no tracked layout changes. -/
theorem CommandBuffer.transitionToShaderReadOnly_samples (s : CommandBuffer)
    (handle : TextureHandle) (tex : VulkanTexture)
    (hp : s.ctx_.texturesPool_ handle = some tex) :
    ((s.images tex.image_).samples_ = VK_SAMPLE_COUNT_1_BIT →
      (s.transitionToShaderReadOnly handle).commands = s.commands ++
        [.transitionLayout tex.image_ (s.images tex.image_).imageLayout_
          .VK_IMAGE_LAYOUT_SHADER_READ_ONLY_OPTIMAL
          (if s.ctx_.isDepthOrStencilVkFormat (s.images tex.image_).imageFormat_ = true then
            VK_PIPELINE_STAGE_LATE_FRAGMENT_TESTS_BIT
          else VK_PIPELINE_STAGE_COLOR_ATTACHMENT_OUTPUT_BIT)
          (VK_PIPELINE_STAGE_FRAGMENT_SHADER_BIT ||| VK_PIPELINE_STAGE_COMPUTE_SHADER_BIT)
          { aspectMask := (s.images tex.image_).aspectFlags, baseMipLevel := 0,
            levelCount := VK_REMAINING_MIP_LEVELS, baseArrayLayer := 0,
            layerCount := VK_REMAINING_ARRAY_LAYERS }] ∧
      ((s.transitionToShaderReadOnly handle).images tex.image_).imageLayout_ =
        .VK_IMAGE_LAYOUT_SHADER_READ_ONLY_OPTIMAL) ∧
    ((s.images tex.image_).samples_ ≠ VK_SAMPLE_COUNT_1_BIT →
      (s.transitionToShaderReadOnly handle).commands = s.commands ∧
      (s.transitionToShaderReadOnly handle).images = s.images) := by
  refine ⟨?_, ?_⟩
  · intro h1
    unfold CommandBuffer.transitionToShaderReadOnly
    simp only [hp, CommandBuffer.assert_images, CommandBuffer.assert_ctx_, h1, if_true]
    constructor
    · simp
    · simp
  · intro h1
    unfold CommandBuffer.transitionToShaderReadOnly
    simp only [hp, CommandBuffer.assert_images, h1, if_false]
    simp

/-- Claim C17: for a non-empty handle that resolves to a pipeline state,
`cmdBindRenderPipeline` raises the fault of line 444 and logs the warning of
line 445 exactly when "the pipeline has a depth format" differs from "the
framebuffer snapshot has a depth-stencil texture"; in either case it makes the
handle the current pipeline and clears the last-bound native pipeline. With an
empty handle it only reports the failed check of line 428 and changes no
member of the recorder. -/
theorem CommandBuffer.cmdBindRenderPipeline_depth_agreement (s : CommandBuffer)
    (handle : RenderPipelineHandle) (rps : RenderPipelineState) :
    (handle.empty = false → s.ctx_.renderPipelinesPool_ handle = some rps →
      (s.cmdBindRenderPipeline handle).faults = s.faults ++
        (if ((rps.desc_.depthFormat != Format_Invalid) !=
            (!s.framebuffer_.depthStencil.texture.empty)) = true then [444] else []) ∧
      (s.cmdBindRenderPipeline handle).warnings = s.warnings ++
        (if ((rps.desc_.depthFormat != Format_Invalid) !=
            (!s.framebuffer_.depthStencil.texture.empty)) = true then [445] else []) ∧
      (s.cmdBindRenderPipeline handle).currentPipeline_ = handle ∧
      (s.cmdBindRenderPipeline handle).lastPipelineBound_ = nullptr ∧
      (s.cmdBindRenderPipeline handle).ub = s.ub) ∧
    (handle.empty = true →
      s.cmdBindRenderPipeline handle = { s with faults := s.faults ++ [428] }) := by
  refine ⟨?_, ?_⟩
  · intro he hp
    unfold CommandBuffer.cmdBindRenderPipeline
    simp only [he, Bool.not_false, CommandBuffer.assert, if_true, Bool.false_eq_true, if_false,
      hp, Option.isSome_some]
    by_cases hm : ((rps.desc_.depthFormat != Format_Invalid) !=
        (!s.framebuffer_.depthStencil.texture.empty)) = true
    · simp [hm, CommandBuffer.warn]
    · simp [hm]
  · intro he
    unfold CommandBuffer.cmdBindRenderPipeline
    simp [he, CommandBuffer.assert]

namespace CommandBuffer

/-- `cmdBindRenderPipeline` with a handle that resolves: the members afterwards. -/
theorem cmdBindRenderPipeline_resolved (s : CommandBuffer) (handle : RenderPipelineHandle)
    (rps : RenderPipelineState) (he : handle.empty = false)
    (hp : s.ctx_.renderPipelinesPool_ handle = some rps) :
    (s.cmdBindRenderPipeline handle).ctx_ = s.ctx_ ∧
    (s.cmdBindRenderPipeline handle).dynamicState_ = s.dynamicState_ ∧
    (s.cmdBindRenderPipeline handle).currentPipeline_ = handle ∧
    (s.cmdBindRenderPipeline handle).lastPipelineBound_ = nullptr ∧
    (s.cmdBindRenderPipeline handle).commands = s.commands := by
  unfold cmdBindRenderPipeline
  simp only [he, Bool.not_false, CommandBuffer.assert, if_true, Bool.false_eq_true, if_false,
    hp, Option.isSome_some]
  split <;> simp [CommandBuffer.warn]

/-- A draw with a non-zero count whose pipeline resolves to a native pipeline
other than the last one bound, and not null: the bind and the draw are recorded. -/
theorem cmdDraw_rebinds (s : CommandBuffer) (rps : RenderPipelineState)
    (primitiveType : PrimitiveType) (start count : Nat) (hc : count ≠ 0)
    (hp : s.ctx_.renderPipelinesPool_ s.currentPipeline_ = some rps)
    (hlast : s.lastPipelineBound_ ≠ rps.getVkPipeline (s.dynamicState_.setTopology
      (primitiveTypeToVkPrimitiveTopology primitiveType)))
    (hnative : rps.getVkPipeline (s.dynamicState_.setTopology
      (primitiveTypeToVkPrimitiveTopology primitiveType)) ≠ nullptr) :
    (s.cmdDraw primitiveType start count).commands = s.commands ++
      [.vkCmdBindPipeline .VK_PIPELINE_BIND_POINT_GRAPHICS
          (rps.getVkPipeline (s.dynamicState_.setTopology
            (primitiveTypeToVkPrimitiveTopology primitiveType))),
       .vkCmdDraw (count % 2 ^ 32) 1 (start % 2 ^ 32) 0] ∧
    (s.cmdDraw primitiveType start count).ctx_ = s.ctx_ ∧
    (s.cmdDraw primitiveType start count).currentPipeline_ = s.currentPipeline_ ∧
    (s.cmdDraw primitiveType start count).dynamicState_ =
      s.dynamicState_.setTopology (primitiveTypeToVkPrimitiveTopology primitiveType) ∧
    (s.cmdDraw primitiveType start count).lastPipelineBound_ =
      rps.getVkPipeline (s.dynamicState_.setTopology
        (primitiveTypeToVkPrimitiveTopology primitiveType)) := by
  have hl : (s.lastPipelineBound_ != rps.getVkPipeline (s.dynamicState_.setTopology
      (primitiveTypeToVkPrimitiveTopology primitiveType))) = true := by
    simpa [bne_iff_ne] using hlast
  have hn : (rps.getVkPipeline (s.dynamicState_.setTopology
      (primitiveTypeToVkPrimitiveTopology primitiveType)) != nullptr) = true := by
    simpa [bne_iff_ne] using hnative
  unfold cmdDraw bindGraphicsPipeline
  simp only [hc, if_false, hp, Option.isSome_some, CommandBuffer.assert, if_true, hl, hn]
  simp [CommandBuffer.record]

/-- A draw with a non-zero count whose pipeline resolves to the native pipeline
bound last: only the draw is recorded. -/
theorem cmdDraw_bound (s : CommandBuffer) (rps : RenderPipelineState)
    (primitiveType : PrimitiveType) (start count : Nat) (hc : count ≠ 0)
    (hp : s.ctx_.renderPipelinesPool_ s.currentPipeline_ = some rps)
    (hlast : s.lastPipelineBound_ = rps.getVkPipeline (s.dynamicState_.setTopology
      (primitiveTypeToVkPrimitiveTopology primitiveType))) :
    (s.cmdDraw primitiveType start count).commands = s.commands ++
      [.vkCmdDraw (count % 2 ^ 32) 1 (start % 2 ^ 32) 0] := by
  have hl : (s.lastPipelineBound_ != rps.getVkPipeline (s.dynamicState_.setTopology
      (primitiveTypeToVkPrimitiveTopology primitiveType))) = false := by
    simp [hlast]
  unfold cmdDraw bindGraphicsPipeline
  simp only [hc, if_false, hp, Option.isSome_some, CommandBuffer.assert, if_true, hl,
    Bool.false_eq_true]
  simp [CommandBuffer.record]

theorem setTopology_setTopology (d : RenderPipelineDynamicState) (t : VkPrimitiveTopology) :
    (d.setTopology t).setTopology t = d.setTopology t := rfl

end CommandBuffer

/-- Claim C15: after `cmdBindRenderPipeline(h)` with `h` resolving to a native
pipeline that is not null, two consecutive `cmdDraw` calls with the same
primitive type and non-zero counts record `vkCmdBindPipeline` exactly once,
before the first draw, and exactly two `vkCmdDraw` commands. -/
theorem CommandBuffer.repeated_draw_binds_once (s : CommandBuffer)
    (handle : RenderPipelineHandle) (rps : RenderPipelineState) (primitiveType : PrimitiveType)
    (start1 count1 start2 count2 : Nat)
    (he : handle.empty = false) (hp : s.ctx_.renderPipelinesPool_ handle = some rps)
    (hnative : rps.getVkPipeline (s.dynamicState_.setTopology
      (primitiveTypeToVkPrimitiveTopology primitiveType)) ≠ nullptr)
    (h1 : count1 ≠ 0) (h2 : count2 ≠ 0) :
    (((s.cmdBindRenderPipeline handle).cmdDraw primitiveType start1 count1).cmdDraw
        primitiveType start2 count2).commands =
      s.commands ++
        [.vkCmdBindPipeline .VK_PIPELINE_BIND_POINT_GRAPHICS
            (rps.getVkPipeline (s.dynamicState_.setTopology
              (primitiveTypeToVkPrimitiveTopology primitiveType))),
         .vkCmdDraw (count1 % 2 ^ 32) 1 (start1 % 2 ^ 32) 0,
         .vkCmdDraw (count2 % 2 ^ 32) 1 (start2 % 2 ^ 32) 0] := by
  obtain ⟨hctx, hdyn, hcur, hlast, hcmd⟩ :=
    CommandBuffer.cmdBindRenderPipeline_resolved s handle rps he hp
  have hp1 : (s.cmdBindRenderPipeline handle).ctx_.renderPipelinesPool_
      (s.cmdBindRenderPipeline handle).currentPipeline_ = some rps := by
    rw [hctx, hcur, hp]
  obtain ⟨dcmd, dctx, dcur, ddyn, dlast⟩ :=
    CommandBuffer.cmdDraw_rebinds (s.cmdBindRenderPipeline handle) rps primitiveType
      start1 count1 h1 hp1 (by rw [hlast, hdyn]; exact hnative.symm) (by rw [hdyn]; exact hnative)
  have hp2 : ((s.cmdBindRenderPipeline handle).cmdDraw primitiveType start1
      count1).ctx_.renderPipelinesPool_
      ((s.cmdBindRenderPipeline handle).cmdDraw primitiveType start1 count1).currentPipeline_
        = some rps := by
    rw [dctx, dcur, hp1]
  rw [CommandBuffer.cmdDraw_bound _ rps primitiveType start2 count2 h2 hp2
    (by rw [dlast, ddyn, CommandBuffer.setTopology_setTopology]), dcmd, hcmd, hdyn]
  simp

/-- Claim C14, as amended: `cmdBindRenderPipeline` clears the last-bound native
pipeline, so binding is deduplicated only between draws with no
`cmdBindRenderPipeline` in between. In the sequence bind `h1`, draw, bind
`h2`, draw, with both handles resolving to the same native pipeline `P` that
is not null, the second draw records `vkCmdBindPipeline` of `P` again: two
binds of `P` and two draws are recorded in total. -/
theorem CommandBuffer.rebind_after_bind_call (s : CommandBuffer)
    (h1 h2 : RenderPipelineHandle) (rps1 rps2 : RenderPipelineState)
    (primitiveType : PrimitiveType) (n : Nat)
    (he1 : h1.empty = false) (he2 : h2.empty = false)
    (hp1 : s.ctx_.renderPipelinesPool_ h1 = some rps1)
    (hp2 : s.ctx_.renderPipelinesPool_ h2 = some rps2)
    (hsame : rps1.getVkPipeline (s.dynamicState_.setTopology
        (primitiveTypeToVkPrimitiveTopology primitiveType)) =
      rps2.getVkPipeline (s.dynamicState_.setTopology
        (primitiveTypeToVkPrimitiveTopology primitiveType)))
    (hnative : rps1.getVkPipeline (s.dynamicState_.setTopology
      (primitiveTypeToVkPrimitiveTopology primitiveType)) ≠ nullptr)
    (hn : n ≠ 0) :
    ((((s.cmdBindRenderPipeline h1).cmdDraw primitiveType 0 n).cmdBindRenderPipeline
        h2).cmdDraw primitiveType 0 n).commands =
      s.commands ++
        [.vkCmdBindPipeline .VK_PIPELINE_BIND_POINT_GRAPHICS
            (rps1.getVkPipeline (s.dynamicState_.setTopology
              (primitiveTypeToVkPrimitiveTopology primitiveType))),
         .vkCmdDraw (n % 2 ^ 32) 1 (0 % 2 ^ 32) 0,
         .vkCmdBindPipeline .VK_PIPELINE_BIND_POINT_GRAPHICS
            (rps1.getVkPipeline (s.dynamicState_.setTopology
              (primitiveTypeToVkPrimitiveTopology primitiveType))),
         .vkCmdDraw (n % 2 ^ 32) 1 (0 % 2 ^ 32) 0] := by
  obtain ⟨actx, adyn, acur, alast, acmd⟩ :=
    CommandBuffer.cmdBindRenderPipeline_resolved s h1 rps1 he1 hp1
  have ap : (s.cmdBindRenderPipeline h1).ctx_.renderPipelinesPool_
      (s.cmdBindRenderPipeline h1).currentPipeline_ = some rps1 := by
    rw [actx, acur, hp1]
  obtain ⟨bcmd, bctx, bcur, bdyn, blast⟩ :=
    CommandBuffer.cmdDraw_rebinds (s.cmdBindRenderPipeline h1) rps1 primitiveType
      0 n hn ap (by rw [alast, adyn]; exact hnative.symm) (by rw [adyn]; exact hnative)
  have cp : ((s.cmdBindRenderPipeline h1).cmdDraw primitiveType 0 n).ctx_.renderPipelinesPool_
      h2 = some rps2 := by
    rw [bctx, actx, hp2]
  obtain ⟨cctx, cdyn, ccur, clast, ccmd⟩ :=
    CommandBuffer.cmdBindRenderPipeline_resolved
      ((s.cmdBindRenderPipeline h1).cmdDraw primitiveType 0 n) h2 rps2 he2 cp
  have dp : (((s.cmdBindRenderPipeline h1).cmdDraw primitiveType 0 n).cmdBindRenderPipeline
      h2).ctx_.renderPipelinesPool_
      (((s.cmdBindRenderPipeline h1).cmdDraw primitiveType 0 n).cmdBindRenderPipeline
        h2).currentPipeline_ = some rps2 := by
    rw [cctx, ccur, cp]
  have hdyn2 : (((s.cmdBindRenderPipeline h1).cmdDraw primitiveType 0 n).cmdBindRenderPipeline
      h2).dynamicState_.setTopology (primitiveTypeToVkPrimitiveTopology primitiveType) =
      s.dynamicState_.setTopology (primitiveTypeToVkPrimitiveTopology primitiveType) := by
    rw [cdyn, bdyn, adyn, CommandBuffer.setTopology_setTopology]
  obtain ⟨dcmd, -, -, -, -⟩ :=
    CommandBuffer.cmdDraw_rebinds _ rps2 primitiveType 0 n hn dp
      (by rw [clast, hdyn2, ← hsame]; exact hnative.symm)
      (by rw [hdyn2, ← hsame]; exact hnative)
  rw [dcmd, ccmd, bcmd, acmd, hdyn2, adyn, ← hsame]
  simp

/-! ## The command recorder: counting the faults of one line -/

namespace CommandBuffer

set_option linter.unusedTactic false

theorem count_IGL_ASSERT_of_ne {line f : Nat} (cond : Bool) (h : line ≠ f) :
    (IGL_ASSERT line cond).count f = 0 := by
  unfold IGL_ASSERT
  split
  · rfl
  · simp [List.count_cons, h]

theorem assert_count_of_ne (s : CommandBuffer) {line f : Nat} (cond : Bool) (h : line ≠ f) :
    (s.assert line cond).faults.count f = s.faults.count f := by
  rw [assert_faults_eq, List.count_append, count_IGL_ASSERT_of_ne cond h, Nat.add_zero]

theorem assert_count_self (s : CommandBuffer) (line : Nat) (cond : Bool) :
    (s.assert line cond).faults.count line =
      s.faults.count line + (if cond = true then 0 else 1) := by
  rw [assert_faults_eq, List.count_append]
  unfold IGL_ASSERT
  split <;> simp

/-- Faults that `transitionColorAttachment` does not raise are as many as before. -/
theorem transitionColorAttachment_count (s : CommandBuffer) (t : Option VulkanTexture) (f : Nat)
    (hf : ∀ line ∈ [26, 31, 32, 35], line ≠ f) :
    (transitionColorAttachment s t).faults.count f = s.faults.count f := by
  have h26 : (26 : Nat) ≠ f := hf 26 (by simp)
  have h31 : (31 : Nat) ≠ f := hf 31 (by simp)
  have h32 : (32 : Nat) ≠ f := hf 32 (by simp)
  have h35 : (35 : Nat) ≠ f := hf 35 (by simp)
  unfold transitionColorAttachment
  cases t with
  | none => simp only [assert_count_of_ne _ _ h26]
  | some tex =>
    simp only []
    split <;>
      simp only [transitionLayout_faults, assert_count_of_ne _ _ h26, assert_count_of_ne _ _ h31,
        assert_count_of_ne _ _ h32, assert_count_of_ne _ _ h35]

theorem beginTransitionColor_count (fb : Framebuffer) (i : Nat) (s : CommandBuffer) (f : Nat)
    (hf : ∀ line ∈ [26, 31, 32, 35], line ≠ f) :
    (beginTransitionColor fb i s).faults.count f = s.faults.count f := by
  unfold beginTransitionColor
  simp only []
  repeat' split
  all_goals simp only [transitionColorAttachment_count _ _ f hf]

theorem foldl_beginTransitionColor_count (fb : Framebuffer) (is : List Nat) (s : CommandBuffer)
    (f : Nat) (hf : ∀ line ∈ [26, 31, 32, 35], line ≠ f) :
    (is.foldl (fun s i => beginTransitionColor fb i s) s).faults.count f = s.faults.count f := by
  induction is generalizing s with
  | nil => rfl
  | cons i rest ih => rw [List.foldl_cons, ih, beginTransitionColor_count fb i s f hf]

theorem beginTransitionDepth_count (fb : Framebuffer) (s : CommandBuffer) (f : Nat)
    (hf : 257 ≠ f) :
    (beginTransitionDepth fb s).faults.count f = s.faults.count f := by
  unfold beginTransitionDepth
  simp only []
  repeat' split
  all_goals
    simp only [transitionLayout_faults, crash_faults, assert_count_of_ne _ _ hf]

end CommandBuffer
/-- Texture 1 of the sample recorder (one sample, colour format) is moved to
`SHADER_READ_ONLY_OPTIMAL` with source stage `COLOR_ATTACHMENT_OUTPUT`; with
four samples nothing is recorded. -/
theorem CommandBuffer.transitionToShaderReadOnly_samples_witness :
    ((sampleRecorder.transitionToShaderReadOnly (sampleHandle 1)).commands =
        sampleRecorder.commands ++
        [.transitionLayout (sampleTexture 1).image_
          (sampleRecorder.images (sampleTexture 1).image_).imageLayout_
          .VK_IMAGE_LAYOUT_SHADER_READ_ONLY_OPTIMAL
          (if sampleRecorder.ctx_.isDepthOrStencilVkFormat
              (sampleRecorder.images (sampleTexture 1).image_).imageFormat_ = true then
            VK_PIPELINE_STAGE_LATE_FRAGMENT_TESTS_BIT
          else VK_PIPELINE_STAGE_COLOR_ATTACHMENT_OUTPUT_BIT)
          (VK_PIPELINE_STAGE_FRAGMENT_SHADER_BIT ||| VK_PIPELINE_STAGE_COMPUTE_SHADER_BIT)
          { aspectMask := (sampleRecorder.images (sampleTexture 1).image_).aspectFlags,
            baseMipLevel := 0, levelCount := VK_REMAINING_MIP_LEVELS, baseArrayLayer := 0,
            layerCount := VK_REMAINING_ARRAY_LAYERS }] ∧
      ((sampleRecorder.transitionToShaderReadOnly (sampleHandle 1)).images
        (sampleTexture 1).image_).imageLayout_ = .VK_IMAGE_LAYOUT_SHADER_READ_ONLY_OPTIMAL) ∧
    ((sampleRecorderMsaa.transitionToShaderReadOnly (sampleHandle 1)).commands =
        sampleRecorderMsaa.commands ∧
      (sampleRecorderMsaa.transitionToShaderReadOnly (sampleHandle 1)).images =
        sampleRecorderMsaa.images) :=
  ⟨(CommandBuffer.transitionToShaderReadOnly_samples sampleRecorder (sampleHandle 1)
      (sampleTexture 1) rfl).1 (by decide),
   (CommandBuffer.transitionToShaderReadOnly_samples sampleRecorderMsaa (sampleHandle 1)
      (sampleTexture 1) rfl).2 (by decide)⟩

/-- Pipeline 5 bound on the fresh sample recorder: neither side has a depth
attachment, so no fault and no warning; the empty handle only reports line 428. -/
theorem CommandBuffer.cmdBindRenderPipeline_depth_agreement_witness :
    ((sampleRecorder.cmdBindRenderPipeline (sampleHandle 5)).faults = sampleRecorder.faults ++
        (if (((sampleRenderPipelineState 5).desc_.depthFormat != Format_Invalid) !=
            (!sampleRecorder.framebuffer_.depthStencil.texture.empty)) = true then [444]
          else []) ∧
      (sampleRecorder.cmdBindRenderPipeline (sampleHandle 5)).warnings =
        sampleRecorder.warnings ++
        (if (((sampleRenderPipelineState 5).desc_.depthFormat != Format_Invalid) !=
            (!sampleRecorder.framebuffer_.depthStencil.texture.empty)) = true then [445]
          else []) ∧
      (sampleRecorder.cmdBindRenderPipeline (sampleHandle 5)).currentPipeline_ = sampleHandle 5 ∧
      (sampleRecorder.cmdBindRenderPipeline (sampleHandle 5)).lastPipelineBound_ = nullptr ∧
      (sampleRecorder.cmdBindRenderPipeline (sampleHandle 5)).ub = sampleRecorder.ub) ∧
    sampleRecorder.cmdBindRenderPipeline {} =
      { sampleRecorder with faults := sampleRecorder.faults ++ [428] } :=
  ⟨(CommandBuffer.cmdBindRenderPipeline_depth_agreement sampleRecorder (sampleHandle 5)
      (sampleRenderPipelineState 5)).1 (by decide) rfl,
   (CommandBuffer.cmdBindRenderPipeline_depth_agreement sampleRecorder {}
      (sampleRenderPipelineState 5)).2 (by decide)⟩

/-- Pipeline 5 and two triangle draws on the sample recorder: one bind of the
native pipeline 1005, two draws. -/
theorem CommandBuffer.repeated_draw_binds_once_witness :
    (((sampleRecorder.cmdBindRenderPipeline (sampleHandle 5)).cmdDraw .Primitive_Triangle 0
        3).cmdDraw .Primitive_Triangle 0 3).commands =
      sampleRecorder.commands ++
        [.vkCmdBindPipeline .VK_PIPELINE_BIND_POINT_GRAPHICS
            ((sampleRenderPipelineState 5).getVkPipeline
              (sampleRecorder.dynamicState_.setTopology
                (primitiveTypeToVkPrimitiveTopology .Primitive_Triangle))),
         .vkCmdDraw (3 % 2 ^ 32) 1 (0 % 2 ^ 32) 0,
         .vkCmdDraw (3 % 2 ^ 32) 1 (0 % 2 ^ 32) 0] :=
  CommandBuffer.repeated_draw_binds_once sampleRecorder (sampleHandle 5)
    (sampleRenderPipelineState 5) .Primitive_Triangle 0 3 0 3 (by decide) rfl (by decide)
    (by decide) (by decide)

/-- On the context where the handles 5 and 6 resolve to the same native
pipeline 1234: bind 5, draw, bind 6, draw records the bind twice. -/
theorem CommandBuffer.rebind_after_bind_call_counterexample :
    sampleHandle 5 ≠ (sampleHandle 6 : RenderPipelineHandle) ∧
    ((((sampleRecorderShared.cmdBindRenderPipeline (sampleHandle 5)).cmdDraw
        .Primitive_Triangle 0 3).cmdBindRenderPipeline (sampleHandle 6)).cmdDraw
          .Primitive_Triangle 0 3).commands =
      [.vkCmdBindPipeline .VK_PIPELINE_BIND_POINT_GRAPHICS 1234, .vkCmdDraw 3 1 0 0,
       .vkCmdBindPipeline .VK_PIPELINE_BIND_POINT_GRAPHICS 1234, .vkCmdDraw 3 1 0 0] := by
  decide

/-- The handles 5 and 6 of the context with the shared native pipeline. -/
theorem CommandBuffer.rebind_after_bind_call_witness :
    ((((sampleRecorderShared.cmdBindRenderPipeline (sampleHandle 5)).cmdDraw
        .Primitive_Triangle 0 3).cmdBindRenderPipeline (sampleHandle 6)).cmdDraw
          .Primitive_Triangle 0 3).commands =
      sampleRecorderShared.commands ++
        [.vkCmdBindPipeline .VK_PIPELINE_BIND_POINT_GRAPHICS 1234,
         .vkCmdDraw (3 % 2 ^ 32) 1 (0 % 2 ^ 32) 0,
         .vkCmdBindPipeline .VK_PIPELINE_BIND_POINT_GRAPHICS 1234,
         .vkCmdDraw (3 % 2 ^ 32) 1 (0 % 2 ^ 32) 0] :=
  CommandBuffer.rebind_after_bind_call sampleRecorderShared (sampleHandle 5) (sampleHandle 6)
    { getVkPipeline := fun _ => 1234 } { getVkPipeline := fun _ => 1234 }
    .Primitive_Triangle 3 (by decide) (by decide) rfl rfl rfl (by decide) (by decide)

/-- Claim C12, the code at the failing input: a pass whose two colour
attachments have the mip levels 0 and 1 (or 1 and 0) on two 512 x 512 textures
begins without any fault and without undefined behaviour, although the levels
differ; the levels 1 and 2 raise the fault of line 284. -/
theorem CommandBuffer.cmdBeginRendering_mip_levels_unchecked :
    (sampleRenderPassLevels 0 1).getNumColorAttachments = 2 ∧
    sampleFramebufferTwo.getNumColorAttachments = 2 ∧
    ((sampleRenderPassLevels 0 1).color 0).level ≠ ((sampleRenderPassLevels 0 1).color 1).level ∧
    (sampleRecorder.cmdBeginRendering (sampleRenderPassLevels 0 1)
      sampleFramebufferTwo).faults = [] ∧
    (sampleRecorder.cmdBeginRendering (sampleRenderPassLevels 0 1)
      sampleFramebufferTwo).ub = false ∧
    (sampleRecorder.cmdBeginRendering (sampleRenderPassLevels 1 0)
      sampleFramebufferTwo).faults = [] ∧
    (sampleRecorder.cmdBeginRendering (sampleRenderPassLevels 1 2)
      sampleFramebufferTwo).faults = [284] := by
  decide

theorem countLeading_four (used : Nat → Bool) :
    countLeading used 4 4 0 = leadingRun used 4 ∧ countLeading used 4 4 0 ≤ 4 ∧
    ∀ k, k < 4 → used k = false → countLeading used 4 4 0 ≤ k := by
  have hr : List.range 4 = [0, 1, 2, 3] := by decide
  unfold leadingRun
  rw [hr]
  simp only [countLeading, List.map_cons, List.map_nil]
  cases h0 : used 0 <;> cases h1 : used 1 <;> cases h2 : used 2 <;> cases h3 : used 3 <;>
    simp [List.takeWhile_cons] <;>
    (intro k hk hu
     interval_cases k <;> simp_all)

namespace CommandBuffer

set_option linter.unusedTactic false

theorem raise_count_loadOp (s : CommandBuffer) (a : LoadOp) (f : Nat) (hf : 56 ≠ f) :
    (s.raise (loadOpToVkAttachmentLoadOp a).2).faults.count f = s.faults.count f := by
  rw [raise_faults, List.count_append]
  cases a <;> simp [loadOpToVkAttachmentLoadOp, count_IGL_ASSERT_of_ne _ hf]

/-- Faults that one iteration of the second loop does not raise are as many as before. -/
theorem beginColorAttachment_count (renderPass : RenderPass) (fb : Framebuffer) (i : Nat)
    (l : BeginLocals) (s : CommandBuffer) (f : Nat)
    (hf : ∀ line ∈ [279, 284, 288, 291, 56, 311, 312], line ≠ f) :
    (beginColorAttachment renderPass fb i l s).2.faults.count f = s.faults.count f := by
  have h279 : (279 : Nat) ≠ f := hf 279 (by simp)
  have h284 : (284 : Nat) ≠ f := hf 284 (by simp)
  have h288 : (288 : Nat) ≠ f := hf 288 (by simp)
  have h291 : (291 : Nat) ≠ f := hf 291 (by simp)
  have h56 : (56 : Nat) ≠ f := hf 56 (by simp)
  have h311 : (311 : Nat) ≠ f := hf 311 (by simp)
  have h312 : (312 : Nat) ≠ f := hf 312 (by simp)
  unfold beginColorAttachment
  simp only []
  repeat' split
  all_goals
    simp only [crash_faults, raise_count_loadOp _ _ _ h56, assert_count_of_ne _ _ h279,
      assert_count_of_ne _ _ h284, assert_count_of_ne _ _ h288, assert_count_of_ne _ _ h291,
      assert_count_of_ne _ _ h311, assert_count_of_ne _ _ h312]

theorem beginColorAttachments_count (renderPass : RenderPass) (fb : Framebuffer)
    (is : List Nat) (l : BeginLocals) (s : CommandBuffer) (f : Nat)
    (hf : ∀ line ∈ [279, 284, 288, 291, 56, 311, 312], line ≠ f) :
    (beginColorAttachments renderPass fb is l s).2.faults.count f = s.faults.count f := by
  induction is generalizing l s with
  | nil => rfl
  | cons i rest ih =>
    unfold beginColorAttachments
    simp only []
    split
    · exact beginColorAttachment_count renderPass fb i l s f hf
    · rw [ih, beginColorAttachment_count renderPass fb i l s f hf]

theorem beginDepthAttachment_count (renderPass : RenderPass) (fb : Framebuffer)
    (l : BeginLocals) (s : CommandBuffer) (f : Nat)
    (hf : ∀ line ∈ [324, 56, 339, 342], line ≠ f) :
    (beginDepthAttachment renderPass fb l s).2.faults.count f = s.faults.count f := by
  have h324 : (324 : Nat) ≠ f := hf 324 (by simp)
  have h56 : (56 : Nat) ≠ f := hf 56 (by simp)
  have h339 : (339 : Nat) ≠ f := hf 339 (by simp)
  have h342 : (342 : Nat) ≠ f := hf 342 (by simp)
  unfold beginDepthAttachment
  simp only []
  repeat' split
  all_goals
    simp only [crash_faults, raise_count_loadOp _ _ _ h56, assert_count_of_ne _ _ h324,
      assert_count_of_ne _ _ h339, assert_count_of_ne _ _ h342]

theorem beginColorAttachments_count_of_eq (renderPass : RenderPass) (fb : Framebuffer)
    (is : List Nat) (l : BeginLocals) (s t : CommandBuffer) (f : Nat)
    (hf : ∀ line ∈ [279, 284, 288, 291, 56, 311, 312], line ≠ f) (h : s.faults = t.faults) :
    (beginColorAttachments renderPass fb is l s).2.faults.count f = t.faults.count f :=
  h ▸ beginColorAttachments_count renderPass fb is l s f hf

/-- The body of `cmdBeginRendering` raises only the faults of its own assertions. -/
theorem beginAttachments_count (renderPass : RenderPass) (fb : Framebuffer) (n : Nat)
    (s : CommandBuffer) (f : Nat)
    (hf : ∀ line ∈ [26, 31, 32, 35, 257, 279, 284, 288, 291, 56, 311, 312, 324, 339, 342],
      line ≠ f) :
    (beginAttachments renderPass fb n s).faults.count f = s.faults.count f := by
  have hA : ∀ line ∈ [26, 31, 32, 35], line ≠ f := fun line h => hf line (by
    simp only [List.mem_cons, List.mem_singleton, List.not_mem_nil, or_false] at h ⊢; omega)
  have hB : (257 : Nat) ≠ f := hf 257 (by simp)
  have hC : ∀ line ∈ [279, 284, 288, 291, 56, 311, 312], line ≠ f := fun line h => hf line (by
    simp only [List.mem_cons, List.mem_singleton, List.not_mem_nil, or_false] at h ⊢; omega)
  have hD : ∀ line ∈ [324, 56, 339, 342], line ≠ f := fun line h => hf line (by
    simp only [List.mem_cons, List.mem_singleton, List.not_mem_nil, or_false] at h ⊢; omega)
  have h0 : (beginTransitionDepth fb
      ((List.range n).foldl (fun s i => beginTransitionColor fb i s) s)).faults.count f =
      s.faults.count f := by
    rw [beginTransitionDepth_count fb _ f hB, foldl_beginTransitionColor_count fb _ s f hA]
  unfold beginAttachments
  simp only []
  repeat' split
  · exact h0
  · rw [← h0]
    exact beginColorAttachments_count_of_eq renderPass fb _ _ _ _ f hC rfl
  · rw [beginDepthAttachment_count renderPass fb _ _ f hD, ← h0]
    exact beginColorAttachments_count_of_eq renderPass fb _ _ _ _ f hC rfl
  · rw [beginFinish_faults, beginDepthAttachment_count renderPass fb _ _ f hD, ← h0]
    exact beginColorAttachments_count_of_eq renderPass fb _ _ _ _ f hC rfl

end CommandBuffer

/-- Claim C11: `cmdBeginRendering` raises the fault of its attachment-count
check (line 236) exactly when `RenderPass::getNumColorAttachments()` differs
from `Framebuffer::getNumColorAttachments()`. Each count is the length of the
leading run of used entries (pass: `loadOp != LoadOp_Invalid`; framebuffer:
texture set), is at most 4, and counts no entry at or after the first unused
one. -/
theorem CommandBuffer.cmdBeginRendering_attachment_counts (s : CommandBuffer)
    (renderPass : RenderPass) (fb : Framebuffer) :
    (s.cmdBeginRendering renderPass fb).faults.count 236 = s.faults.count 236 +
      (if renderPass.getNumColorAttachments = fb.getNumColorAttachments then 0 else 1) ∧
    renderPass.getNumColorAttachments =
      leadingRun (fun n => decide ((renderPass.color n).loadOp ≠ .LoadOp_Invalid)) 4 ∧
    fb.getNumColorAttachments = leadingRun (fun n => (fb.color n).texture.valid) 4 ∧
    renderPass.getNumColorAttachments ≤ 4 ∧ fb.getNumColorAttachments ≤ 4 ∧
    (∀ k, k < 4 → (renderPass.color k).loadOp = .LoadOp_Invalid →
      renderPass.getNumColorAttachments ≤ k) ∧
    (∀ k, k < 4 → (fb.color k).texture.valid = false → fb.getNumColorAttachments ≤ k) := by
  have hp := countLeading_four (fun n => decide ((renderPass.color n).loadOp ≠ .LoadOp_Invalid))
  have hfb := countLeading_four (fun n => (fb.color n).texture.toBool)
  refine ⟨?_, hp.1, hfb.1, hp.2.1, hfb.2.1, ?_, hfb.2.2⟩
  · unfold CommandBuffer.cmdBeginRendering
    simp only []
    rw [CommandBuffer.beginAttachments_count renderPass fb _ _ 236 (by decide)]
    show (CommandBuffer.assert _ 236 _).faults.count 236 = _
    rw [CommandBuffer.assert_count_self]
    show (s.assert 229 (!s.isRendering_)).faults.count 236 + _ = _
    rw [CommandBuffer.assert_count_of_ne _ _ (by decide)]
    by_cases h : renderPass.getNumColorAttachments = fb.getNumColorAttachments
    · simp [h]
    · simp [h]
  · intro k hk hl
    exact hp.2.2 k hk (by simp [hl])

namespace CommandBuffer

set_option linter.unusedTactic false
set_option linter.unusedVariables false

theorem transitionColorAttachment_ub (s : CommandBuffer) (t : Option VulkanTexture) :
    (transitionColorAttachment s t).ub = s.ub := by
  unfold transitionColorAttachment
  simp only []
  repeat' split
  all_goals simp

theorem transitionColorAttachment_ctx (s : CommandBuffer) (t : Option VulkanTexture) :
    (transitionColorAttachment s t).ctx_ = s.ctx_ := by
  unfold transitionColorAttachment
  simp only []
  repeat' split
  all_goals simp

theorem beginTransitionColor_ub (fb : Framebuffer) (i : Nat) (s : CommandBuffer) :
    (beginTransitionColor fb i s).ub = s.ub := by
  unfold beginTransitionColor
  simp only []
  repeat' split
  all_goals simp [transitionColorAttachment_ub]

theorem beginTransitionColor_ctx (fb : Framebuffer) (i : Nat) (s : CommandBuffer) :
    (beginTransitionColor fb i s).ctx_ = s.ctx_ := by
  unfold beginTransitionColor
  simp only []
  repeat' split
  all_goals simp [transitionColorAttachment_ctx]

theorem foldl_beginTransitionColor_ub (fb : Framebuffer) (is : List Nat) (s : CommandBuffer) :
    (is.foldl (fun s i => beginTransitionColor fb i s) s).ub = s.ub := by
  induction is generalizing s with
  | nil => rfl
  | cons i rest ih => rw [List.foldl_cons, ih, beginTransitionColor_ub]

theorem foldl_beginTransitionColor_ctx (fb : Framebuffer) (is : List Nat) (s : CommandBuffer) :
    (is.foldl (fun s i => beginTransitionColor fb i s) s).ctx_ = s.ctx_ := by
  induction is generalizing s with
  | nil => rfl
  | cons i rest ih => rw [List.foldl_cons, ih, beginTransitionColor_ctx]

theorem beginTransitionDepth_ctx (fb : Framebuffer) (s : CommandBuffer) :
    (beginTransitionDepth fb s).ctx_ = s.ctx_ := by
  unfold beginTransitionDepth
  simp only []
  repeat' split
  all_goals simp

/-- The depth transition dereferences no null pointer when the depth-stencil
attachment resolves. -/
theorem beginTransitionDepth_ub (fb : Framebuffer) (s : CommandBuffer)
    (h : fb.depthStencil.texture.toBool = true →
      (s.ctx_.texturesPool_ fb.depthStencil.texture).isSome = true) :
    (beginTransitionDepth fb s).ub = s.ub := by
  unfold beginTransitionDepth
  simp only []
  split
  · rename_i hd
    obtain ⟨t, ht⟩ := Option.isSome_iff_exists.mp (h hd)
    simp [ht]
  · rfl

/-- One iteration of the second loop on an attachment that resolves: the
locals afterwards, and the faults of the width and height checks. -/
theorem beginColorAttachment_resolved (renderPass : RenderPass) (fb : Framebuffer) (i : Nat)
    (l : BeginLocals) (s : CommandBuffer) (ct : VulkanTexture)
    (ht : s.ctx_.texturesPool_ (fb.color i).texture = some ct)
    (hr : (renderPass.color i).storeOp = .StoreOp_MsaaResolve →
      (s.ctx_.texturesPool_ (fb.color i).resolveTexture).isSome = true) :
    (beginColorAttachment renderPass fb i l s).2.ub = s.ub ∧
    (beginColorAttachment renderPass fb i l s).2.ctx_ = s.ctx_ ∧
    (beginColorAttachment renderPass fb i l s).2.commands = s.commands ∧
    (beginColorAttachment renderPass fb i l s).1.fbWidth = ct.dimensions.width ∧
    (beginColorAttachment renderPass fb i l s).1.fbHeight = ct.dimensions.height ∧
    (beginColorAttachment renderPass fb i l s).1.mipLevel = (renderPass.color i).level ∧
    (beginColorAttachment renderPass fb i l s).2.faults.count 288 = s.faults.count 288 +
      (if l.fbWidth ≠ 0 ∧ ct.dimensions.width ≠ l.fbWidth then 1 else 0) ∧
    (beginColorAttachment renderPass fb i l s).2.faults.count 291 = s.faults.count 291 +
      (if l.fbHeight ≠ 0 ∧ ct.dimensions.height ≠ l.fbHeight then 1 else 0) := by
  have e288 : ∀ t : CommandBuffer,
      (if l.fbWidth ≠ 0 then t.assert 288 (ct.dimensions.width == l.fbWidth) else t).faults.count
        288 = t.faults.count 288 +
        (if l.fbWidth ≠ 0 ∧ ct.dimensions.width ≠ l.fbWidth then 1 else 0) := by
    intro t
    by_cases h0 : l.fbWidth = 0
    · simp [h0]
    · by_cases h1 : ct.dimensions.width = l.fbWidth
      · simp [h0, h1, assert_count_self]
      · simp [h0, h1, assert_count_self]
  have e291 : ∀ t : CommandBuffer,
      (if l.fbHeight ≠ 0 then t.assert 291 (ct.dimensions.height == l.fbHeight)
        else t).faults.count 291 = t.faults.count 291 +
        (if l.fbHeight ≠ 0 ∧ ct.dimensions.height ≠ l.fbHeight then 1 else 0) := by
    intro t
    by_cases h0 : l.fbHeight = 0
    · simp [h0]
    · by_cases h1 : ct.dimensions.height = l.fbHeight
      · simp [h0, h1, assert_count_self]
      · simp [h0, h1, assert_count_self]
  have n288 : ∀ t : CommandBuffer,
      (if l.fbHeight ≠ 0 then t.assert 291 (ct.dimensions.height == l.fbHeight)
        else t).faults.count 288 = t.faults.count 288 := by
    intro t
    split
    · exact assert_count_of_ne _ _ (by decide)
    · rfl
  have n291 : ∀ t : CommandBuffer,
      (if l.fbWidth ≠ 0 then t.assert 288 (ct.dimensions.width == l.fbWidth)
        else t).faults.count 291 = t.faults.count 291 := by
    intro t
    split
    · exact assert_count_of_ne _ _ (by decide)
    · rfl
  have m288 : ∀ t : CommandBuffer,
      (if l.mipLevel ≠ 0 ∧ (renderPass.color i).level ≠ 0 then
        t.assert 284 ((renderPass.color i).level == l.mipLevel) else t).faults.count 288 =
        t.faults.count 288 := by
    intro t
    split
    · exact assert_count_of_ne _ _ (by decide)
    · rfl
  have m291 : ∀ t : CommandBuffer,
      (if l.mipLevel ≠ 0 ∧ (renderPass.color i).level ≠ 0 then
        t.assert 284 ((renderPass.color i).level == l.mipLevel) else t).faults.count 291 =
        t.faults.count 291 := by
    intro t
    split
    · exact assert_count_of_ne _ _ (by decide)
    · rfl
  have hctx : ∀ (c : Prop) [Decidable c] (a b : CommandBuffer),
      (if c then a else b).ctx_ = if c then a.ctx_ else b.ctx_ := fun c _ a b =>
    apply_ite CommandBuffer.ctx_ c a b
  have hubi : ∀ (c : Prop) [Decidable c] (a b : CommandBuffer),
      (if c then a else b).ub = if c then a.ub else b.ub := fun c _ a b =>
    apply_ite CommandBuffer.ub c a b
  have hcmd : ∀ (c : Prop) [Decidable c] (a b : CommandBuffer),
      (if c then a else b).commands = if c then a.commands else b.commands := fun c _ a b =>
    apply_ite CommandBuffer.commands c a b
  unfold beginColorAttachment
  simp only [assert_ctx_, ht]
  by_cases hm : (renderPass.color i).storeOp = .StoreOp_MsaaResolve
  · obtain ⟨rt, hrt⟩ := Option.isSome_iff_exists.mp (hr hm)
    simp only [hm, if_true, assert_ctx_, raise_ctx_, hctx, ite_self, hrt, assert_ub, raise_ub,
      hubi, assert_commands, raise_commands, hcmd, true_and]
    refine ⟨?_, ?_⟩
    · rw [assert_count_of_ne _ _ (by decide), assert_count_of_ne _ _ (by decide),
        raise_count_loadOp _ _ _ (by decide), n288, e288, m288,
        assert_count_of_ne _ _ (by decide)]
    · rw [assert_count_of_ne _ _ (by decide), assert_count_of_ne _ _ (by decide),
        raise_count_loadOp _ _ _ (by decide), e291, n291, m291,
        assert_count_of_ne _ _ (by decide)]
  · simp only [hm, if_false, assert_ctx_, raise_ctx_, hctx, ite_self, assert_ub, raise_ub,
      hubi, assert_commands, raise_commands, hcmd, true_and]
    refine ⟨?_, ?_⟩
    · rw [raise_count_loadOp _ _ _ (by decide), n288, e288, m288,
        assert_count_of_ne _ _ (by decide)]
    · rw [raise_count_loadOp _ _ _ (by decide), e291, n291, m291,
        assert_count_of_ne _ _ (by decide)]

end CommandBuffer

theorem mismatches_append (p : Nat) (xs ys : List Nat) :
    mismatches p (xs ++ ys) = mismatches p xs + mismatches (xs.foldl (fun _ x => x) p) ys := by
  induction xs generalizing p with
  | nil => simp [mismatches]
  | cons x rest ih => simp [mismatches, ih, Nat.add_assoc]

theorem mismatches_of_const (p : Nat) (xs : List Nat) (h : ∀ x ∈ xs, x = p) :
    mismatches p xs = 0 := by
  induction xs with
  | nil => rfl
  | cons x rest ih =>
    have hx : x = p := h x (List.mem_cons_self _ _)
    subst hx
    simp only [mismatches, ne_eq, not_true_eq_false, and_false, if_false, Nat.zero_add]
    exact ih (fun y hy => h y (List.mem_cons_of_mem _ hy))

theorem mismatches_zero_of_equal (xs : List Nat) (h : ∀ a ∈ xs, ∀ b ∈ xs, a = b) :
    mismatches 0 xs = 0 := by
  cases xs with
  | nil => rfl
  | cons x rest =>
    simp only [mismatches, ne_eq, not_true_eq_false, false_and, if_false, Nat.zero_add]
    exact mismatches_of_const x rest
      (fun y hy => h y (List.mem_cons_of_mem _ hy) x (List.mem_cons_self _ _))

theorem mismatches_pos (p : Nat) (xs : List Nat) (hp : p ≠ 0) (hx : ∀ x ∈ xs, x ≠ 0)
    (h : ∃ x ∈ xs, x ≠ p) : 0 < mismatches p xs := by
  induction xs generalizing p with
  | nil => simp at h
  | cons x rest ih =>
    by_cases hxp : x = p
    · subst hxp
      obtain ⟨y, hy, hne⟩ := h
      have hy2 : y ∈ rest := by
        rcases List.mem_cons.mp hy with h1 | h1
        · exact absurd h1 hne
        · exact h1
      have := ih x hp (fun z hz => hx z (List.mem_cons_of_mem _ hz)) ⟨y, hy2, hne⟩
      simp only [mismatches]
      omega
    · simp [mismatches, hp, hxp]

theorem mismatches_zero_pos (xs : List Nat) (hx : ∀ x ∈ xs, x ≠ 0)
    (h : ∃ a ∈ xs, ∃ b ∈ xs, a ≠ b) : 0 < mismatches 0 xs := by
  cases xs with
  | nil => simp at h
  | cons x rest =>
    simp only [mismatches, ne_eq, not_true_eq_false, false_and, if_false, Nat.zero_add]
    apply mismatches_pos x rest (hx x (List.mem_cons_self _ _))
      (fun z hz => hx z (List.mem_cons_of_mem _ hz))
    by_contra hc
    push_neg at hc
    obtain ⟨a, ha, b, hb, hab⟩ := h
    have ha2 : a = x := by
      rcases List.mem_cons.mp ha with h1 | h1
      · exact h1
      · exact hc a h1
    have hb2 : b = x := by
      rcases List.mem_cons.mp hb with h1 | h1
      · exact h1
      · exact hc b h1
    exact hab (ha2.trans hb2.symm)

namespace CommandBuffer

set_option linter.unusedTactic false
set_option linter.unusedVariables false

/-- The second loop on attachments that resolve: the locals afterwards, and
the faults of the width and height checks. -/
theorem beginColorAttachments_resolved (renderPass : RenderPass) (fb : Framebuffer)
    (is : List Nat) (l : BeginLocals) (s : CommandBuffer) (hub : s.ub = false)
    (hres : ∀ i ∈ is, (s.ctx_.texturesPool_ (fb.color i).texture).isSome = true ∧
      ((renderPass.color i).storeOp = .StoreOp_MsaaResolve →
        (s.ctx_.texturesPool_ (fb.color i).resolveTexture).isSome = true)) :
    (beginColorAttachments renderPass fb is l s).2.ub = false ∧
    (beginColorAttachments renderPass fb is l s).2.ctx_ = s.ctx_ ∧
    (beginColorAttachments renderPass fb is l s).2.commands = s.commands ∧
    (beginColorAttachments renderPass fb is l s).1.fbWidth =
      ((colorTextures s.ctx_ fb is).map (fun t => t.dimensions.width)).foldl (fun _ x => x)
        l.fbWidth ∧
    (beginColorAttachments renderPass fb is l s).1.fbHeight =
      ((colorTextures s.ctx_ fb is).map (fun t => t.dimensions.height)).foldl (fun _ x => x)
        l.fbHeight ∧
    (beginColorAttachments renderPass fb is l s).1.mipLevel =
      is.foldl (fun _ i => (renderPass.color i).level) l.mipLevel ∧
    (beginColorAttachments renderPass fb is l s).2.faults.count 288 = s.faults.count 288 +
      mismatches l.fbWidth ((colorTextures s.ctx_ fb is).map (fun t => t.dimensions.width)) ∧
    (beginColorAttachments renderPass fb is l s).2.faults.count 291 = s.faults.count 291 +
      mismatches l.fbHeight ((colorTextures s.ctx_ fb is).map (fun t => t.dimensions.height)) := by
  induction is generalizing l s with
  | nil => simp [beginColorAttachments, colorTextures, mismatches, hub]
  | cons i rest ih =>
    obtain ⟨ct, hct⟩ := Option.isSome_iff_exists.mp (hres i (List.mem_cons_self _ _)).1
    obtain ⟨h1, h2, h3, h4, h5, h6, h7, h8⟩ :=
      beginColorAttachment_resolved renderPass fb i l s ct hct
        (hres i (List.mem_cons_self _ _)).2
    have hub1 : (beginColorAttachment renderPass fb i l s).2.ub = false := h1.trans hub
    have hres1 : ∀ j ∈ rest,
        ((beginColorAttachment renderPass fb i l s).2.ctx_.texturesPool_
          (fb.color j).texture).isSome = true ∧
        ((renderPass.color j).storeOp = .StoreOp_MsaaResolve →
          ((beginColorAttachment renderPass fb i l s).2.ctx_.texturesPool_
            (fb.color j).resolveTexture).isSome = true) := by
      intro j hj
      rw [h2]
      exact hres j (List.mem_cons_of_mem _ hj)
    obtain ⟨k1, k2, k3, k4, k5, k6, k7, k8⟩ :=
      ih (beginColorAttachment renderPass fb i l s).1 (beginColorAttachment renderPass fb i l s).2
        hub1 hres1
    have hc : colorTextures s.ctx_ fb (i :: rest) = ct :: colorTextures s.ctx_ fb rest := by
      simp [colorTextures, List.filterMap_cons, hct]
    unfold beginColorAttachments
    simp only [hub1, Bool.false_eq_true, if_false]
    rw [k1, k2, k3, k4, k5, k6, k7, k8, h2, h3, h4, h5, h6, h7, h8, hc]
    simp [mismatches, Nat.add_assoc]

/-- The depth attachment part on an attachment that resolves. -/
theorem beginDepthAttachment_resolved (renderPass : RenderPass) (fb : Framebuffer)
    (l : BeginLocals) (s : CommandBuffer) (dt : VulkanTexture)
    (hd : fb.depthStencil.texture.toBool = true)
    (ht : s.ctx_.texturesPool_ fb.depthStencil.texture = some dt) :
    (beginDepthAttachment renderPass fb l s).2.ub = s.ub ∧
    (beginDepthAttachment renderPass fb l s).2.ctx_ = s.ctx_ ∧
    (beginDepthAttachment renderPass fb l s).2.commands = s.commands ∧
    (beginDepthAttachment renderPass fb l s).1.fbWidth = dt.dimensions.width ∧
    (beginDepthAttachment renderPass fb l s).1.fbHeight = dt.dimensions.height ∧
    (beginDepthAttachment renderPass fb l s).1.mipLevel = renderPass.depth.level ∧
    (beginDepthAttachment renderPass fb l s).2.faults.count 339 = s.faults.count 339 +
      (if l.fbWidth ≠ 0 ∧ dt.dimensions.width ≠ l.fbWidth then 1 else 0) ∧
    (beginDepthAttachment renderPass fb l s).2.faults.count 342 = s.faults.count 342 +
      (if l.fbHeight ≠ 0 ∧ dt.dimensions.height ≠ l.fbHeight then 1 else 0) := by
  have e339 : ∀ t : CommandBuffer,
      (if l.fbWidth ≠ 0 then t.assert 339 (dt.dimensions.width == l.fbWidth) else t).faults.count
        339 = t.faults.count 339 +
        (if l.fbWidth ≠ 0 ∧ dt.dimensions.width ≠ l.fbWidth then 1 else 0) := by
    intro t
    by_cases h0 : l.fbWidth = 0
    · simp [h0]
    · by_cases h1 : dt.dimensions.width = l.fbWidth
      · simp [h0, h1, assert_count_self]
      · simp [h0, h1, assert_count_self]
  have e342 : ∀ t : CommandBuffer,
      (if l.fbHeight ≠ 0 then t.assert 342 (dt.dimensions.height == l.fbHeight)
        else t).faults.count 342 = t.faults.count 342 +
        (if l.fbHeight ≠ 0 ∧ dt.dimensions.height ≠ l.fbHeight then 1 else 0) := by
    intro t
    by_cases h0 : l.fbHeight = 0
    · simp [h0]
    · by_cases h1 : dt.dimensions.height = l.fbHeight
      · simp [h0, h1, assert_count_self]
      · simp [h0, h1, assert_count_self]
  have n339 : ∀ t : CommandBuffer,
      (if l.fbHeight ≠ 0 then t.assert 342 (dt.dimensions.height == l.fbHeight)
        else t).faults.count 339 = t.faults.count 339 := by
    intro t
    split
    · exact assert_count_of_ne _ _ (by decide)
    · rfl
  have n342 : ∀ t : CommandBuffer,
      (if l.fbWidth ≠ 0 then t.assert 339 (dt.dimensions.width == l.fbWidth)
        else t).faults.count 342 = t.faults.count 342 := by
    intro t
    split
    · exact assert_count_of_ne _ _ (by decide)
    · rfl
  have hctx : ∀ (c : Prop) [Decidable c] (a b : CommandBuffer),
      (if c then a else b).ctx_ = if c then a.ctx_ else b.ctx_ := fun c _ a b =>
    apply_ite CommandBuffer.ctx_ c a b
  have hubi : ∀ (c : Prop) [Decidable c] (a b : CommandBuffer),
      (if c then a else b).ub = if c then a.ub else b.ub := fun c _ a b =>
    apply_ite CommandBuffer.ub c a b
  have hcmd : ∀ (c : Prop) [Decidable c] (a b : CommandBuffer),
      (if c then a else b).commands = if c then a.commands else b.commands := fun c _ a b =>
    apply_ite CommandBuffer.commands c a b
  unfold beginDepthAttachment
  simp only [hd, if_true, ht, assert_ctx_, raise_ctx_, hctx, ite_self, assert_ub, raise_ub,
    hubi, assert_commands, raise_commands, hcmd, true_and]
  refine ⟨?_, ?_⟩
  · rw [n339, e339, raise_count_loadOp _ _ _ (by decide), assert_count_of_ne _ _ (by decide)]
  · rw [e342, n342, raise_count_loadOp _ _ _ (by decide), assert_count_of_ne _ _ (by decide)]

end CommandBuffer

theorem foldl_last_range (g : Nat → Nat) (p n : Nat) (hn : n ≠ 0) :
    (List.range n).foldl (fun _ i => g i) p = g (n - 1) := by
  obtain ⟨m, rfl⟩ := Nat.exists_eq_succ_of_ne_zero hn
  simp [List.range_succ, List.foldl_append]

theorem colorTextures_last (ctx : VulkanContext) (fb : Framebuffer) (f : VulkanTexture → Nat)
    (p n : Nat) (hn : n ≠ 0) (ct : VulkanTexture)
    (h : ctx.texturesPool_ (fb.color (n - 1)).texture = some ct) :
    ((colorTextures ctx fb (List.range n)).map f).foldl (fun _ x => x) p = f ct := by
  obtain ⟨m, rfl⟩ := Nat.exists_eq_succ_of_ne_zero hn
  simp only [Nat.succ_eq_add_one, Nat.add_sub_cancel] at h
  simp [colorTextures, List.range_succ, List.filterMap_append, h, List.foldl_append]

namespace CommandBuffer

set_option linter.unusedTactic false
set_option linter.unusedVariables false

/-- The body of `cmdBeginRendering` on attachments that resolve reaches its
end: the state and locals with which `beginFinish` is entered. -/
theorem beginAttachments_resolved (renderPass : RenderPass) (fb : Framebuffer)
    (s : CommandBuffer) (hub : s.ub = false)
    (hres : attachmentsResolve s.ctx_ renderPass fb) :
    ∃ (l : BeginLocals) (t : CommandBuffer),
      beginAttachments renderPass fb fb.getNumColorAttachments s =
        beginFinish renderPass fb fb.getNumColorAttachments l t ∧
      t.ub = false ∧
      (l.fbWidth, l.fbHeight, l.mipLevel) = renderExtentSource s.ctx_ renderPass fb ∧
      t.faults.count 288 + t.faults.count 339 = s.faults.count 288 + s.faults.count 339 +
        mismatches 0 ((attachmentTextures s.ctx_ fb).map (fun x => x.dimensions.width)) ∧
      t.faults.count 291 + t.faults.count 342 = s.faults.count 291 + s.faults.count 342 +
        mismatches 0 ((attachmentTextures s.ctx_ fb).map (fun x => x.dimensions.height)) := by
  obtain ⟨hcol, hdep⟩ := hres
  -- the transitions
  have hf0 : ∀ f, (∀ line ∈ [26, 31, 32, 35, 257], line ≠ f) →
      (beginTransitionDepth fb ((List.range fb.getNumColorAttachments).foldl
        (fun s i => beginTransitionColor fb i s) s)).faults.count f = s.faults.count f := by
    intro f hf
    rw [beginTransitionDepth_count fb _ f (hf 257 (by simp)),
      foldl_beginTransitionColor_count fb _ s f (fun line h => hf line (by
        simp only [List.mem_cons, List.mem_singleton, List.not_mem_nil, or_false] at h ⊢
        omega))]
  have hc0 : (beginTransitionDepth fb ((List.range fb.getNumColorAttachments).foldl
        (fun s i => beginTransitionColor fb i s) s)).ctx_ = s.ctx_ := by
    rw [beginTransitionDepth_ctx, foldl_beginTransitionColor_ctx]
  have hu0 : (beginTransitionDepth fb ((List.range fb.getNumColorAttachments).foldl
        (fun s i => beginTransitionColor fb i s) s)).ub = false := by
    rw [beginTransitionDepth_ub, foldl_beginTransitionColor_ub, hub]
    rw [foldl_beginTransitionColor_ctx]
    exact hdep
  generalize hs0 : beginTransitionDepth fb ((List.range fb.getNumColorAttachments).foldl
        (fun s i => beginTransitionColor fb i s) s) = s0 at hf0 hc0 hu0
  -- the colour loop
  have hcol1 : ∀ i ∈ List.range fb.getNumColorAttachments,
      (s0.ctx_.texturesPool_ (fb.color i).texture).isSome = true ∧
      ((renderPass.color i).storeOp = .StoreOp_MsaaResolve →
        (s0.ctx_.texturesPool_ (fb.color i).resolveTexture).isSome = true) := by
    intro i hi
    rw [hc0]
    exact hcol i (List.mem_range.mp hi)
  obtain ⟨k1, k2, k3, k4, k5, k6, k7, k8⟩ :=
    beginColorAttachments_resolved renderPass fb (List.range fb.getNumColorAttachments) {}
      { s0 with dynamicState_ := { s0.dynamicState_ with depthBiasEnable_ := false } } hu0 hcol1
  have k9 := beginColorAttachments_count_of_eq renderPass fb
    (List.range fb.getNumColorAttachments) {}
    { s0 with dynamicState_ := { s0.dynamicState_ with depthBiasEnable_ := false } } s0 339
    (by decide) rfl
  have k10 := beginColorAttachments_count_of_eq renderPass fb
    (List.range fb.getNumColorAttachments) {}
    { s0 with dynamicState_ := { s0.dynamicState_ with depthBiasEnable_ := false } } s0 342
    (by decide) rfl
  generalize hr : beginColorAttachments renderPass fb (List.range fb.getNumColorAttachments) {}
    { s0 with dynamicState_ := { s0.dynamicState_ with depthBiasEnable_ := false } } = r
    at k1 k2 k3 k4 k5 k6 k7 k8 k9 k10
  have k2 : r.2.ctx_ = s.ctx_ := k2.trans hc0
  have k7 : r.2.faults.count 288 = s.faults.count 288 + mismatches 0
      ((colorTextures s.ctx_ fb (List.range fb.getNumColorAttachments)).map
        (fun x => x.dimensions.width)) := by
    rw [k7]
    show s0.faults.count 288 + mismatches 0 ((colorTextures s0.ctx_ fb _).map _) = _
    rw [hf0 288 (by decide), hc0]
  have k8 : r.2.faults.count 291 = s.faults.count 291 + mismatches 0
      ((colorTextures s.ctx_ fb (List.range fb.getNumColorAttachments)).map
        (fun x => x.dimensions.height)) := by
    rw [k8]
    show s0.faults.count 291 + mismatches 0 ((colorTextures s0.ctx_ fb _).map _) = _
    rw [hf0 291 (by decide), hc0]
  have k4 : r.1.fbWidth = ((colorTextures s.ctx_ fb (List.range fb.getNumColorAttachments)).map
      (fun x => x.dimensions.width)).foldl (fun _ x => x) 0 := by
    rw [k4]
    show ((colorTextures s0.ctx_ fb _).map _).foldl _ 0 = _
    rw [hc0]
  have k5 : r.1.fbHeight = ((colorTextures s.ctx_ fb (List.range fb.getNumColorAttachments)).map
      (fun x => x.dimensions.height)).foldl (fun _ x => x) 0 := by
    rw [k5]
    show ((colorTextures s0.ctx_ fb _).map _).foldl _ 0 = _
    rw [hc0]
  have k6 : r.1.mipLevel = (List.range fb.getNumColorAttachments).foldl
      (fun _ i => (renderPass.color i).level) 0 := k6
  rw [hf0 339 (by decide)] at k9
  rw [hf0 342 (by decide)] at k10
  have key : beginAttachments renderPass fb fb.getNumColorAttachments s =
      if s0.ub = true then s0
      else if r.2.ub = true then r.2
      else if (beginDepthAttachment renderPass fb r.1 r.2).2.ub = true then
        (beginDepthAttachment renderPass fb r.1 r.2).2
      else beginFinish renderPass fb fb.getNumColorAttachments
        (beginDepthAttachment renderPass fb r.1 r.2).1
        (beginDepthAttachment renderPass fb r.1 r.2).2 := by
    subst hr
    subst hs0
    rfl
  rw [key]
  simp only [hu0, Bool.false_eq_true, if_false, k1]
  by_cases hd : fb.depthStencil.texture.toBool = true
  · obtain ⟨dt, hdt⟩ := Option.isSome_iff_exists.mp (hdep hd)
    obtain ⟨d1, d2, d3, d4, d5, d6, d7, d8⟩ :=
      beginDepthAttachment_resolved renderPass fb r.1 r.2 dt hd (k2 ▸ hdt)
    have d9 := beginDepthAttachment_count renderPass fb r.1 r.2 288 (by decide)
    have d10 := beginDepthAttachment_count renderPass fb r.1 r.2 291 (by decide)
    have d1 : (beginDepthAttachment renderPass fb r.1 r.2).2.ub = false := d1.trans k1
    refine ⟨(beginDepthAttachment renderPass fb r.1 r.2).1,
      (beginDepthAttachment renderPass fb r.1 r.2).2, ?_, d1, ?_, ?_, ?_⟩
    · simp only [d1, Bool.false_eq_true, if_false]
    · simp only [renderExtentSource, hd, if_true, hdt, d4, d5, d6]
    · rw [d9, d7, k7, k9, k4]
      simp only [attachmentTextures, hd, if_true, hdt, Option.toList, List.map_append,
        List.map_cons, List.map_nil, mismatches_append, mismatches]
      omega
    · rw [d10, d8, k8, k10, k5]
      simp only [attachmentTextures, hd, if_true, hdt, Option.toList, List.map_append,
        List.map_cons, List.map_nil, mismatches_append, mismatches]
      omega
  · have hd1 : fb.depthStencil.texture.toBool = false := by simpa using hd
    have hd2 : beginDepthAttachment renderPass fb r.1 r.2 = (r.1, r.2) := by
      unfold beginDepthAttachment
      simp only [hd1, Bool.false_eq_true, if_false]
    refine ⟨r.1, r.2, ?_, k1, ?_, ?_, ?_⟩
    · simp only [hd2, k1, Bool.false_eq_true, if_false]
    · simp only [renderExtentSource, hd1, Bool.false_eq_true, if_false]
      by_cases hn : fb.getNumColorAttachments = 0
      · rw [k4, k5, k6]
        simp [hn, colorTextures]
      · obtain ⟨ct, hct⟩ := Option.isSome_iff_exists.mp
          (hcol (fb.getNumColorAttachments - 1) (by omega)).1
        rw [k4, k5, k6, colorTextures_last _ _ _ _ _ hn ct hct,
          colorTextures_last _ _ _ _ _ hn ct hct, foldl_last_range _ _ _ hn]
        simp only [hn, if_false, hct]
    · rw [k7, k9]
      simp only [attachmentTextures, hd1, Bool.false_eq_true, if_false, List.append_nil]
      omega
    · rw [k8, k10]
      simp only [attachmentTextures, hd1, Bool.false_eq_true, if_false, List.append_nil]
      omega

end CommandBuffer

namespace CommandBuffer

/-- The state in which `cmdBeginRendering` enters its body. -/
theorem cmdBeginRendering_resolved (s : CommandBuffer) (renderPass : RenderPass)
    (fb : Framebuffer) (hub : s.ub = false) (hres : attachmentsResolve s.ctx_ renderPass fb) :
    ∃ (l : BeginLocals) (t : CommandBuffer),
      s.cmdBeginRendering renderPass fb =
        beginFinish renderPass fb fb.getNumColorAttachments l t ∧
      t.ub = false ∧
      (l.fbWidth, l.fbHeight, l.mipLevel) = renderExtentSource s.ctx_ renderPass fb ∧
      t.faults.count 288 + t.faults.count 339 = s.faults.count 288 + s.faults.count 339 +
        mismatches 0 ((attachmentTextures s.ctx_ fb).map (fun x => x.dimensions.width)) ∧
      t.faults.count 291 + t.faults.count 342 = s.faults.count 291 + s.faults.count 342 +
        mismatches 0 ((attachmentTextures s.ctx_ fb).map (fun x => x.dimensions.height)) := by
  have h := beginAttachments_resolved renderPass fb
    { (CommandBuffer.assert { s.assert 229 (!s.isRendering_) with isRendering_ := true } 236
        (renderPass.getNumColorAttachments == fb.getNumColorAttachments)) with
      framebuffer_ := fb }
    (by simpa using hub) (by simpa using hres)
  have c : ∀ f, 229 ≠ f → 236 ≠ f →
      ({ (CommandBuffer.assert { s.assert 229 (!s.isRendering_) with isRendering_ := true } 236
        (renderPass.getNumColorAttachments == fb.getNumColorAttachments)) with
      framebuffer_ := fb } : CommandBuffer).faults.count f = s.faults.count f := by
    intro f h1 h2
    show (CommandBuffer.assert _ 236 _).faults.count f = _
    rw [assert_count_of_ne _ _ h2]
    show (s.assert 229 _).faults.count f = _
    rw [assert_count_of_ne _ _ h1]
  rw [c 288 (by decide) (by decide), c 339 (by decide) (by decide),
    c 291 (by decide) (by decide), c 342 (by decide) (by decide)] at h
  simpa [cmdBeginRendering] using h

end CommandBuffer

/-- The witness of C11: a pass with two colour attachments and a framebuffer
with one raise the fault of line 236 once. -/
theorem CommandBuffer.cmdBeginRendering_attachment_counts_witness :
    (sampleRecorder.cmdBeginRendering (sampleRenderPassLevels 0 0)
      sampleFramebuffer).faults.count 236 = 1 ∧
    (sampleRenderPassLevels 0 0).getNumColorAttachments = 2 ∧
    sampleFramebuffer.getNumColorAttachments = 1 :=
  ⟨(CommandBuffer.cmdBeginRendering_attachment_counts sampleRecorder
      (sampleRenderPassLevels 0 0) sampleFramebuffer).1.trans (by decide),
   by decide, by decide⟩

end vulkan

/-! ## The generational pool -/

namespace Pool

variable {ObjectType Value : Type}

theorem firstFree_lt (p : Pool ObjectType Value) (i : Nat) (h : p.firstFree = some i) :
    i < p.objects_.length := by
  unfold firstFree at h
  split at h
  · simp only [Option.some.injEq] at h
    omega
  · simp at h

theorem add_genAbove (p : Pool ObjectType Value) (v : Value) (i g : Nat)
    (h : p.genAbove i g) : (p.add v).1.genAbove i g := by
  obtain ⟨e, he, hg⟩ := h
  have hi : i < p.objects_.length := by
    rcases Nat.lt_or_ge i p.objects_.length with h1 | h1
    · exact h1
    · rw [List.getElem?_eq_none h1] at he
      simp at he
  unfold add
  cases hf : p.firstFree with
  | none =>
    refine ⟨e, ?_, hg⟩
    simp only []
    rw [List.getElem?_append_left hi]
    exact he
  | some j =>
    simp only []
    by_cases hji : j = i
    · subst hji
      refine ⟨_, by rw [List.getElem?_set_self hi], ?_⟩
      simp only [List.getD_eq_getElem?_getD, he, Option.getD_some]
      exact hg
    · refine ⟨e, ?_, hg⟩
      rw [List.getElem?_set_ne hji]
      exact he

theorem remove_genAbove (p : Pool ObjectType Value) (k : Handle ObjectType) (i g : Nat)
    (h : p.genAbove i g) : (p.remove k).1.genAbove i g := by
  obtain ⟨e, he, hg⟩ := h
  have hi : i < p.objects_.length := by
    rcases Nat.lt_or_ge i p.objects_.length with h1 | h1
    · exact h1
    · rw [List.getElem?_eq_none h1] at he
      simp at he
  unfold remove
  cases hk : p.objects_[k.index_]? with
  | none => exact ⟨e, he, hg⟩
  | some d =>
    simp only []
    split
    · by_cases hki : k.index_ = i
      · refine ⟨_, by rw [hki, List.getElem?_set_self hi], ?_⟩
        rw [hki, he] at hk
        simp only [Option.some.injEq] at hk
        subst hk
        simp only []
        omega
      · refine ⟨e, ?_, hg⟩
        simp only []
        rw [List.getElem?_set_ne hki]
        exact he
    · exact ⟨e, he, hg⟩

theorem run_genAbove (calls : List (PoolCall ObjectType Value)) (p : Pool ObjectType Value)
    (i g : Nat) (h : p.genAbove i g) : (Pool.run calls p).genAbove i g := by
  induction calls generalizing p with
  | nil => exact h
  | cons c rest ih =>
    unfold Pool.run
    rw [List.foldl_cons]
    apply ih
    cases c with
    | add v => exact add_genAbove p v i g h
    | remove k => exact remove_genAbove p k i g h

theorem get_of_genAbove (p : Pool ObjectType Value) (k : Handle ObjectType)
    (h : p.genAbove k.index_ k.gen_) : p.get k = none := by
  obtain ⟨e, he, hg⟩ := h
  unfold get
  rw [he]
  simp only []
  rw [if_neg (by omega)]

/-- The handle returned by `add` resolves to the value added, at a slot whose
generation it carries. -/
theorem add_entry (p : Pool ObjectType Value) (v : Value) :
    (p.add v).1.objects_[(p.add v).2.index_]? =
      some { gen_ := (p.add v).2.gen_, obj_ := some v } := by
  unfold add
  cases hf : p.firstFree with
  | none => simp
  | some j =>
    simp only []
    rw [List.getElem?_set_self (firstFree_lt p j hf)]

theorem add_remove_genAbove (p : Pool ObjectType Value) (v : Value) :
    ((p.add v).1.remove (p.add v).2).1.genAbove (p.add v).2.index_ (p.add v).2.gen_ := by
  have h := add_entry p v
  have hi : (p.add v).2.index_ < (p.add v).1.objects_.length := by
    rcases Nat.lt_or_ge (p.add v).2.index_ (p.add v).1.objects_.length with h1 | h1
    · exact h1
    · rw [List.getElem?_eq_none h1] at h
      simp at h
  unfold remove
  rw [h]
  simp only [if_true]
  exact ⟨_, List.getElem?_set_self hi, Nat.lt_succ_self _⟩

theorem add_index_genAbove (q : Pool ObjectType Value) (w : Value) (i g : Nat)
    (h : q.genAbove i g) (hi : (q.add w).2.index_ = i) : g < (q.add w).2.gen_ := by
  obtain ⟨e, he, hg⟩ := h
  have hlt : i < q.objects_.length := by
    rcases Nat.lt_or_ge i q.objects_.length with h1 | h1
    · exact h1
    · rw [List.getElem?_eq_none h1] at he
      simp at he
  unfold add at hi ⊢
  cases hf : q.firstFree with
  | none =>
    rw [hf] at hi
    simp only [] at hi
    omega
  | some j =>
    rw [hf] at hi
    simp only [] at hi ⊢
    subst hi
    simp only [List.getD_eq_getElem?_getD, he, Option.getD_some]
    exact hg

end Pool

/-- Claim C18: stale rejection in the pool. For every pool and value, the
handle `h` returned by `add` resolves to the value; after `remove(h)` the
lookup `get(h)` returns null, and it still does after any later sequence of
`add` and `remove` calls; a later `add` that reuses the slot index of `h`
returns a handle of a greater, hence different, generation. -/
theorem Pool.stale_handle_rejected {ObjectType Value : Type} (p : Pool ObjectType Value)
    (v w : Value) (calls : List (PoolCall ObjectType Value)) :
    (p.add v).1.get (p.add v).2 = some v ∧
    ((p.add v).1.remove (p.add v).2).2 = some v ∧
    ((p.add v).1.remove (p.add v).2).1.get (p.add v).2 = none ∧
    (Pool.run calls ((p.add v).1.remove (p.add v).2).1).get (p.add v).2 = none ∧
    (((Pool.run calls ((p.add v).1.remove (p.add v).2).1).add w).2.index_ =
        (p.add v).2.index_ →
      (p.add v).2.gen_ <
        ((Pool.run calls ((p.add v).1.remove (p.add v).2).1).add w).2.gen_ ∧
      ((Pool.run calls ((p.add v).1.remove (p.add v).2).1).add w).2 ≠ (p.add v).2) := by
  have h0 := Pool.add_remove_genAbove p v
  have h1 := Pool.run_genAbove calls _ _ _ h0
  refine ⟨?_, ?_, Pool.get_of_genAbove _ _ h0, Pool.get_of_genAbove _ _ h1, ?_⟩
  · unfold Pool.get
    rw [Pool.add_entry]
    simp
  · unfold Pool.remove
    rw [Pool.add_entry]
    simp
  · intro hi
    have hg := Pool.add_index_genAbove _ w _ _ h1 hi
    refine ⟨hg, ?_⟩
    intro he
    rw [he] at hg
    exact Nat.lt_irrefl _ hg

/-- The witness of C18: in the sample pool the first free slot is slot 1, of
generation 3; the handle (1, 3) returned by `add` is stale after `remove`,
also after two later calls of `add`, the first of which reuses slot 1 with
generation 4. -/
theorem Pool.stale_handle_rejected_witness :
    (samplePool.add 20).2 = { index_ := 1, gen_ := 3 } ∧
    (((samplePool.add 20).1.remove (samplePool.add 20).2).1.add 30).2 =
      { index_ := 1, gen_ := 4 } ∧
    (Pool.run [.add 30, .add 40] ((samplePool.add 20).1.remove (samplePool.add 20).2).1).get
      (samplePool.add 20).2 = none ∧
    (Pool.run [.add 30, .add 40] ((samplePool.add 20).1.remove (samplePool.add 20).2).1).get
      { index_ := 1, gen_ := 4 } = some 30 :=
  ⟨by decide, by decide,
   (Pool.stale_handle_rejected samplePool 20 30 [.add 30, .add 40]).2.2.2.1, by decide⟩

end lvk

/-! ## Further properties of the recorder, the holder and the buffer -/

namespace lvk

namespace vulkan

/-- Claim C21: the storage-image heuristic of `useComputeTexture`. For a handle
that resolves to a texture: if its image is a storage image, exactly one
transition is recorded, to layout `GENERAL` with destination stage
`COMPUTE_SHADER`, whose source stage is `COMPUTE_SHADER` if and only if the
tracked layout was `GENERAL` already and `BOTTOM_OF_PIPE` otherwise, and
`GENERAL` becomes the tracked layout; if it is not a storage image, nothing is
recorded, no tracked layout changes and the assertion of line 210 fails. -/
theorem CommandBuffer.useComputeTexture_heuristic (s : CommandBuffer) (handle : TextureHandle)
    (tex : VulkanTexture) (hp : s.ctx_.texturesPool_ handle = some tex) :
    ((s.images tex.image_).isStorageImage = true →
      (∃ srcStage,
        (s.useComputeTexture handle).commands = s.commands ++
          [.transitionLayout tex.image_ (s.images tex.image_).imageLayout_
            .VK_IMAGE_LAYOUT_GENERAL srcStage VK_PIPELINE_STAGE_COMPUTE_SHADER_BIT
            { aspectMask := (s.images tex.image_).aspectFlags, baseMipLevel := 0,
              levelCount := VK_REMAINING_MIP_LEVELS, baseArrayLayer := 0,
              layerCount := VK_REMAINING_ARRAY_LAYERS }] ∧
        (srcStage = VK_PIPELINE_STAGE_COMPUTE_SHADER_BIT ↔
          (s.images tex.image_).imageLayout_ = .VK_IMAGE_LAYOUT_GENERAL) ∧
        ((s.images tex.image_).imageLayout_ ≠ .VK_IMAGE_LAYOUT_GENERAL →
          srcStage = VK_PIPELINE_STAGE_BOTTOM_OF_PIPE_BIT)) ∧
      ((s.useComputeTexture handle).images tex.image_).imageLayout_ =
        .VK_IMAGE_LAYOUT_GENERAL ∧
      (s.useComputeTexture handle).faults = s.faults ++ IGL_ASSERT 206 (!handle.empty)) ∧
    ((s.images tex.image_).isStorageImage = false →
      (s.useComputeTexture handle).commands = s.commands ∧
      (s.useComputeTexture handle).images = s.images ∧
      (s.useComputeTexture handle).faults =
        s.faults ++ IGL_ASSERT 206 (!handle.empty) ++ [210]) := by
  refine ⟨?_, ?_⟩
  · intro hs
    refine ⟨⟨if (s.images tex.image_).imageLayout_ = .VK_IMAGE_LAYOUT_GENERAL then
        VK_PIPELINE_STAGE_COMPUTE_SHADER_BIT else VK_PIPELINE_STAGE_BOTTOM_OF_PIPE_BIT,
      ?_, ?_, ?_⟩, ?_, ?_⟩
    · unfold CommandBuffer.useComputeTexture
      simp [hp, hs]
    · by_cases hl : (s.images tex.image_).imageLayout_ = .VK_IMAGE_LAYOUT_GENERAL
      · simp [hl]
      · simp [hl, VK_PIPELINE_STAGE_COMPUTE_SHADER_BIT, VK_PIPELINE_STAGE_BOTTOM_OF_PIPE_BIT]
    · intro hl
      simp [hl]
    · unfold CommandBuffer.useComputeTexture
      simp [hp, hs]
    · unfold CommandBuffer.useComputeTexture
      simp [hp, hs, CommandBuffer.assert_faults_eq, IGL_ASSERT]
  · intro hs
    unfold CommandBuffer.useComputeTexture
    simp [hp, hs, CommandBuffer.assert_faults_eq, IGL_ASSERT]

/-- The witness of C21 on the sample recorder: texture 2, a storage image
whose layout is not `GENERAL`, is moved to `GENERAL` from `BOTTOM_OF_PIPE`;
used again, it is moved from `COMPUTE_SHADER`; texture 1, not a storage
image, records nothing and raises the fault 210. -/
theorem CommandBuffer.useComputeTexture_heuristic_witness :
    (sampleRecorder.useComputeTexture (sampleHandle 2)).commands =
      [.transitionLayout 2 .VK_IMAGE_LAYOUT_UNDEFINED .VK_IMAGE_LAYOUT_GENERAL
        VK_PIPELINE_STAGE_BOTTOM_OF_PIPE_BIT VK_PIPELINE_STAGE_COMPUTE_SHADER_BIT
        { aspectMask := VK_IMAGE_ASPECT_COLOR_BIT, baseMipLevel := 0,
          levelCount := VK_REMAINING_MIP_LEVELS, baseArrayLayer := 0,
          layerCount := VK_REMAINING_ARRAY_LAYERS }] ∧
    ((sampleRecorder.useComputeTexture (sampleHandle 2)).useComputeTexture
      (sampleHandle 2)).commands =
      [.transitionLayout 2 .VK_IMAGE_LAYOUT_UNDEFINED .VK_IMAGE_LAYOUT_GENERAL
        VK_PIPELINE_STAGE_BOTTOM_OF_PIPE_BIT VK_PIPELINE_STAGE_COMPUTE_SHADER_BIT
        { aspectMask := VK_IMAGE_ASPECT_COLOR_BIT, baseMipLevel := 0,
          levelCount := VK_REMAINING_MIP_LEVELS, baseArrayLayer := 0,
          layerCount := VK_REMAINING_ARRAY_LAYERS },
       .transitionLayout 2 .VK_IMAGE_LAYOUT_GENERAL .VK_IMAGE_LAYOUT_GENERAL
        VK_PIPELINE_STAGE_COMPUTE_SHADER_BIT VK_PIPELINE_STAGE_COMPUTE_SHADER_BIT
        { aspectMask := VK_IMAGE_ASPECT_COLOR_BIT, baseMipLevel := 0,
          levelCount := VK_REMAINING_MIP_LEVELS, baseArrayLayer := 0,
          layerCount := VK_REMAINING_ARRAY_LAYERS }] ∧
    ((sampleRecorder.useComputeTexture (sampleHandle 1)).commands = sampleRecorder.commands ∧
      (sampleRecorder.useComputeTexture (sampleHandle 1)).images = sampleRecorder.images ∧
      (sampleRecorder.useComputeTexture (sampleHandle 1)).faults =
        sampleRecorder.faults ++ IGL_ASSERT 206 (!(sampleHandle 1 : TextureHandle).empty) ++
          [210]) :=
  ⟨by decide, by decide,
   (CommandBuffer.useComputeTexture_heuristic sampleRecorder (sampleHandle 1) (sampleTexture 1)
      rfl).2 (by decide)⟩

/-- Claim C30: a draw with a count of zero is a complete no-op. `cmdDraw` with
`vertexCount == 0` and `cmdDrawIndexed` with `indexCount == 0` return the
recorder as it was, whatever the other arguments: no command is recorded, the
dynamic state and the last-bound pipeline are unchanged, and since this holds
for every recorder, whatever its context, the pipeline pool has no influence. -/
theorem CommandBuffer.zero_count_draw_noop (s : CommandBuffer) (primitiveType : PrimitiveType)
    (vertexStart : Nat) (indexFormat : IndexFormat) (indexBuffer : BufferHandle)
    (indexBufferOffset : Nat) :
    s.cmdDraw primitiveType vertexStart 0 = s ∧
    s.cmdDrawIndexed primitiveType 0 indexFormat indexBuffer indexBufferOffset = s ∧
    (s.cmdDraw primitiveType vertexStart 0).commands = s.commands ∧
    (s.cmdDraw primitiveType vertexStart 0).dynamicState_ = s.dynamicState_ ∧
    (s.cmdDraw primitiveType vertexStart 0).lastPipelineBound_ = s.lastPipelineBound_ ∧
    (s.cmdDrawIndexed primitiveType 0 indexFormat indexBuffer indexBufferOffset).commands =
      s.commands ∧
    (s.cmdDrawIndexed primitiveType 0 indexFormat indexBuffer indexBufferOffset).dynamicState_ =
      s.dynamicState_ ∧
    (s.cmdDrawIndexed primitiveType 0 indexFormat indexBuffer
      indexBufferOffset).lastPipelineBound_ = s.lastPipelineBound_ ∧
    (∀ pool : RenderPipelineHandle → Option RenderPipelineState,
      CommandBuffer.cmdDraw { s with ctx_ := { s.ctx_ with renderPipelinesPool_ := pool } }
        primitiveType vertexStart 0 =
        { s with ctx_ := { s.ctx_ with renderPipelinesPool_ := pool } } ∧
      CommandBuffer.cmdDrawIndexed
        { s with ctx_ := { s.ctx_ with renderPipelinesPool_ := pool } }
        primitiveType 0 indexFormat indexBuffer indexBufferOffset =
        { s with ctx_ := { s.ctx_ with renderPipelinesPool_ := pool } }) := by
  have h1 : ∀ t : CommandBuffer, t.cmdDraw primitiveType vertexStart 0 = t := fun t => by
    unfold CommandBuffer.cmdDraw
    simp
  have h2 : ∀ t : CommandBuffer,
      t.cmdDrawIndexed primitiveType 0 indexFormat indexBuffer indexBufferOffset = t :=
    fun t => by
      unfold CommandBuffer.cmdDrawIndexed
      simp
  refine ⟨h1 s, h2 s, ?_, ?_, ?_, ?_, ?_, ?_, ?_⟩
  · rw [h1]
  · rw [h1]
  · rw [h1]
  · rw [h2]
  · rw [h2]
  · rw [h2]
  · intro pool
    exact ⟨h1 _, h2 _⟩

namespace CommandBuffer

/-- `bindGraphicsPipeline` with a current pipeline that resolves: the dynamic
state is not changed and the last-bound pipeline is the one looked up with it. -/
theorem bindGraphicsPipeline_lookup (s : CommandBuffer) (rps : RenderPipelineState)
    (hp : s.ctx_.renderPipelinesPool_ s.currentPipeline_ = some rps) :
    s.bindGraphicsPipeline.lastPipelineBound_ = rps.getVkPipeline s.dynamicState_ ∧
    s.bindGraphicsPipeline.dynamicState_ = s.dynamicState_ ∧
    s.bindGraphicsPipeline.ctx_ = s.ctx_ := by
  unfold bindGraphicsPipeline
  simp only [hp, Option.isSome_some, CommandBuffer.assert, if_true]
  by_cases h1 : (s.lastPipelineBound_ != rps.getVkPipeline s.dynamicState_) = true
  · simp only [h1, if_true]
    split <;> simp
  · have h2 : s.lastPipelineBound_ = rps.getVkPipeline s.dynamicState_ := by
      simpa [bne_iff_ne] using h1
    simp only [h1, if_false, Bool.false_eq_true]
    simpa using h2

theorem bindGraphicsPipeline_dynamicState (s : CommandBuffer) :
    s.bindGraphicsPipeline.dynamicState_ = s.dynamicState_ := by
  unfold bindGraphicsPipeline
  simp only []
  repeat' split
  all_goals simp

end CommandBuffer

/-- Claim C23: the primitive type always reaches the pipeline lookup. Every
draw variant (`cmdDraw` and `cmdDrawIndexed` with a non-zero count,
`cmdDrawIndirect`, `cmdDrawIndexedIndirect`) leaves the dynamic state equal to
the one before with its topology set to
`primitiveTypeToVkPrimitiveTopology(primitiveType)`, and, when the current
pipeline resolves, leaves as last-bound pipeline the native pipeline looked up
with exactly that dynamic state. The mapping is injective on the five
primitive types, so equal primitive types present equal topologies to the
lookup and different primitive types different ones. -/
theorem CommandBuffer.draw_topology_reaches_lookup (s : CommandBuffer)
    (primitiveType : PrimitiveType) (vertexStart vertexCount indexCount : Nat)
    (indexFormat : IndexFormat) (indexBuffer indirectBuffer : BufferHandle)
    (indexBufferOffset indirectBufferOffset drawCount stride : Nat)
    (hv : vertexCount ≠ 0) (hi : indexCount ≠ 0) :
    ((s.cmdDraw primitiveType vertexStart vertexCount).dynamicState_ =
        s.dynamicState_.setTopology (primitiveTypeToVkPrimitiveTopology primitiveType) ∧
      (s.cmdDrawIndexed primitiveType indexCount indexFormat indexBuffer
        indexBufferOffset).dynamicState_ =
        s.dynamicState_.setTopology (primitiveTypeToVkPrimitiveTopology primitiveType) ∧
      (s.cmdDrawIndirect primitiveType indirectBuffer indirectBufferOffset drawCount
        stride).dynamicState_ =
        s.dynamicState_.setTopology (primitiveTypeToVkPrimitiveTopology primitiveType) ∧
      (s.cmdDrawIndexedIndirect primitiveType indexFormat indexBuffer indirectBuffer
        indirectBufferOffset drawCount stride).dynamicState_ =
        s.dynamicState_.setTopology (primitiveTypeToVkPrimitiveTopology primitiveType)) ∧
    (∀ rps, s.ctx_.renderPipelinesPool_ s.currentPipeline_ = some rps →
      (s.cmdDraw primitiveType vertexStart vertexCount).lastPipelineBound_ =
        rps.getVkPipeline
          (s.dynamicState_.setTopology (primitiveTypeToVkPrimitiveTopology primitiveType)) ∧
      (s.cmdDrawIndexed primitiveType indexCount indexFormat indexBuffer
        indexBufferOffset).lastPipelineBound_ =
        rps.getVkPipeline
          (s.dynamicState_.setTopology (primitiveTypeToVkPrimitiveTopology primitiveType)) ∧
      (s.cmdDrawIndirect primitiveType indirectBuffer indirectBufferOffset drawCount
        stride).lastPipelineBound_ =
        rps.getVkPipeline
          (s.dynamicState_.setTopology (primitiveTypeToVkPrimitiveTopology primitiveType)) ∧
      (s.cmdDrawIndexedIndirect primitiveType indexFormat indexBuffer indirectBuffer
        indirectBufferOffset drawCount stride).lastPipelineBound_ =
        rps.getVkPipeline
          (s.dynamicState_.setTopology (primitiveTypeToVkPrimitiveTopology primitiveType))) ∧
    (s.dynamicState_.setTopology (primitiveTypeToVkPrimitiveTopology primitiveType)).topology_ =
      primitiveTypeToVkPrimitiveTopology primitiveType ∧
    Function.Injective primitiveTypeToVkPrimitiveTopology ∧
    (∀ a b : PrimitiveType,
      (s.dynamicState_.setTopology (primitiveTypeToVkPrimitiveTopology a)).topology_ =
        (s.dynamicState_.setTopology (primitiveTypeToVkPrimitiveTopology b)).topology_ ↔
      a = b) := by
  have hinj : Function.Injective primitiveTypeToVkPrimitiveTopology := by
    intro a b h
    cases a <;> cases b <;> simp [primitiveTypeToVkPrimitiveTopology] at h <;> rfl
  have hb := CommandBuffer.bindGraphicsPipeline_dynamicState
    { s with dynamicState_ :=
        s.dynamicState_.setTopology (primitiveTypeToVkPrimitiveTopology primitiveType) }
  refine ⟨⟨?_, ?_, ?_, ?_⟩, ?_, rfl, hinj, ?_⟩
  · unfold CommandBuffer.cmdDraw
    simp only [hv, if_false, CommandBuffer.record_dynamicState_]
    exact hb
  · unfold CommandBuffer.cmdDrawIndexed
    simp only [hi, if_false]
    split <;> simp only [CommandBuffer.record_dynamicState_, CommandBuffer.crash_dynamicState_]
      <;> exact hb
  · unfold CommandBuffer.cmdDrawIndirect
    simp only []
    split <;> simp only [CommandBuffer.record_dynamicState_, CommandBuffer.crash_dynamicState_]
      <;> exact hb
  · unfold CommandBuffer.cmdDrawIndexedIndirect
    simp only []
    repeat' split
    all_goals
      simp only [CommandBuffer.record_dynamicState_, CommandBuffer.crash_dynamicState_]
      exact hb
  · intro rps hp
    have hl := (CommandBuffer.bindGraphicsPipeline_lookup
      { s with dynamicState_ :=
          s.dynamicState_.setTopology (primitiveTypeToVkPrimitiveTopology primitiveType) }
      rps hp).1
    refine ⟨?_, ?_, ?_, ?_⟩
    · unfold CommandBuffer.cmdDraw
      simp only [hv, if_false, CommandBuffer.record_lastPipelineBound_]
      exact hl
    · unfold CommandBuffer.cmdDrawIndexed
      simp only [hi, if_false]
      split <;> simp only [CommandBuffer.record_lastPipelineBound_,
        CommandBuffer.crash_lastPipelineBound_] <;> exact hl
    · unfold CommandBuffer.cmdDrawIndirect
      simp only []
      split <;> simp only [CommandBuffer.record_lastPipelineBound_,
        CommandBuffer.crash_lastPipelineBound_] <;> exact hl
    · unfold CommandBuffer.cmdDrawIndexedIndirect
      simp only []
      repeat' split
      all_goals
        simp only [CommandBuffer.record_lastPipelineBound_,
          CommandBuffer.crash_lastPipelineBound_]
        exact hl
  · intro a b
    constructor
    · intro h
      exact hinj h
    · intro h
      rw [h]

/-- The witness of C23 on the sample recorder with pipeline 5 bound: a draw of
triangles looks the pipeline up with topology `TRIANGLE_LIST` (native pipeline
1005), a draw of lines with `LINE_LIST` (native pipeline 2005). -/
theorem CommandBuffer.draw_topology_reaches_lookup_witness :
    (sampleRecorderBound.cmdDraw .Primitive_Triangle 0 3).dynamicState_.topology_ =
      .VK_PRIMITIVE_TOPOLOGY_TRIANGLE_LIST ∧
    (sampleRecorderBound.cmdDraw .Primitive_Triangle 0 3).lastPipelineBound_ = 1005 ∧
    (sampleRecorderBound.cmdDraw .Primitive_Line 0 3).lastPipelineBound_ = 2005 ∧
    (sampleRecorderBound.cmdDraw .Primitive_Line 0 3).dynamicState_ =
      sampleRecorderBound.dynamicState_.setTopology
        (primitiveTypeToVkPrimitiveTopology .Primitive_Line) :=
  ⟨by decide, by decide, by decide,
   (CommandBuffer.draw_topology_reaches_lookup sampleRecorderBound .Primitive_Line 0 3 3
      .IndexFormat_UI16 (sampleHandle 1) (sampleHandle 1) 0 0 1 0 (by decide)
      (by decide)).1.1⟩

end vulkan

end lvk

namespace lvk

/-- Claim C24: `release()` relinquishes ownership without destroying. For a
Holder of device `d` and handle `h`, `release()` returns `h`, makes no destroy
call (it has no access to the log of calls) and leaves the Holder empty with a
null device; any clearing calls afterwards and the destructor make destroy
calls that all carry the null device and the empty handle, so that, `h` being
non-empty, destruction of `h` is never requested. -/
theorem Holder.release_relinquishes {ObjectType : Type} (d : Nat) (h : Handle ObjectType)
    (calls : List HolderCall) (log : List (DestroyRequest ObjectType)) :
    (Holder.ctor d h).release.1 = h ∧
    (Holder.ctor d h).release.2 = { device_ := nullptr, handle_ := {} } ∧
    (Holder.ctor d h).release.2.empty = true ∧
    (Holder.ctor d h).release.2.device_ = nullptr ∧
    ((Holder.ctor d h).release.2.reset log).2 = log ++ [{ device := nullptr, handle := {} }] ∧
    (Holder.ctor d h).release.2.dtor log = log ++ [{ device := nullptr, handle := {} }] ∧
    (calls.foldl (fun st c => Holder.call c st) ((Holder.ctor d h).release.2, log)).1.dtor
        (calls.foldl (fun st c => Holder.call c st) ((Holder.ctor d h).release.2, log)).2 =
      log ++ List.replicate (calls.length + 1) { device := nullptr, handle := {} } ∧
    (h.empty = false →
      ((calls.foldl (fun st c => Holder.call c st) ((Holder.ctor d h).release.2, [])).1.dtor
        (calls.foldl (fun st c => Holder.call c st)
          ((Holder.ctor d h).release.2, [])).2).filter (fun r => decide (r.handle = h)) =
        []) := by
  have hrel : (Holder.ctor d h).release.2 = { device_ := nullptr, handle_ := {} } := rfl
  have hall : ∀ lg : List (DestroyRequest ObjectType),
      (calls.foldl (fun st c => Holder.call c st) ((Holder.ctor d h).release.2, lg)).1.dtor
        (calls.foldl (fun st c => Holder.call c st) ((Holder.ctor d h).release.2, lg)).2 =
      lg ++ List.replicate (calls.length + 1) { device := nullptr, handle := {} } := by
    intro lg
    rw [hrel, Holder.foldl_call_cleared]
    simp only [Holder.dtor, List.append_assoc]
    rw [← List.replicate_succ']
  refine ⟨rfl, rfl, rfl, rfl, rfl, rfl, hall log, ?_⟩
  intro he
  have hne : ({} : Handle ObjectType) ≠ h := by
    intro hh
    rw [← hh] at he
    simp [Handle.empty] at he
  rw [hall []]
  simp [List.filter_replicate, hne]

/-- The witness of C24: a Holder of device 7 and handle (3, 1), released, then
reset once and destructed: the handle is returned, and the two destroy calls
made afterwards carry the null device and the empty handle. -/
theorem Holder.release_relinquishes_witness :
    (Holder.ctor 7 ({ index_ := 3, gen_ := 1 } : Handle ShaderModule)).release.1 =
      { index_ := 3, gen_ := 1 } ∧
    ([HolderCall.reset].foldl (fun st c => Holder.call c st)
        ((Holder.ctor 7 ({ index_ := 3, gen_ := 1 } : Handle ShaderModule)).release.2, [])).1.dtor
      ([HolderCall.reset].foldl (fun st c => Holder.call c st)
        ((Holder.ctor 7 ({ index_ := 3, gen_ := 1 } : Handle ShaderModule)).release.2, [])).2 =
      [{ device := nullptr, handle := {} }, { device := nullptr, handle := {} }] ∧
    (([HolderCall.reset].foldl (fun st c => Holder.call c st)
        ((Holder.ctor 7 ({ index_ := 3, gen_ := 1 } : Handle ShaderModule)).release.2, [])).1.dtor
      ([HolderCall.reset].foldl (fun st c => Holder.call c st)
        ((Holder.ctor 7 ({ index_ := 3, gen_ := 1 } : Handle ShaderModule)).release.2,
          [])).2).filter (fun r => decide (r.handle = { index_ := 3, gen_ := 1 })) = [] :=
  ⟨rfl, by decide,
   (Holder.release_relinquishes 7 ({ index_ := 3, gen_ := 1 } : Handle ShaderModule)
      [HolderCall.reset] []).2.2.2.2.2.2.2 (by decide)⟩

end lvk

namespace lvk

namespace vulkan

/-- The destructor of a buffer: nothing for a null `ctx_`; otherwise an unmap
right away when the buffer is mapped, and one deferred task. -/
theorem VulkanBuffer.dtor_eq (useVma : Bool) (b : VulkanBuffer) (w : DeviceWorld) :
    (b.ctx_ = nullptr → b.dtor useVma w = w) ∧
    (b.ctx_ ≠ nullptr →
      (b.dtor useVma w).deferredTasks = w.deferredTasks ++ [teardownTask useVma w b] ∧
      (b.dtor useVma w).vmaAllocator = w.vmaAllocator ∧
      (b.mappedPtr_ = nullptr → (b.dtor useVma w).nativeCalls = w.nativeCalls)) := by
  refine ⟨?_, ?_⟩
  · intro h
    simp [VulkanBuffer.dtor, h]
  · intro h
    cases useVma <;> by_cases hm : b.mappedPtr_ = nullptr <;>
      simp [VulkanBuffer.dtor, h, hm, teardownTask]

/-- Claim C27: each native buffer is scheduled for teardown exactly once across
moves. After move-constructing B from A, B holds what A held, the destructor
of A does nothing at all (no deferred task, no unmap) and, A having owned a
native buffer (`ctx_` not null), the destructor of B enqueues exactly one
task, the teardown of that buffer. After move-assigning A into B the two
objects have exchanged their contents, and destructing both enqueues exactly
one teardown task for each object that had a non-null `ctx_`; for distinct
native buffers, exactly one of the tasks enqueued destroys each. -/
theorem VulkanBuffer.teardown_once_across_moves (useVma : Bool) (a b : VulkanBuffer)
    (w : DeviceWorld) (hctx : a.ctx_ ≠ nullptr) :
    ((VulkanBuffer.moveCtor a).1 = a ∧
      (VulkanBuffer.moveCtor a).2.dtor useVma w = w ∧
      ((VulkanBuffer.moveCtor a).1.dtor useVma w).deferredTasks =
        w.deferredTasks ++ [teardownTask useVma w a] ∧
      ((VulkanBuffer.moveCtor a).1.dtor useVma
        ((VulkanBuffer.moveCtor a).2.dtor useVma w)).deferredTasks =
        w.deferredTasks ++ [teardownTask useVma w a] ∧
      ((VulkanBuffer.moveCtor a).2.dtor useVma
        ((VulkanBuffer.moveCtor a).1.dtor useVma w)).deferredTasks =
        w.deferredTasks ++ [teardownTask useVma w a] ∧
      (teardownTask useVma w a).destroysBuffer a.vkBuffer_ = true) ∧
    ((VulkanBuffer.moveAssign b a).1 = a ∧ (VulkanBuffer.moveAssign b a).2 = b ∧
      ((VulkanBuffer.moveAssign b a).1.dtor useVma
        ((VulkanBuffer.moveAssign b a).2.dtor useVma w)).deferredTasks =
        w.deferredTasks ++ (if b.ctx_ = nullptr then [] else [teardownTask useVma w b]) ++
          [teardownTask useVma w a] ∧
      ((VulkanBuffer.moveAssign b a).2.dtor useVma
        ((VulkanBuffer.moveAssign b a).1.dtor useVma w)).deferredTasks =
        w.deferredTasks ++ [teardownTask useVma w a] ++
          (if b.ctx_ = nullptr then [] else [teardownTask useVma w b]) ∧
      (a.vkBuffer_ ≠ b.vkBuffer_ →
        (((if b.ctx_ = nullptr then [] else [teardownTask useVma w b]) ++
          [teardownTask useVma w a]).filter
            (fun t => t.destroysBuffer a.vkBuffer_)).length = 1 ∧
        (b.ctx_ ≠ nullptr →
          (((if b.ctx_ = nullptr then [] else [teardownTask useVma w b]) ++
            [teardownTask useVma w a]).filter
              (fun t => t.destroysBuffer b.vkBuffer_)).length = 1))) := by
  have hswap1 : (VulkanBuffer.moveAssign b a).1 = a := rfl
  have hswap2 : (VulkanBuffer.moveAssign b a).2 = b := rfl
  have hm1 : (VulkanBuffer.moveCtor a).1 = a := rfl
  have hm2 : ∀ v : DeviceWorld, (VulkanBuffer.moveCtor a).2.dtor useVma v = v := fun v =>
    (VulkanBuffer.dtor_eq useVma _ v).1 rfl
  have hda : ∀ v : DeviceWorld, (a.dtor useVma v).deferredTasks =
      v.deferredTasks ++ [teardownTask useVma v a] := fun v =>
    ((VulkanBuffer.dtor_eq useVma a v).2 hctx).1
  have hva : ∀ v : DeviceWorld, (a.dtor useVma v).vmaAllocator = v.vmaAllocator := fun v =>
    ((VulkanBuffer.dtor_eq useVma a v).2 hctx).2.1
  have htask : ∀ (v v2 : DeviceWorld) (x : VulkanBuffer), v.vmaAllocator = v2.vmaAllocator →
      teardownTask useVma v x = teardownTask useVma v2 x := by
    intro v v2 x h
    simp [teardownTask, h]
  have hdest : ∀ x : VulkanBuffer, (teardownTask useVma w x).destroysBuffer x.vkBuffer_ = true := by
    intro x
    cases useVma <;>
      simp [teardownTask, DeferredTask.destroysBuffer, NativeCall.destroysBuffer]
  have hnot : ∀ x y : VulkanBuffer, x.vkBuffer_ ≠ y.vkBuffer_ →
      (teardownTask useVma w x).destroysBuffer y.vkBuffer_ = false := by
    intro x y hxy
    cases useVma <;>
      simp [teardownTask, DeferredTask.destroysBuffer, NativeCall.destroysBuffer, hxy]
  refine ⟨⟨hm1, hm2 w, ?_, ?_, ?_, hdest a⟩, hswap1, hswap2, ?_, ?_, ?_⟩
  · rw [hm1, hda]
  · rw [hm2, hm1, hda]
  · rw [hm2, hm1, hda]
  · rw [hswap1, hswap2, hda]
    by_cases hb : b.ctx_ = nullptr
    · rw [(VulkanBuffer.dtor_eq useVma b w).1 hb]
      simp [hb]
    · obtain ⟨h1, h2, -⟩ := (VulkanBuffer.dtor_eq useVma b w).2 hb
      rw [h1, htask _ w a h2]
      simp [hb]
  · rw [hswap1, hswap2]
    by_cases hb : b.ctx_ = nullptr
    · rw [(VulkanBuffer.dtor_eq useVma b _).1 hb, hda]
      simp [hb]
    · obtain ⟨h1, -, -⟩ := (VulkanBuffer.dtor_eq useVma b (a.dtor useVma w)).2 hb
      rw [h1, hda, htask _ w b (hva w)]
      simp [hb]
  · intro hne
    refine ⟨?_, ?_⟩
    · by_cases hb : b.ctx_ = nullptr
      · simp [hb, hdest a]
      · simp [hb, hdest a, hnot b a (fun h => hne h.symm), List.filter_cons]
    · intro hb
      simp [hb, hdest b, hnot a b hne, List.filter_cons]

/-- The witness of C27: the sample mapped buffer (native buffer 21) moved into
a new object, and move-assigned into the second sample buffer (native buffer
31): after the move the source's destructor does nothing, and after the
assignment the two destructors enqueue the teardown of 31 and of 21. -/
theorem VulkanBuffer.teardown_once_across_moves_witness :
    (VulkanBuffer.moveCtor sampleMappedBuffer).2.dtor true sampleWorld = sampleWorld ∧
    ((VulkanBuffer.moveAssign sampleDeviceBuffer sampleMappedBuffer).1.dtor true
      ((VulkanBuffer.moveAssign sampleDeviceBuffer sampleMappedBuffer).2.dtor true
        sampleWorld)).deferredTasks =
      [{ body := [.vmaDestroyBuffer 9 31 33] }, { body := [.vmaDestroyBuffer 9 21 23] }] :=
  ⟨(VulkanBuffer.teardown_once_across_moves true sampleMappedBuffer sampleDeviceBuffer
      sampleWorld (by decide)).1.2.1, by decide⟩

/-- Claim C26: frame and zero-fill of `bufferSubData`. On a mapped buffer the
call changes only the bytes at the positions `[offset, offset + size)` of the
mapped memory: every byte outside keeps its value, the bytes inside become 0
when `data` is null and the bytes of the data block otherwise; with
`offset + size` within the buffer size no fault is raised. On a buffer that is
not mapped the call changes no byte at all. -/
theorem VulkanBuffer.bufferSubData_frame (b : VulkanBuffer) (mapped : Nat → Byte)
    (offset size : Nat) (data : Option (Nat → Byte)) :
    (b.mappedPtr_ ≠ nullptr →
      (∀ i, ¬ (offset ≤ i ∧ i < offset + size) →
        (b.bufferSubData mapped offset size data).1 i = mapped i) ∧
      (∀ i, offset ≤ i → i < offset + size →
        (b.bufferSubData mapped offset size none).1 i = 0) ∧
      (∀ src i, offset ≤ i → i < offset + size →
        (b.bufferSubData mapped offset size (some src)).1 i = src (i - offset)) ∧
      (offset + size ≤ b.bufferSize_ → (b.bufferSubData mapped offset size data).2 = [])) ∧
    (b.mappedPtr_ = nullptr →
      (b.bufferSubData mapped offset size data).1 = mapped ∧
      (b.bufferSubData mapped offset size data).2 = [176]) := by
  refine ⟨?_, ?_⟩
  · intro hm
    have hb : (b.mappedPtr_ != nullptr) = true := by simpa [bne_iff_ne] using hm
    refine ⟨?_, ?_, ?_, ?_⟩
    · intro i hi
      cases data <;> simp [VulkanBuffer.bufferSubData, hm, memcpy, memset, hi]
    · intro i h1 h2
      simp [VulkanBuffer.bufferSubData, hm, memset, h1, h2]
    · intro src i h1 h2
      simp [VulkanBuffer.bufferSubData, hm, memcpy, h1, h2]
    · intro hr
      have hle : (offset + size) % 2 ^ 64 ≤ b.bufferSize_ := le_trans (Nat.mod_le _ _) hr
      cases data <;>
        simp only [VulkanBuffer.bufferSubData, hm, if_false, IGL_ASSERT, hb, hle, decide_True,
          if_true, List.append_nil]
  · intro hm
    simp [VulkanBuffer.bufferSubData, hm, IGL_ASSERT]

/-- The witness of C26: sixteen bytes zero-filled at offset 8 of a buffer full
of the byte 7: byte 7 and byte 24 keep their value, bytes 8 and 23 become 0;
on a buffer that is not mapped nothing changes. -/
theorem VulkanBuffer.bufferSubData_frame_witness :
    (sampleMappedBuffer.bufferSubData (fun _ => 7) 8 16 none).1 7 = 7 ∧
    (sampleMappedBuffer.bufferSubData (fun _ => 7) 8 16 none).1 24 = 7 ∧
    (sampleMappedBuffer.bufferSubData (fun _ => 7) 8 16 none).1 8 = 0 ∧
    (sampleMappedBuffer.bufferSubData (fun _ => 7) 8 16 none).1 23 = 0 ∧
    (sampleMappedBuffer.bufferSubData (fun _ => 7) 8 16 none).2 = [] ∧
    (sampleDeviceBuffer.bufferSubData (fun _ => 7) 8 16 none).1 = (fun _ => 7) :=
  ⟨((VulkanBuffer.bufferSubData_frame sampleMappedBuffer (fun _ => 7) 8 16 none).1
      (by decide)).1 7 (by decide),
   ((VulkanBuffer.bufferSubData_frame sampleMappedBuffer (fun _ => 7) 8 16 none).1
      (by decide)).1 24 (by decide),
   ((VulkanBuffer.bufferSubData_frame sampleMappedBuffer (fun _ => 7) 8 16 none).1
      (by decide)).2.1 8 (by decide) (by decide),
   ((VulkanBuffer.bufferSubData_frame sampleMappedBuffer (fun _ => 7) 8 16 none).1
      (by decide)).2.1 23 (by decide) (by decide),
   ((VulkanBuffer.bufferSubData_frame sampleMappedBuffer (fun _ => 7) 8 16 none).1
      (by decide)).2.2.2 (by decide),
   ((VulkanBuffer.bufferSubData_frame sampleDeviceBuffer (fun _ => 7) 8 16 none).2
      (by decide)).1⟩

/-- Claim C25, the code at the failing input: on the sample buffer of 256
bytes, `offset = 2^64 - 2` and `size = 3` pass the check of `bufferSubData` and
of `getBufferSubData` (the `size_t` sum wraps to 1, no fault is raised),
although the range `[offset, offset + size)` does not lie inside the buffer:
`bufferSubData` writes at position `2^64 - 1` of the mapped memory and
`getBufferSubData` reads from there. Sizes whose sum does not wrap are checked
as the claim says. -/
theorem VulkanBuffer.bounds_check_wraps :
    (2 ^ 64 - 2 + 3) % 2 ^ 64 ≤ sampleMappedBuffer.bufferSize_ ∧
    ¬ (2 ^ 64 - 2 + 3 ≤ sampleMappedBuffer.bufferSize_) ∧
    (sampleMappedBuffer.bufferSubData (fun _ => 0) (2 ^ 64 - 2) 3 (some sampleData)).2 = [] ∧
    (sampleMappedBuffer.bufferSubData (fun _ => 0) (2 ^ 64 - 2) 3 (some sampleData)).1
      (2 ^ 64 - 1) = 1 ∧
    (sampleMappedBuffer.getBufferSubData (fun _ => 7) (2 ^ 64 - 2) 3 (fun _ => 0)).2 = [] ∧
    (sampleMappedBuffer.getBufferSubData (fun i => if 256 ≤ i then 7 else 0) (2 ^ 64 - 2) 3
      (fun _ => 0)).1 1 = 7 ∧
    (∀ (b : VulkanBuffer) (mapped : Nat → Byte) (offset size : Nat),
      b.mappedPtr_ ≠ nullptr → offset + size < 2 ^ 64 →
      (b.bufferSubData mapped offset size none).2 = [] → offset + size ≤ b.bufferSize_) := by
  refine ⟨by decide, by decide, by decide, by decide, by decide, by decide, ?_⟩
  intro b mapped offset size hm hlt h
  have hmod : (offset + size) % 2 ^ 64 = offset + size := Nat.mod_eq_of_lt hlt
  have hb : (b.mappedPtr_ != nullptr) = true := by simpa [bne_iff_ne] using hm
  by_contra hc
  have hc2 : ¬ ((offset + size) % 2 ^ 64 ≤ b.bufferSize_) := by
    rw [hmod]
    exact hc
  simp only [VulkanBuffer.bufferSubData, hm, if_false, IGL_ASSERT, hb, if_true, hc2,
    decide_False, Bool.false_eq_true, List.nil_append] at h
  exact absurd h (by simp)

/-- Claim C28, the code at the failing input: with the compute pipeline 3005
bound last, `cmdBindComputePipeline` of a handle whose pool entry holds
`VK_NULL_HANDLE` fails the assertion of line 164 and then records
`vkCmdBindPipeline` with the null pipeline: the test of line 168 is made on
the pointer into the pool, not on the pipeline it points to. The sibling
`bindGraphicsPipeline` tests the pipeline itself: with the native pipeline
1005 bound last, a draw whose lookup yields `VK_NULL_HANDLE` records no bind,
and no call of it ever records a null pipeline. -/
theorem CommandBuffer.cmdBindComputePipeline_binds_null :
    sampleRecorderNullPipeline.ctx_.computePipelinesPool_ (sampleHandle 9) = some nullptr ∧
    (sampleRecorderNullPipeline.cmdBindComputePipeline (sampleHandle 5)).lastPipelineBound_ =
      3005 ∧
    ((sampleRecorderNullPipeline.cmdBindComputePipeline (sampleHandle 5)).cmdBindComputePipeline
      (sampleHandle 9)).commands =
      [.vkCmdBindPipeline .VK_PIPELINE_BIND_POINT_COMPUTE 3005,
       .vkCmdBindPipeline .VK_PIPELINE_BIND_POINT_COMPUTE nullptr] ∧
    ((sampleRecorderNullPipeline.cmdBindComputePipeline (sampleHandle 5)).cmdBindComputePipeline
      (sampleHandle 9)).faults = [164] ∧
    ((sampleRecorderNullPipeline.cmdBindComputePipeline (sampleHandle 5)).cmdBindComputePipeline
      (sampleHandle 9)).ub = false ∧
    ((sampleRecorderNullPipeline.cmdBindRenderPipeline (sampleHandle 5)).cmdDraw
      .Primitive_Triangle 0 3).lastPipelineBound_ = 1005 ∧
    (((sampleRecorderNullPipeline.cmdBindRenderPipeline (sampleHandle 5)).cmdDraw
      .Primitive_Triangle 0 3).cmdDraw .Primitive_Line 0 2).commands =
      [.vkCmdBindPipeline .VK_PIPELINE_BIND_POINT_GRAPHICS 1005, .vkCmdDraw 3 1 0 0,
       .vkCmdDraw 2 1 0 0] ∧
    (∀ (s : CommandBuffer) (c : VkCmd), c ∈ s.bindGraphicsPipeline.commands →
      c ∈ s.commands ∨
      ∃ pipeline, c = .vkCmdBindPipeline .VK_PIPELINE_BIND_POINT_GRAPHICS pipeline ∧
        pipeline ≠ nullptr) := by
  refine ⟨by decide, by decide, by decide, by decide, by decide, by decide, by decide, ?_⟩
  intro s c hc
  unfold CommandBuffer.bindGraphicsPipeline at hc
  cases hp : s.ctx_.renderPipelinesPool_ s.currentPipeline_ with
  | none =>
    simp only [hp, CommandBuffer.assert_commands] at hc
    exact Or.inl hc
  | some rps =>
    simp only [hp, Option.isSome_some, CommandBuffer.assert, if_true] at hc
    by_cases h1 : (s.lastPipelineBound_ != rps.getVkPipeline s.dynamicState_) = true
    · by_cases h2 : (rps.getVkPipeline s.dynamicState_ != nullptr) = true
      · simp only [h1, h2, if_true, CommandBuffer.record_commands, List.mem_append,
          List.mem_singleton] at hc
        rcases hc with hc | hc
        · exact Or.inl hc
        · exact Or.inr ⟨_, hc, by simpa [bne_iff_ne] using h2⟩
      · simp only [h1, h2, if_true, if_false, Bool.false_eq_true] at hc
        exact Or.inl hc
    · simp only [h1, if_false, Bool.false_eq_true] at hc
      exact Or.inl hc

/-- Claim C29, the code at the failing input: `cmdBindDepthStencilState` with
a front face of read mask `0x0F` and write mask `0xF0` and a back face of read
mask `0x33` and write mask `0xCC` records, per face, the read mask as the
stencil reference, the constant `0xFF` as the stencil compare mask, and the
write mask as the stencil write mask. This is so for every recorder and every
descriptor; the stencil operations of the dynamic state are those of the
descriptor of each face. -/
theorem CommandBuffer.cmdBindDepthStencilState_compare_mask :
    (sampleRecorder.cmdBindDepthStencilState sampleDepthStencilState).commands =
      [.vkCmdSetStencilReference VK_STENCIL_FACE_FRONT_BIT 0x0F,
       .vkCmdSetStencilCompareMask VK_STENCIL_FACE_FRONT_BIT 0xFF,
       .vkCmdSetStencilWriteMask VK_STENCIL_FACE_FRONT_BIT 0xF0,
       .vkCmdSetStencilReference VK_STENCIL_FACE_BACK_BIT 0x33,
       .vkCmdSetStencilCompareMask VK_STENCIL_FACE_BACK_BIT 0xFF,
       .vkCmdSetStencilWriteMask VK_STENCIL_FACE_BACK_BIT 0xCC] ∧
    sampleDepthStencilState.frontFaceStencil.readMask ≠ 0xFF ∧
    sampleDepthStencilState.backFaceStencil.readMask ≠ 0xFF ∧
    (∀ (s : CommandBuffer) (desc : DepthStencilState),
      (s.cmdBindDepthStencilState desc).commands = s.commands ++
        [.vkCmdSetStencilReference VK_STENCIL_FACE_FRONT_BIT desc.frontFaceStencil.readMask,
         .vkCmdSetStencilCompareMask VK_STENCIL_FACE_FRONT_BIT 0xFF,
         .vkCmdSetStencilWriteMask VK_STENCIL_FACE_FRONT_BIT desc.frontFaceStencil.writeMask,
         .vkCmdSetStencilReference VK_STENCIL_FACE_BACK_BIT desc.backFaceStencil.readMask,
         .vkCmdSetStencilCompareMask VK_STENCIL_FACE_BACK_BIT 0xFF,
         .vkCmdSetStencilWriteMask VK_STENCIL_FACE_BACK_BIT desc.backFaceStencil.writeMask] ∧
      (s.cmdBindDepthStencilState desc).dynamicState_.stencilFrontFailOp_ =
        stencilOpToVkStencilOp desc.frontFaceStencil.stencilFailureOp ∧
      (s.cmdBindDepthStencilState desc).dynamicState_.stencilFrontPassOp_ =
        stencilOpToVkStencilOp desc.frontFaceStencil.depthStencilPassOp ∧
      (s.cmdBindDepthStencilState desc).dynamicState_.stencilFrontDepthFailOp_ =
        stencilOpToVkStencilOp desc.frontFaceStencil.depthFailureOp ∧
      (s.cmdBindDepthStencilState desc).dynamicState_.stencilFrontCompareOp_ =
        s.ctx_.compareOpToVkCompareOp desc.frontFaceStencil.stencilCompareOp ∧
      (s.cmdBindDepthStencilState desc).dynamicState_.stencilBackFailOp_ =
        stencilOpToVkStencilOp desc.backFaceStencil.stencilFailureOp ∧
      (s.cmdBindDepthStencilState desc).dynamicState_.stencilBackPassOp_ =
        stencilOpToVkStencilOp desc.backFaceStencil.depthStencilPassOp ∧
      (s.cmdBindDepthStencilState desc).dynamicState_.stencilBackDepthFailOp_ =
        stencilOpToVkStencilOp desc.backFaceStencil.depthFailureOp ∧
      (s.cmdBindDepthStencilState desc).dynamicState_.stencilBackCompareOp_ =
        s.ctx_.compareOpToVkCompareOp desc.backFaceStencil.stencilCompareOp) := by
  refine ⟨by decide, by decide, by decide, ?_⟩
  intro s desc
  refine ⟨?_, ?_⟩
  · simp [CommandBuffer.cmdBindDepthStencilState, CommandBuffer.setStencilState,
      CommandBuffer.record]
  · simp [CommandBuffer.cmdBindDepthStencilState, CommandBuffer.setStencilState,
      CommandBuffer.record, RenderPipelineDynamicState.setStencilStateOps,
      RenderPipelineDynamicState.setDepthCompareOp, VK_STENCIL_FACE_FRONT_BIT,
      VK_STENCIL_FACE_BACK_BIT]

namespace CommandBuffer

set_option linter.unusedTactic false
set_option linter.unusedVariables false

theorem transitionColorAttachment_framebuffer (s : CommandBuffer) (t : Option VulkanTexture) :
    (transitionColorAttachment s t).framebuffer_ = s.framebuffer_ := by
  unfold transitionColorAttachment
  simp only []
  repeat' split
  all_goals simp

theorem beginTransitionColor_framebuffer (fb : Framebuffer) (i : Nat) (s : CommandBuffer) :
    (beginTransitionColor fb i s).framebuffer_ = s.framebuffer_ := by
  unfold beginTransitionColor
  simp only []
  repeat' split
  all_goals simp [transitionColorAttachment_framebuffer]

theorem foldl_beginTransitionColor_framebuffer (fb : Framebuffer) (is : List Nat)
    (s : CommandBuffer) :
    (is.foldl (fun s i => beginTransitionColor fb i s) s).framebuffer_ = s.framebuffer_ := by
  induction is generalizing s with
  | nil => rfl
  | cons i rest ih => rw [List.foldl_cons, ih, beginTransitionColor_framebuffer]

theorem beginTransitionDepth_framebuffer (fb : Framebuffer) (s : CommandBuffer) :
    (beginTransitionDepth fb s).framebuffer_ = s.framebuffer_ := by
  unfold beginTransitionDepth
  simp only []
  repeat' split
  all_goals simp

theorem beginColorAttachment_framebuffer (renderPass : RenderPass) (fb : Framebuffer) (i : Nat)
    (l : BeginLocals) (s : CommandBuffer) :
    (beginColorAttachment renderPass fb i l s).2.framebuffer_ = s.framebuffer_ := by
  unfold beginColorAttachment
  simp only []
  repeat' split
  all_goals simp

theorem beginColorAttachments_framebuffer (renderPass : RenderPass) (fb : Framebuffer)
    (is : List Nat) (l : BeginLocals) (s : CommandBuffer) :
    (beginColorAttachments renderPass fb is l s).2.framebuffer_ = s.framebuffer_ := by
  induction is generalizing l s with
  | nil => rfl
  | cons i rest ih =>
    unfold beginColorAttachments
    simp only []
    split
    · exact beginColorAttachment_framebuffer renderPass fb i l s
    · rw [ih, beginColorAttachment_framebuffer]

theorem beginDepthAttachment_framebuffer (renderPass : RenderPass) (fb : Framebuffer)
    (l : BeginLocals) (s : CommandBuffer) :
    (beginDepthAttachment renderPass fb l s).2.framebuffer_ = s.framebuffer_ := by
  unfold beginDepthAttachment
  simp only []
  repeat' split
  all_goals simp

theorem beginFinish_framebuffer (renderPass : RenderPass) (fb : Framebuffer) (n : Nat)
    (l : BeginLocals) (s : CommandBuffer) :
    (beginFinish renderPass fb n l s).framebuffer_ = s.framebuffer_ := by
  unfold beginFinish
  simp only []
  split <;> simp [cmdBindViewport, cmdBindScissorRect]

theorem beginColorAttachments_framebuffer_of_eq (renderPass : RenderPass) (fb : Framebuffer)
    (is : List Nat) (l : BeginLocals) (s t : CommandBuffer)
    (h : s.framebuffer_ = t.framebuffer_) :
    (beginColorAttachments renderPass fb is l s).2.framebuffer_ = t.framebuffer_ :=
  h ▸ beginColorAttachments_framebuffer renderPass fb is l s

theorem beginAttachments_framebuffer (renderPass : RenderPass) (fb : Framebuffer) (n : Nat)
    (s : CommandBuffer) :
    (beginAttachments renderPass fb n s).framebuffer_ = s.framebuffer_ := by
  have h0 : (beginTransitionDepth fb
      ((List.range n).foldl (fun s i => beginTransitionColor fb i s) s)).framebuffer_ =
      s.framebuffer_ := by
    rw [beginTransitionDepth_framebuffer, foldl_beginTransitionColor_framebuffer]
  unfold beginAttachments
  simp only []
  repeat' split
  · exact h0
  · rw [← h0]
    exact beginColorAttachments_framebuffer_of_eq renderPass fb _ _ _ _ rfl
  · rw [beginDepthAttachment_framebuffer, ← h0]
    exact beginColorAttachments_framebuffer_of_eq renderPass fb _ _ _ _ rfl
  · rw [beginFinish_framebuffer, beginDepthAttachment_framebuffer, ← h0]
    exact beginColorAttachments_framebuffer_of_eq renderPass fb _ _ _ _ rfl

/-- `cmdBeginRendering` leaves the framebuffer it was given as the snapshot. -/
theorem cmdBeginRendering_framebuffer (s : CommandBuffer) (renderPass : RenderPass)
    (fb : Framebuffer) : (s.cmdBeginRendering renderPass fb).framebuffer_ = fb := by
  unfold cmdBeginRendering
  simp only []
  rw [beginAttachments_framebuffer]

/-- The loop of `cmdEndRendering` on colour attachments that resolve: only
tracked layouts change, and exactly those of the images of these attachments. -/
theorem endColorLayouts_resolved (is : List Nat) (s : CommandBuffer)
    (hres : ∀ i ∈ is, (s.ctx_.texturesPool_ (s.framebuffer_.color i).texture).isSome = true) :
    (endColorLayouts is s).ub = s.ub ∧
    (endColorLayouts is s).ctx_ = s.ctx_ ∧
    (endColorLayouts is s).framebuffer_ = s.framebuffer_ ∧
    (endColorLayouts is s).commands = s.commands ∧
    (endColorLayouts is s).faults = s.faults ∧
    (endColorLayouts is s).isRendering_ = s.isRendering_ ∧
    ∀ a, (endColorLayouts is s).images a =
      if a ∈ (colorTextures s.ctx_ s.framebuffer_ is).map (fun t => t.image_) then
        { s.images a with imageLayout_ := .VK_IMAGE_LAYOUT_COLOR_ATTACHMENT_OPTIMAL }
      else s.images a := by
  induction is generalizing s with
  | nil => simp [endColorLayouts, colorTextures]
  | cons i rest ih =>
    obtain ⟨ct, hct⟩ := Option.isSome_iff_exists.mp (hres i (List.mem_cons_self _ _))
    have hc : colorTextures s.ctx_ s.framebuffer_ (i :: rest) =
        ct :: colorTextures s.ctx_ s.framebuffer_ rest := by
      simp [colorTextures, List.filterMap_cons, hct]
    obtain ⟨k1, k2, k3, k4, k5, k6, k7⟩ :=
      ih (s.setImageLayout ct.image_ .VK_IMAGE_LAYOUT_COLOR_ATTACHMENT_OPTIMAL) (by
        intro j hj
        simp only [setImageLayout_ctx_, setImageLayout_framebuffer_]
        exact hres j (List.mem_cons_of_mem _ hj))
    simp only [setImageLayout_ctx_, setImageLayout_framebuffer_, setImageLayout_ub,
      setImageLayout_commands, setImageLayout_faults, setImageLayout_isRendering_] at k1 k2 k3 k4 k5 k6 k7
    unfold endColorLayouts
    simp only [hct]
    refine ⟨k1, k2, k3, k4, k5, k6, ?_⟩
    intro a
    rw [k7 a, hc]
    simp only [List.map_cons, List.mem_cons, setImageLayout_images]
    by_cases ha : a = ct.image_
    · subst ha
      by_cases hm : ct.image_ ∈ (colorTextures s.ctx_ s.framebuffer_ rest).map (fun t => t.image_)
      · simp [hm]
      · simp [hm]
    · by_cases hm : a ∈ (colorTextures s.ctx_ s.framebuffer_ rest).map (fun t => t.image_)
      · simp [ha, hm, Function.update_noteq ha]
      · simp [ha, hm, Function.update_noteq ha]

end CommandBuffer

/-- Claim C22: `cmdEndRendering` updates the tracked layouts. Called in the
Rendering state on a recorder that has met no undefined behaviour and whose
framebuffer snapshot (the framebuffer given to the last `cmdBeginRendering`)
has attachments that resolve, it raises no fault, records `vkCmdEndRendering`,
sets the tracked layout of the image of the depth-stencil attachment, when
set, to `DEPTH_STENCIL_ATTACHMENT_OPTIMAL` and that of the image of every
colour attachment (other than the depth-stencil image) to
`COLOR_ATTACHMENT_OPTIMAL`, changes nothing but the tracked layout of an
image, leaves every image that belongs to no attachment as it was, clears the
rendering flag and resets the framebuffer snapshot to the empty one (no colour
attachment, no depth-stencil texture). -/
theorem CommandBuffer.cmdEndRendering_layouts (s : CommandBuffer)
    (hr : s.isRendering_ = true) (hub : s.ub = false)
    (hcol : ∀ i, i < s.framebuffer_.getNumColorAttachments →
      (s.ctx_.texturesPool_ (s.framebuffer_.color i).texture).isSome = true)
    (hdep : s.framebuffer_.depthStencil.texture.toBool = true →
      (s.ctx_.texturesPool_ s.framebuffer_.depthStencil.texture).isSome = true) :
    (∀ tex ∈ colorTextures s.ctx_ s.framebuffer_
        (List.range s.framebuffer_.getNumColorAttachments),
      (∀ dt, s.framebuffer_.depthStencil.texture.toBool = true →
        s.ctx_.texturesPool_ s.framebuffer_.depthStencil.texture = some dt →
        dt.image_ ≠ tex.image_) →
      (s.cmdEndRendering.images tex.image_).imageLayout_ =
        .VK_IMAGE_LAYOUT_COLOR_ATTACHMENT_OPTIMAL) ∧
    (∀ dt, s.framebuffer_.depthStencil.texture.toBool = true →
      s.ctx_.texturesPool_ s.framebuffer_.depthStencil.texture = some dt →
      (s.cmdEndRendering.images dt.image_).imageLayout_ =
        .VK_IMAGE_LAYOUT_DEPTH_STENCIL_ATTACHMENT_OPTIMAL) ∧
    (∀ a, (∀ tex ∈ attachmentTextures s.ctx_ s.framebuffer_, tex.image_ ≠ a) →
      s.cmdEndRendering.images a = s.images a) ∧
    (∀ a, ∃ layout, s.cmdEndRendering.images a = { s.images a with imageLayout_ := layout }) ∧
    s.cmdEndRendering.isRendering_ = false ∧
    s.cmdEndRendering.framebuffer_ = {} ∧
    s.cmdEndRendering.framebuffer_.getNumColorAttachments = 0 ∧
    s.cmdEndRendering.framebuffer_.depthStencil.texture.toBool = false ∧
    s.cmdEndRendering.faults = s.faults ∧
    s.cmdEndRendering.commands = s.commands ++ [.vkCmdEndRendering] ∧
    s.cmdEndRendering.ub = false ∧
    (∀ (t : CommandBuffer) (renderPass : RenderPass) (fb : Framebuffer),
      (t.cmdBeginRendering renderPass fb).framebuffer_ = fb) := by
  -- the state in which the loop is entered
  obtain ⟨S0, hS0, f1, f2, f3, f4, f5, f6, f7⟩ : ∃ S0 : CommandBuffer,
      S0 = CommandBuffer.record { s.assert 381 s.isRendering_ with isRendering_ := false }
        .vkCmdEndRendering ∧
      S0.ub = false ∧ S0.ctx_ = s.ctx_ ∧ S0.framebuffer_ = s.framebuffer_ ∧
      S0.commands = s.commands ++ [.vkCmdEndRendering] ∧ S0.faults = s.faults ∧
      S0.images = s.images ∧ S0.isRendering_ = false := by
    refine ⟨_, rfl, ?_, ?_, ?_, ?_, ?_, ?_, rfl⟩
    · show (s.assert 381 s.isRendering_).ub = false
      rw [CommandBuffer.assert_ub, hub]
    · exact CommandBuffer.assert_ctx_ _ _ _
    · exact CommandBuffer.assert_framebuffer_ _ _ _
    · show (s.assert 381 s.isRendering_).commands ++ [VkCmd.vkCmdEndRendering] = _
      rw [CommandBuffer.assert_commands]
    · show (s.assert 381 s.isRendering_).faults = s.faults
      rw [CommandBuffer.assert_faults_eq, hr]
      simp [IGL_ASSERT]
    · exact CommandBuffer.assert_images _ _ _
  obtain ⟨k1, k2, k3, k4, k5, k6, k7⟩ :=
    CommandBuffer.endColorLayouts_resolved (List.range s.framebuffer_.getNumColorAttachments)
      S0 (by
        intro i hi
        rw [f2, f3]
        exact hcol i (List.mem_range.mp hi))
  rw [f1] at k1
  rw [f2] at k2
  rw [f3] at k3
  rw [f4] at k4
  rw [f5] at k5
  rw [f7] at k6
  simp only [f2, f3, f6] at k7
  have key : s.cmdEndRendering =
      if (CommandBuffer.endColorLayouts (List.range S0.framebuffer_.getNumColorAttachments)
          S0).ub = true then
        CommandBuffer.endColorLayouts (List.range S0.framebuffer_.getNumColorAttachments) S0
      else if (CommandBuffer.endColorLayouts
          (List.range S0.framebuffer_.getNumColorAttachments)
          S0).framebuffer_.depthStencil.texture.toBool = true then
        match (CommandBuffer.endColorLayouts
          (List.range S0.framebuffer_.getNumColorAttachments) S0).ctx_.texturesPool_
          (CommandBuffer.endColorLayouts (List.range S0.framebuffer_.getNumColorAttachments)
            S0).framebuffer_.depthStencil.texture with
        | none => (CommandBuffer.endColorLayouts
            (List.range S0.framebuffer_.getNumColorAttachments) S0).crash
        | some tex =>
          { (CommandBuffer.endColorLayouts (List.range S0.framebuffer_.getNumColorAttachments)
              S0).setImageLayout tex.image_
              .VK_IMAGE_LAYOUT_DEPTH_STENCIL_ATTACHMENT_OPTIMAL with
            framebuffer_ := {} }
      else { CommandBuffer.endColorLayouts (List.range S0.framebuffer_.getNumColorAttachments)
          S0 with framebuffer_ := {} } := by
    subst hS0
    rfl
  rw [f3] at key
  generalize CommandBuffer.endColorLayouts (List.range s.framebuffer_.getNumColorAttachments)
    S0 = L at k1 k2 k3 k4 k5 k6 k7 key
  have hempty1 : ({} : Framebuffer).getNumColorAttachments = 0 := by decide
  have hempty2 : ({} : Framebuffer).depthStencil.texture.toBool = false := by decide
  by_cases hd : s.framebuffer_.depthStencil.texture.toBool = true
  · obtain ⟨dt, hdt⟩ := Option.isSome_iff_exists.mp (hdep hd)
    have hres : s.cmdEndRendering =
        { L.setImageLayout dt.image_ .VK_IMAGE_LAYOUT_DEPTH_STENCIL_ATTACHMENT_OPTIMAL with
          framebuffer_ := {} } := by
      rw [key]
      simp only [k1, Bool.false_eq_true, if_false, k3, hd, if_true, k2, hdt]
    have himg : ∀ a, s.cmdEndRendering.images a =
        if a = dt.image_ then
          { L.images dt.image_ with
            imageLayout_ := .VK_IMAGE_LAYOUT_DEPTH_STENCIL_ATTACHMENT_OPTIMAL }
        else L.images a := by
      intro a
      rw [hres]
      show (L.setImageLayout dt.image_ _).images a = _
      rw [CommandBuffer.setImageLayout_images]
      by_cases ha : a = dt.image_
      · subst ha
        simp
      · simp [ha, Function.update_noteq ha]
    have hatt : attachmentTextures s.ctx_ s.framebuffer_ =
        colorTextures s.ctx_ s.framebuffer_
          (List.range s.framebuffer_.getNumColorAttachments) ++ [dt] := by
      simp [attachmentTextures, hd, hdt]
    refine ⟨?_, ?_, ?_, ?_, ?_, ?_, ?_, ?_, ?_, ?_, ?_, ?_⟩
    · intro tex htex hne
      have hne2 : tex.image_ ≠ dt.image_ := fun h => hne dt hd hdt h.symm
      rw [himg, if_neg hne2, k7, if_pos (List.mem_map_of_mem _ htex)]
    · intro dt2 _ hdt2
      rw [hdt] at hdt2
      cases hdt2
      rw [himg, if_pos rfl]
    · intro a ha
      have ha1 : a ≠ dt.image_ := fun h => ha dt (by rw [hatt]; simp) h.symm
      have ha2 : a ∉ (colorTextures s.ctx_ s.framebuffer_
          (List.range s.framebuffer_.getNumColorAttachments)).map (fun t => t.image_) := by
        intro hm
        obtain ⟨tex, htex, rfl⟩ := List.mem_map.mp hm
        exact ha tex (by rw [hatt]; exact List.mem_append_left _ htex) rfl
      rw [himg, if_neg ha1, k7, if_neg ha2]
    · intro a
      rw [himg]
      by_cases ha : a = dt.image_
      · subst ha
        rw [if_pos rfl, k7]
        split <;> exact ⟨_, rfl⟩
      · rw [if_neg ha, k7]
        split
        · exact ⟨_, rfl⟩
        · exact ⟨(s.images a).imageLayout_, rfl⟩
    · rw [hres]
      exact k6
    · rw [hres]
    · rw [hres]
      exact hempty1
    · rw [hres]
      exact hempty2
    · rw [hres]
      exact k5
    · rw [hres]
      exact k4
    · rw [hres]
      exact k1
    · intro t renderPass fb
      exact CommandBuffer.cmdBeginRendering_framebuffer t renderPass fb
  · have hd1 : s.framebuffer_.depthStencil.texture.toBool = false := by simpa using hd
    have hres : s.cmdEndRendering = { L with framebuffer_ := {} } := by
      rw [key]
      simp only [k1, Bool.false_eq_true, if_false, k3, hd1]
    have himg : ∀ a, s.cmdEndRendering.images a = L.images a := by
      intro a
      rw [hres]
    have hatt : attachmentTextures s.ctx_ s.framebuffer_ =
        colorTextures s.ctx_ s.framebuffer_
          (List.range s.framebuffer_.getNumColorAttachments) := by
      simp [attachmentTextures, hd1]
    refine ⟨?_, ?_, ?_, ?_, ?_, ?_, ?_, ?_, ?_, ?_, ?_, ?_⟩
    · intro tex htex _
      rw [himg, k7, if_pos (List.mem_map_of_mem _ htex)]
    · intro dt2 h2 _
      exact absurd h2 hd
    · intro a ha
      have ha2 : a ∉ (colorTextures s.ctx_ s.framebuffer_
          (List.range s.framebuffer_.getNumColorAttachments)).map (fun t => t.image_) := by
        intro hm
        obtain ⟨tex, htex, rfl⟩ := List.mem_map.mp hm
        exact ha tex (by rw [hatt]; exact htex) rfl
      rw [himg, k7, if_neg ha2]
    · intro a
      rw [himg, k7]
      split
      · exact ⟨_, rfl⟩
      · exact ⟨(s.images a).imageLayout_, rfl⟩
    · rw [hres]
      exact k6
    · rw [hres]
    · rw [hres]
      exact hempty1
    · rw [hres]
      exact hempty2
    · rw [hres]
      exact k5
    · rw [hres]
      exact k4
    · rw [hres]
      exact k1
    · intro t renderPass fb
      exact CommandBuffer.cmdBeginRendering_framebuffer t renderPass fb

/-- The witness of C22: on the sample recorder, a pass on texture 1 as colour
attachment and texture 3 as depth-stencil attachment is begun and ended:
image 3 is tracked as `DEPTH_STENCIL_ATTACHMENT_OPTIMAL`, image 1 as
`COLOR_ATTACHMENT_OPTIMAL`, image 2 is as before, and the recorder is no
longer rendering. -/
theorem CommandBuffer.cmdEndRendering_layouts_witness :
    (((sampleRecorder.cmdBeginRendering sampleRenderPass
      sampleFramebufferDepth).cmdEndRendering.images (sampleTexture 3).image_).imageLayout_ =
      .VK_IMAGE_LAYOUT_DEPTH_STENCIL_ATTACHMENT_OPTIMAL) ∧
    (((sampleRecorder.cmdBeginRendering sampleRenderPass
      sampleFramebufferDepth).cmdEndRendering.images 1).imageLayout_ =
      .VK_IMAGE_LAYOUT_COLOR_ATTACHMENT_OPTIMAL) ∧
    ((sampleRecorder.cmdBeginRendering sampleRenderPass
      sampleFramebufferDepth).cmdEndRendering.images 2 =
      (sampleRecorder.cmdBeginRendering sampleRenderPass sampleFramebufferDepth).images 2) ∧
    (sampleRecorder.cmdBeginRendering sampleRenderPass
      sampleFramebufferDepth).cmdEndRendering.isRendering_ = false ∧
    (sampleRecorder.cmdBeginRendering sampleRenderPass
      sampleFramebufferDepth).cmdEndRendering.faults = [] :=
  ⟨(CommandBuffer.cmdEndRendering_layouts
      (sampleRecorder.cmdBeginRendering sampleRenderPass sampleFramebufferDepth)
      (by decide) (by decide) (by decide) (by decide)).2.1 (sampleTexture 3) (by decide) rfl,
   by decide, by decide, by decide, by decide⟩

end vulkan

end lvk

/-! ## The conversion to `float`, and the claims on the render extent, the
dimension checks and push constants -/

namespace lvk


theorem roundToFloat_of_le (n : Nat) (h : n ≤ 2 ^ 24) : roundToFloat n = n := by
  rcases Nat.lt_or_ge n (2 ^ 24) with hlt | hge
  · have he : floatExponent 128 n = 0 := by
      show (if n < 2 ^ 24 then 0 else floatExponent 127 (n / 2) + 1) = 0
      rw [if_pos hlt]
    unfold roundToFloat
    simp [he, Nat.mod_one]
  · have hn : n = 2 ^ 24 := Nat.le_antisymm h hge
    subst hn
    decide

theorem uint32ToFloat_of_le (n : Nat) (h : n ≤ 2 ^ 24) : uint32ToFloat n = (n : Int) := by
  unfold uint32ToFloat
  rw [roundToFloat_of_le n h]

theorem floatSub_zero_of_le (n : Nat) (h : n ≤ 2 ^ 24) : floatSub (n : Int) 0 = (n : Int) := by
  unfold floatSub
  have h0 : ¬ ((n : Int) - 0 < 0) := by omega
  rw [if_neg h0]
  simp only [Int.sub_zero, Int.natAbs_ofNat]
  rw [roundToFloat_of_le n h]

end lvk

namespace lvk

namespace vulkan

namespace CommandBuffer

set_option linter.unusedTactic false
set_option linter.unusedVariables false

/-- `transitionLayout` records one call, a layout transition. -/
theorem transitionLayout_appends (s : CommandBuffer) (image : Nat)
    (newImageLayout : VkImageLayout) (srcStageMask dstStageMask : Nat)
    (subresourceRange : VkImageSubresourceRange) (cs : List VkCmd) (h : s.commands = cs) :
    ∃ ts, (s.transitionLayout image newImageLayout srcStageMask dstStageMask
        subresourceRange).commands = cs ++ ts ∧
      ∀ c ∈ ts, (VkCmd.transitionTarget c).isSome = true := by
  refine ⟨[.transitionLayout image (s.images image).imageLayout_ newImageLayout srcStageMask
    dstStageMask subresourceRange], by rw [transitionLayout_commands, h], ?_⟩
  intro c hc
  rw [List.mem_singleton] at hc
  subst hc
  rfl

/-- `transitionColorAttachment` records at most one call, a layout transition. -/
theorem transitionColorAttachment_commands (s : CommandBuffer) (t : Option VulkanTexture) :
    ∃ ts, (transitionColorAttachment s t).commands = s.commands ++ ts ∧
      ∀ c ∈ ts, (VkCmd.transitionTarget c).isSome = true := by
  unfold transitionColorAttachment
  cases t with
  | none => exact ⟨[], by simp, by simp⟩
  | some tex =>
    simp only []
    split
    · exact ⟨[], by simp, by simp⟩
    · exact transitionLayout_appends _ _ _ _ _ _ s.commands (by first | rfl | simp)

theorem beginTransitionColor_commands (fb : Framebuffer) (i : Nat) (s : CommandBuffer) :
    ∃ ts, (beginTransitionColor fb i s).commands = s.commands ++ ts ∧
      ∀ c ∈ ts, (VkCmd.transitionTarget c).isSome = true := by
  have h1 : ∃ ts, (if (fb.color i).texture.toBool = true then
        transitionColorAttachment s (s.ctx_.texturesPool_ (fb.color i).texture)
      else s).commands = s.commands ++ ts ∧
      ∀ c ∈ ts, (VkCmd.transitionTarget c).isSome = true := by
    split
    · exact transitionColorAttachment_commands _ _
    · exact ⟨[], by simp, by simp⟩
  obtain ⟨t1, e1, m1⟩ := h1
  unfold beginTransitionColor
  simp only []
  split
  · obtain ⟨t2, e2, m2⟩ := transitionColorAttachment_commands
      (if (fb.color i).texture.toBool = true then
        transitionColorAttachment s (s.ctx_.texturesPool_ (fb.color i).texture)
      else s)
      ((if (fb.color i).texture.toBool = true then
        transitionColorAttachment s (s.ctx_.texturesPool_ (fb.color i).texture)
      else s).ctx_.texturesPool_ (fb.color i).resolveTexture)
    refine ⟨t1 ++ t2, by rw [e2, e1, List.append_assoc], ?_⟩
    intro c hc
    rcases List.mem_append.mp hc with h | h
    · exact m1 c h
    · exact m2 c h
  · exact ⟨t1, e1, m1⟩

theorem foldl_beginTransitionColor_commands (fb : Framebuffer) (is : List Nat)
    (s : CommandBuffer) :
    ∃ ts, (is.foldl (fun s i => beginTransitionColor fb i s) s).commands = s.commands ++ ts ∧
      ∀ c ∈ ts, (VkCmd.transitionTarget c).isSome = true := by
  induction is generalizing s with
  | nil => exact ⟨[], by simp, by simp⟩
  | cons i rest ih =>
    obtain ⟨t1, e1, m1⟩ := beginTransitionColor_commands fb i s
    obtain ⟨t2, e2, m2⟩ := ih (beginTransitionColor fb i s)
    refine ⟨t1 ++ t2, by rw [List.foldl_cons, e2, e1, List.append_assoc], ?_⟩
    intro c hc
    rcases List.mem_append.mp hc with h | h
    · exact m1 c h
    · exact m2 c h

theorem beginTransitionDepth_commands (fb : Framebuffer) (s : CommandBuffer) :
    ∃ ts, (beginTransitionDepth fb s).commands = s.commands ++ ts ∧
      ∀ c ∈ ts, (VkCmd.transitionTarget c).isSome = true := by
  unfold beginTransitionDepth
  simp only []
  split
  · split
    · exact ⟨[], by simp, by simp⟩
    · exact transitionLayout_appends _ _ _ _ _ _ s.commands (by first | rfl | simp)
  · exact ⟨[], by simp, by simp⟩

/-- The body of `cmdBeginRendering` on attachments that resolve reaches its
end having recorded layout transitions only. -/
theorem beginAttachments_resolved_commands (renderPass : RenderPass) (fb : Framebuffer)
    (s : CommandBuffer) (hub : s.ub = false)
    (hres : attachmentsResolve s.ctx_ renderPass fb) :
    ∃ (l : BeginLocals) (t : CommandBuffer) (ts : List VkCmd),
      beginAttachments renderPass fb fb.getNumColorAttachments s =
        beginFinish renderPass fb fb.getNumColorAttachments l t ∧
      t.ub = false ∧
      (l.fbWidth, l.fbHeight, l.mipLevel) = renderExtentSource s.ctx_ renderPass fb ∧
      t.commands = s.commands ++ ts ∧
      ∀ c ∈ ts, (VkCmd.transitionTarget c).isSome = true := by
  obtain ⟨hcol, hdep⟩ := hres
  have hc0 : (beginTransitionDepth fb ((List.range fb.getNumColorAttachments).foldl
        (fun s i => beginTransitionColor fb i s) s)).ctx_ = s.ctx_ := by
    rw [beginTransitionDepth_ctx, foldl_beginTransitionColor_ctx]
  have hu0 : (beginTransitionDepth fb ((List.range fb.getNumColorAttachments).foldl
        (fun s i => beginTransitionColor fb i s) s)).ub = false := by
    rw [beginTransitionDepth_ub, foldl_beginTransitionColor_ub, hub]
    rw [foldl_beginTransitionColor_ctx]
    exact hdep
  have hm0 : ∃ ts, (beginTransitionDepth fb ((List.range fb.getNumColorAttachments).foldl
        (fun s i => beginTransitionColor fb i s) s)).commands = s.commands ++ ts ∧
      ∀ c ∈ ts, (VkCmd.transitionTarget c).isSome = true := by
    obtain ⟨t1, e1, m1⟩ := foldl_beginTransitionColor_commands fb
      (List.range fb.getNumColorAttachments) s
    obtain ⟨t2, e2, m2⟩ := beginTransitionDepth_commands fb
      ((List.range fb.getNumColorAttachments).foldl (fun s i => beginTransitionColor fb i s) s)
    refine ⟨t1 ++ t2, by rw [e2, e1, List.append_assoc], ?_⟩
    intro c hc
    rcases List.mem_append.mp hc with h | h
    · exact m1 c h
    · exact m2 c h
  generalize hs0 : beginTransitionDepth fb ((List.range fb.getNumColorAttachments).foldl
        (fun s i => beginTransitionColor fb i s) s) = s0 at hc0 hu0 hm0
  obtain ⟨ts, hts, hmem⟩ := hm0
  have hcol1 : ∀ i ∈ List.range fb.getNumColorAttachments,
      (s0.ctx_.texturesPool_ (fb.color i).texture).isSome = true ∧
      ((renderPass.color i).storeOp = .StoreOp_MsaaResolve →
        (s0.ctx_.texturesPool_ (fb.color i).resolveTexture).isSome = true) := by
    intro i hi
    rw [hc0]
    exact hcol i (List.mem_range.mp hi)
  obtain ⟨k1, k2, k3, k4, k5, k6, -, -⟩ :=
    beginColorAttachments_resolved renderPass fb (List.range fb.getNumColorAttachments) {}
      { s0 with dynamicState_ := { s0.dynamicState_ with depthBiasEnable_ := false } } hu0 hcol1
  generalize hr : beginColorAttachments renderPass fb (List.range fb.getNumColorAttachments) {}
    { s0 with dynamicState_ := { s0.dynamicState_ with depthBiasEnable_ := false } } = r
    at k1 k2 k3 k4 k5 k6
  have k2 : r.2.ctx_ = s.ctx_ := k2.trans hc0
  have k3 : r.2.commands = s.commands ++ ts := k3.trans hts
  have k4 : r.1.fbWidth = ((colorTextures s.ctx_ fb (List.range fb.getNumColorAttachments)).map
      (fun x => x.dimensions.width)).foldl (fun _ x => x) 0 := by
    rw [k4]
    show ((colorTextures s0.ctx_ fb _).map _).foldl _ 0 = _
    rw [hc0]
  have k5 : r.1.fbHeight = ((colorTextures s.ctx_ fb (List.range fb.getNumColorAttachments)).map
      (fun x => x.dimensions.height)).foldl (fun _ x => x) 0 := by
    rw [k5]
    show ((colorTextures s0.ctx_ fb _).map _).foldl _ 0 = _
    rw [hc0]
  have k6 : r.1.mipLevel = (List.range fb.getNumColorAttachments).foldl
      (fun _ i => (renderPass.color i).level) 0 := k6
  have key : beginAttachments renderPass fb fb.getNumColorAttachments s =
      if s0.ub = true then s0
      else if r.2.ub = true then r.2
      else if (beginDepthAttachment renderPass fb r.1 r.2).2.ub = true then
        (beginDepthAttachment renderPass fb r.1 r.2).2
      else beginFinish renderPass fb fb.getNumColorAttachments
        (beginDepthAttachment renderPass fb r.1 r.2).1
        (beginDepthAttachment renderPass fb r.1 r.2).2 := by
    subst hr
    subst hs0
    rfl
  rw [key]
  simp only [hu0, Bool.false_eq_true, if_false, k1]
  by_cases hd : fb.depthStencil.texture.toBool = true
  · obtain ⟨dt, hdt⟩ := Option.isSome_iff_exists.mp (hdep hd)
    obtain ⟨d1, d2, d3, d4, d5, d6, -, -⟩ :=
      beginDepthAttachment_resolved renderPass fb r.1 r.2 dt hd (k2 ▸ hdt)
    have d1 : (beginDepthAttachment renderPass fb r.1 r.2).2.ub = false := d1.trans k1
    refine ⟨(beginDepthAttachment renderPass fb r.1 r.2).1,
      (beginDepthAttachment renderPass fb r.1 r.2).2, ts, ?_, d1, ?_, d3.trans k3, hmem⟩
    · simp only [d1, Bool.false_eq_true, if_false]
    · simp only [renderExtentSource, hd, if_true, hdt, d4, d5, d6]
  · have hd1 : fb.depthStencil.texture.toBool = false := by simpa using hd
    have hd2 : beginDepthAttachment renderPass fb r.1 r.2 = (r.1, r.2) := by
      unfold beginDepthAttachment
      simp only [hd1, Bool.false_eq_true, if_false]
    refine ⟨r.1, r.2, ts, ?_, k1, ?_, k3, hmem⟩
    · simp only [hd2, k1, Bool.false_eq_true, if_false]
    · simp only [renderExtentSource, hd1, Bool.false_eq_true, if_false]
      by_cases hn : fb.getNumColorAttachments = 0
      · rw [k4, k5, k6]
        simp [hn, colorTextures]
      · obtain ⟨ct, hct⟩ := Option.isSome_iff_exists.mp
          (hcol (fb.getNumColorAttachments - 1) (by omega)).1
        rw [k4, k5, k6, colorTextures_last _ _ _ _ _ hn ct hct,
          colorTextures_last _ _ _ _ _ hn ct hct, foldl_last_range _ _ _ hn]
        simp only [hn, if_false, hct]

/-- `cmdBeginRendering` on attachments that resolve: the state and the locals
with which `beginFinish` is entered, and what has been recorded until then. -/
theorem cmdBeginRendering_resolved_commands (s : CommandBuffer) (renderPass : RenderPass)
    (fb : Framebuffer) (hub : s.ub = false) (hres : attachmentsResolve s.ctx_ renderPass fb) :
    ∃ (l : BeginLocals) (t : CommandBuffer) (ts : List VkCmd),
      s.cmdBeginRendering renderPass fb =
        beginFinish renderPass fb fb.getNumColorAttachments l t ∧
      t.ub = false ∧
      (l.fbWidth, l.fbHeight, l.mipLevel) = renderExtentSource s.ctx_ renderPass fb ∧
      t.commands = s.commands ++ ts ∧
      ∀ c ∈ ts, (VkCmd.transitionTarget c).isSome = true := by
  have h := beginAttachments_resolved_commands renderPass fb
    { (CommandBuffer.assert { s.assert 229 (!s.isRendering_) with isRendering_ := true } 236
        (renderPass.getNumColorAttachments == fb.getNumColorAttachments)) with
      framebuffer_ := fb }
    (by simpa using hub) (by simpa using hres)
  simpa [cmdBeginRendering] using h

end CommandBuffer

end vulkan

end lvk

namespace lvk

/-- The exponent found by `floatExponent` divides every value that has a
24-bit significand already. -/
theorem floatExponent_dvd (fuel : Nat) :
    ∀ (n m k : Nat), n = m * 2 ^ k → m ≤ 2 ^ 24 → 2 ^ floatExponent fuel n ∣ n := by
  induction fuel with
  | zero =>
    intro n m k _ _
    simp [floatExponent]
  | succ fuel ih =>
    intro n m k hn hm
    unfold floatExponent
    split
    · simp
    · rename_i hlt
      cases k with
      | zero =>
        have h24 : n = 2 ^ 24 := by
          rw [pow_zero, mul_one] at hn
          omega
        have h0 : floatExponent fuel (n / 2) = 0 := by
          rw [h24]
          cases fuel with
          | zero => rfl
          | succ f =>
            unfold floatExponent
            norm_num
        rw [h0, h24]
        norm_num
      | succ k =>
        have h2 : n / 2 = m * 2 ^ k := by
          rw [hn, pow_succ, ← mul_assoc]
          exact Nat.mul_div_cancel _ (by norm_num)
        have hd := ih (n / 2) m k h2 hm
        have hn2 : n = 2 * (n / 2) := by
          rw [h2, hn, pow_succ]
          ring
        rw [pow_succ, mul_comm]
        conv_rhs => rw [hn2]
        exact Nat.mul_dvd_mul_left 2 hd

/-- With enough fuel the significand left by `floatExponent` has 24 bits. -/
theorem floatExponent_lt (fuel : Nat) :
    ∀ n : Nat, n < 2 ^ (24 + fuel) → n / 2 ^ floatExponent fuel n < 2 ^ 24 := by
  induction fuel with
  | zero =>
    intro n hn
    simpa [floatExponent] using hn
  | succ fuel ih =>
    intro n hn
    unfold floatExponent
    split
    · rename_i hlt
      simpa using hlt
    · have h2 : n / 2 < 2 ^ (24 + fuel) := by
        rw [Nat.div_lt_iff_lt_mul (by norm_num)]
        calc n < 2 ^ (24 + (fuel + 1)) := hn
          _ = 2 ^ (24 + fuel) * 2 := by rw [← Nat.add_assoc, pow_succ]
      have h := ih (n / 2) h2
      rw [pow_succ, mul_comm, ← Nat.div_div_eq_div_mul]
      exact h

/-- A value with a 24-bit significand is a `float`: the conversion keeps it. -/
theorem roundToFloat_of_significand (n m k : Nat) (hn : n = m * 2 ^ k) (hm : m ≤ 2 ^ 24) :
    roundToFloat n = n := by
  have hd := floatExponent_dvd 128 n m k hn hm
  have hr : n % 2 ^ floatExponent 128 n = 0 := Nat.mod_eq_zero_of_dvd hd
  unfold roundToFloat
  rw [hr]
  have hpos : 2 * 0 < 2 ^ floatExponent 128 n := by
    simp
  rw [if_pos (Or.inl hpos)]
  exact Nat.div_mul_cancel hd

/-- Converting twice is converting once, for the values of a `uint32_t` and
far beyond. -/
theorem roundToFloat_idem (n : Nat) (h : n < 2 ^ 152) :
    roundToFloat (roundToFloat n) = roundToFloat n := by
  have hq := floatExponent_lt 128 n (by simpa using h)
  have key : ∃ m, roundToFloat n = m * 2 ^ floatExponent 128 n ∧ m ≤ 2 ^ 24 := by
    unfold roundToFloat
    split
    · exact ⟨_, rfl, le_of_lt hq⟩
    · exact ⟨_, rfl, hq⟩
  obtain ⟨m, hm, hle⟩ := key
  exact roundToFloat_of_significand _ m _ hm hle

/-- Subtracting `0.0f` from a converted `uint32_t` leaves it as it is. -/
theorem floatSub_uint32ToFloat_zero (n : Nat) (h : n < 2 ^ 32) :
    floatSub (uint32ToFloat n) 0 = uint32ToFloat n := by
  have hi := roundToFloat_idem n (lt_of_lt_of_le h (by norm_num))
  unfold floatSub uint32ToFloat
  have hnn : ¬ (((roundToFloat n : Nat) : Int) - 0 < 0) := by
    simp
  rw [if_neg hnn]
  simp only [sub_zero, Int.natAbs_ofNat]
  rw [hi]

end lvk

namespace lvk

namespace vulkan

set_option linter.unusedTactic false
set_option linter.unusedVariables false

/-- Claim C19, as amended: `cmdBeginRendering` derives the viewport and
scissor from the mip-adjusted dimensions. With (W, H, level) of
`renderExtentSource` (the depth-stencil attachment when set, otherwise the
last colour attachment, zero without attachments), `level < 32`,
`w = max(W >> level, 1)` and `h = max(H >> level, 1)`, on a recorder that has
met no undefined behaviour and a framebuffer whose attachments resolve, the
call records, after layout transitions only, `vkCmdSetViewport` with x 0,
y `(float)h - 0.0f`, width `(float)w`, height `-(float)h` and depth range 0
to 1 (the viewport (0, 0, (float)w, (float)h, 0, 1) as `cmdBindViewport`
flips it), `vkCmdSetScissor` with offset (0, 0) and extent (w, h), the two
descriptor-set calls and `vkCmdBeginRendering` with render area (0, 0, w, h),
and nothing else; it meets no undefined behaviour. The floats are w and h
themselves when these are at most 2^24, and y is `(float)h` for every
`uint32_t` h. Both extents are at least 1, `w ≤ max(W, 1)` and
`h ≤ max(H, 1)`. -/
theorem CommandBuffer.cmdBeginRendering_render_extent (s : CommandBuffer)
    (renderPass : RenderPass) (fb : Framebuffer) (hub : s.ub = false)
    (hres : attachmentsResolve s.ctx_ renderPass fb)
    (hlevel : (renderExtentSource s.ctx_ renderPass fb).2.2 < 32) :
    (∃ (ts : List VkCmd) (info : VkRenderingInfo),
      (s.cmdBeginRendering renderPass fb).commands =
        s.commands ++ ts ++
          [.vkCmdSetViewport 0 1
            { x := 0,
              y := floatSub (uint32ToFloat (renderExtent s.ctx_ renderPass fb).2) 0,
              width := uint32ToFloat (renderExtent s.ctx_ renderPass fb).1,
              height := -(uint32ToFloat (renderExtent s.ctx_ renderPass fb).2),
              minDepth := 0, maxDepth := 1 },
           .vkCmdSetScissor 0 1
            { offsetX := 0, offsetY := 0,
              extentWidth := (renderExtent s.ctx_ renderPass fb).1,
              extentHeight := (renderExtent s.ctx_ renderPass fb).2 },
           .checkAndUpdateDescriptorSets,
           .bindDefaultDescriptorSets .VK_PIPELINE_BIND_POINT_GRAPHICS,
           .vkCmdBeginRendering info] ∧
      (∀ c ∈ ts, (VkCmd.transitionTarget c).isSome = true) ∧
      info.renderArea =
        { offsetX := 0, offsetY := 0, extentWidth := (renderExtent s.ctx_ renderPass fb).1,
          extentHeight := (renderExtent s.ctx_ renderPass fb).2 }) ∧
    (s.cmdBeginRendering renderPass fb).ub = false ∧
    ((renderExtent s.ctx_ renderPass fb).1 ≤ 2 ^ 24 →
      uint32ToFloat (renderExtent s.ctx_ renderPass fb).1 =
        ((renderExtent s.ctx_ renderPass fb).1 : Int)) ∧
    ((renderExtent s.ctx_ renderPass fb).2 ≤ 2 ^ 24 →
      uint32ToFloat (renderExtent s.ctx_ renderPass fb).2 =
        ((renderExtent s.ctx_ renderPass fb).2 : Int)) ∧
    ((renderExtent s.ctx_ renderPass fb).2 < 2 ^ 32 →
      floatSub (uint32ToFloat (renderExtent s.ctx_ renderPass fb).2) 0 =
        uint32ToFloat (renderExtent s.ctx_ renderPass fb).2) ∧
    (renderExtent s.ctx_ renderPass fb).1 =
      max ((renderExtentSource s.ctx_ renderPass fb).1 >>>
        (renderExtentSource s.ctx_ renderPass fb).2.2) 1 ∧
    (renderExtent s.ctx_ renderPass fb).2 =
      max ((renderExtentSource s.ctx_ renderPass fb).2.1 >>>
        (renderExtentSource s.ctx_ renderPass fb).2.2) 1 ∧
    1 ≤ (renderExtent s.ctx_ renderPass fb).1 ∧ 1 ≤ (renderExtent s.ctx_ renderPass fb).2 ∧
    (renderExtent s.ctx_ renderPass fb).1 ≤ max (renderExtentSource s.ctx_ renderPass fb).1 1 ∧
    (renderExtent s.ctx_ renderPass fb).2 ≤ max (renderExtentSource s.ctx_ renderPass fb).2.1 1 := by
  obtain ⟨l, t, ts, he, hu, hl, hc, hmem⟩ :=
    CommandBuffer.cmdBeginRendering_resolved_commands s renderPass fb hub hres
  have hshift : ∀ a b : Nat, a >>> b ≤ a := fun a b => by
    rw [Nat.shiftRight_eq_div_pow]
    exact Nat.div_le_self _ _
  rw [← hl] at hlevel
  have hlv : ¬ 32 ≤ l.mipLevel := by simpa using hlevel
  refine ⟨?_, ?_, uint32ToFloat_of_le _, uint32ToFloat_of_le _,
    floatSub_uint32ToFloat_zero _, rfl, rfl, ?_, ?_, ?_, ?_⟩
  · refine ⟨ts,
      { sType := VK_STRUCTURE_TYPE_RENDERING_INFO,
        pNext := nullptr,
        flags := 0,
        renderArea :=
          { offsetX := 0, offsetY := 0, extentWidth := (renderExtent s.ctx_ renderPass fb).1,
            extentHeight := (renderExtent s.ctx_ renderPass fb).2 },
        layerCount := 1,
        viewMask := 0,
        colorAttachmentCount := fb.getNumColorAttachments,
        pColorAttachments := l.colorAttachments,
        pDepthAttachment :=
          if fb.depthStencil.texture.toBool then some l.depthAttachment else none,
        pStencilAttachment :=
          if decide (renderPass.stencil.loadOp ≠ .LoadOp_Invalid) then some l.depthAttachment
          else none }, ?_, hmem, rfl⟩
    rw [he]
    unfold CommandBuffer.beginFinish
    simp only [hlv, if_false, renderExtent, ← hl]
    show t.commands ++ _ ++ _ ++ _ ++ _ ++ _ = _
    rw [hc]
    simp only [List.append_assoc, List.singleton_append, List.cons_append, List.nil_append]
    rfl
  · rw [he]
    unfold CommandBuffer.beginFinish
    simp only [hlv, if_false]
    exact hu
  · exact le_max_right _ _
  · exact le_max_right _ _
  · exact max_le_max (hshift _ _) (le_refl 1)
  · exact max_le_max (hshift _ _) (le_refl 1)

/-- The counterexample of C19: with a colour attachment of 16777217 by
33554433 at level 0 the extent (w, h) is that size and the scissor carries it,
but the viewport recorded has width 16777216 and height 33554432: the
conversion to `float` rounds them, and the viewport of the claim is not
recorded. -/
theorem CommandBuffer.cmdBeginRendering_render_extent_counterexample :
    sampleRecorderLarge.ub = false ∧
    attachmentsResolve sampleRecorderLarge.ctx_ sampleRenderPass sampleFramebuffer ∧
    renderExtentSource sampleRecorderLarge.ctx_ sampleRenderPass sampleFramebuffer =
      (16777217, 33554433, 0) ∧
    renderExtent sampleRecorderLarge.ctx_ sampleRenderPass sampleFramebuffer =
      (16777217, 33554433) ∧
    ((sampleRecorderLarge.cmdBeginRendering sampleRenderPass sampleFramebuffer).commands.drop
        1).take 2 =
      [.vkCmdSetViewport 0 1
        { x := 0, y := 33554432, width := 16777216, height := -33554432, minDepth := 0,
          maxDepth := 1 },
       .vkCmdSetScissor 0 1
        { offsetX := 0, offsetY := 0, extentWidth := 16777217, extentHeight := 33554433 }] ∧
    VkCmd.vkCmdSetViewport 0 1
        { x := 0, y := 33554433, width := 16777217, height := -33554433, minDepth := 0,
          maxDepth := 1 } ∉
      (sampleRecorderLarge.cmdBeginRendering sampleRenderPass sampleFramebuffer).commands := by
  decide

/-- The witness of C19: the sample framebuffer with the 512 x 512 colour
attachment, the pass rendering to its mip level 0; the viewport recorded is
(0, 512, 512, -512, 0, 1). -/
theorem CommandBuffer.cmdBeginRendering_render_extent_witness :
    attachmentsResolve sampleRecorder.ctx_ sampleRenderPass sampleFramebuffer ∧
    (renderExtentSource sampleRecorder.ctx_ sampleRenderPass sampleFramebuffer).2.2 < 32 ∧
    renderExtent sampleRecorder.ctx_ sampleRenderPass sampleFramebuffer = (512, 512) ∧
    ((sampleRecorder.cmdBeginRendering sampleRenderPass sampleFramebuffer).commands.drop
        1).take 2 =
      [.vkCmdSetViewport 0 1
        { x := 0, y := 512, width := 512, height := -512, minDepth := 0, maxDepth := 1 },
       .vkCmdSetScissor 0 1
        { offsetX := 0, offsetY := 0, extentWidth := 512, extentHeight := 512 }] ∧
    (sampleRecorder.cmdBeginRendering sampleRenderPass sampleFramebuffer).ub = false :=
  ⟨by decide, by decide, by decide, by decide,
   (CommandBuffer.cmdBeginRendering_render_extent sampleRecorder sampleRenderPass
      sampleFramebuffer (by decide) (by decide) (by decide)).2.1⟩

end vulkan

end lvk

namespace lvk

namespace vulkan

set_option linter.unusedTactic false
set_option linter.unusedVariables false

theorem mismatches_pos_of_dropLast (p : Nat) (xs : List Nat) (hp : p ≠ 0)
    (hx : ∀ x ∈ xs.dropLast, x ≠ 0) (h : ∃ x ∈ xs, x ≠ p) : 0 < mismatches p xs := by
  induction xs generalizing p with
  | nil => simp at h
  | cons x rest ih =>
    by_cases hxp : x = p
    · subst hxp
      obtain ⟨y, hy, hne⟩ := h
      have hy2 : y ∈ rest := by
        rcases List.mem_cons.mp hy with h1 | h1
        · exact absurd h1 hne
        · exact h1
      have hrest : rest ≠ [] := List.ne_nil_of_mem hy2
      have hd : (x :: rest).dropLast = x :: rest.dropLast := by
        cases rest with
        | nil => exact absurd rfl hrest
        | cons a as => rfl
      rw [hd] at hx
      have := ih x hp (fun z hz => hx z (List.mem_cons_of_mem _ hz)) ⟨y, hy2, hne⟩
      simp only [mismatches]
      omega
    · simp [mismatches, hp, hxp]

theorem mismatches_zero_pos_of_dropLast (xs : List Nat) (hx : ∀ x ∈ xs.dropLast, x ≠ 0)
    (h : ∃ a ∈ xs, ∃ b ∈ xs, a ≠ b) : 0 < mismatches 0 xs := by
  cases xs with
  | nil => simp at h
  | cons x rest =>
    simp only [mismatches, ne_eq, not_true_eq_false, false_and, if_false, Nat.zero_add]
    have hex : ∃ y ∈ rest, y ≠ x := by
      by_contra hc
      push_neg at hc
      obtain ⟨a, ha, b, hb, hab⟩ := h
      have ha2 : a = x := by
        rcases List.mem_cons.mp ha with h1 | h1
        · exact h1
        · exact hc a h1
      have hb2 : b = x := by
        rcases List.mem_cons.mp hb with h1 | h1
        · exact h1
        · exact hc b h1
      exact hab (ha2.trans hb2.symm)
    obtain ⟨y, hy, hne⟩ := hex
    have hrest : rest ≠ [] := List.ne_nil_of_mem hy
    have hd : (x :: rest).dropLast = x :: rest.dropLast := by
      cases rest with
      | nil => exact absurd rfl hrest
      | cons a as => rfl
    rw [hd] at hx
    exact mismatches_pos_of_dropLast x rest (hx x (List.mem_cons_self _ _))
      (fun z hz => hx z (List.mem_cons_of_mem _ hz)) ⟨y, hy, hne⟩

end vulkan

end lvk

namespace lvk

namespace vulkan

set_option linter.unusedTactic false
set_option linter.unusedVariables false

/-- Claim C16, as amended: `cmdPushConstants` never returns early: for every
data pointer, size and offset it records exactly one `vkCmdPushConstants`,
carrying the offset and the size converted to `uint32_t`, and it meets no
undefined behaviour of its own. When `size + offset` fits a `size_t`, the
warning of line 497 is logged if and only if `size + offset` exceeds
`maxPushConstantsSize`. For a size and an offset below `2^32` the command
carries that offset and that size. -/
theorem CommandBuffer.cmdPushConstants_reports (s : CommandBuffer) (data size offset : Nat) :
    (s.cmdPushConstants data size offset).commands = s.commands ++
      [.vkCmdPushConstants s.ctx_.vkPipelineLayout_
        (VK_SHADER_STAGE_VERTEX_BIT ||| VK_SHADER_STAGE_FRAGMENT_BIT |||
          VK_SHADER_STAGE_COMPUTE_BIT)
        (offset % 2 ^ 32) (size % 2 ^ 32) data] ∧
    (s.cmdPushConstants data size offset).ub = s.ub ∧
    (size + offset < 2 ^ 64 →
      (s.cmdPushConstants data size offset).warnings = s.warnings ++
        (if size + offset ≤ s.ctx_.maxPushConstantsSize then [] else [497])) ∧
    (size < 2 ^ 32 → offset < 2 ^ 32 →
      (s.cmdPushConstants data size offset).commands = s.commands ++
        [.vkCmdPushConstants s.ctx_.vkPipelineLayout_
          (VK_SHADER_STAGE_VERTEX_BIT ||| VK_SHADER_STAGE_FRAGMENT_BIT |||
            VK_SHADER_STAGE_COMPUTE_BIT) offset size data]) := by
  have hcmd : (s.cmdPushConstants data size offset).commands = s.commands ++
      [.vkCmdPushConstants s.ctx_.vkPipelineLayout_
        (VK_SHADER_STAGE_VERTEX_BIT ||| VK_SHADER_STAGE_FRAGMENT_BIT |||
          VK_SHADER_STAGE_COMPUTE_BIT)
        (offset % 2 ^ 32) (size % 2 ^ 32) data] := by
    unfold CommandBuffer.cmdPushConstants
    simp only []
    split <;> simp
  have hwarn : (s.cmdPushConstants data size offset).warnings = s.warnings ++
      (if (size + offset) % 2 ^ 64 ≤ s.ctx_.maxPushConstantsSize then [] else [497]) := by
    unfold CommandBuffer.cmdPushConstants
    simp only []
    generalize (size + offset) % 2 ^ 64 = m
    by_cases h : m ≤ s.ctx_.maxPushConstantsSize
    · simp [h]
    · simp [h]
  have hub : (s.cmdPushConstants data size offset).ub = s.ub := by
    unfold CommandBuffer.cmdPushConstants
    simp only []
    split <;> simp
  refine ⟨hcmd, hub, ?_, ?_⟩
  · intro hsum
    have h3 : (size + offset) % 2 ^ 64 = size + offset := Nat.mod_eq_of_lt hsum
    rw [hwarn, h3]
  · intro hs ho
    have h1 : size % 2 ^ 32 = size := Nat.mod_eq_of_lt hs
    have h2 : offset % 2 ^ 32 = offset := Nat.mod_eq_of_lt ho
    rw [hcmd, h1, h2]

/-- The counterexample of C16, on the sample recorder (limit 128): a size of
`2^32 + 4`, a multiple of 4, is recorded as 4; the warning is logged. -/
theorem CommandBuffer.cmdPushConstants_counterexample :
    (2 ^ 32 + 4) % 4 = 0 ∧
    (sampleRecorder.cmdPushConstants 9 (2 ^ 32 + 4) 0).commands =
      [.vkCmdPushConstants 77 0x31 0 4 9] ∧
    (sampleRecorder.cmdPushConstants 9 (2 ^ 32 + 4) 0).warnings = [497] := by
  decide

/-- The witness of C16, on the sample recorder (limit 128): sixteen bytes at
offset 0 are recorded as they are, without a warning. -/
theorem CommandBuffer.cmdPushConstants_reports_witness :
    (sampleRecorder.cmdPushConstants 9 16 0).warnings = sampleRecorder.warnings ++
        (if 16 + 0 ≤ sampleRecorder.ctx_.maxPushConstantsSize then [] else [497]) ∧
    (sampleRecorder.cmdPushConstants 9 16 0).commands = sampleRecorder.commands ++
        [.vkCmdPushConstants sampleRecorder.ctx_.vkPipelineLayout_
          (VK_SHADER_STAGE_VERTEX_BIT ||| VK_SHADER_STAGE_FRAGMENT_BIT |||
            VK_SHADER_STAGE_COMPUTE_BIT) 0 16 9] ∧
    (sampleRecorder.cmdPushConstants 9 16 0).warnings = [] :=
  ⟨(CommandBuffer.cmdPushConstants_reports sampleRecorder 9 16 0).2.2.1 (by decide),
   (CommandBuffer.cmdPushConstants_reports sampleRecorder 9 16 0).2.2.2 (by decide) (by decide),
   by decide⟩

end vulkan

end lvk
